import Mathlib

/-!
# Desktop-identity resolution of virtual-overlay

A shallow embedding of `src/desktop/VirtualDesktopInterop.h` and
`src/desktop/VirtualDesktop.cpp`: the build classifier, the per-variant
identifier tables, and the `VirtualDesktop` object with its lifecycle,
queries, listener registration and polling tick.  The operating system is
an explicit argument: every operation takes an `Interop` record holding the
answers of the calls it makes.
-/

namespace VirtualOverlay

/-! ## Result codes and machine integers -/

/-- A COM result code, a signed 32-bit integer. -/
abbrev HRESULT := Int

/-- The macro `SUCCEEDED(hr)`, that is `hr >= 0`. -/
def SUCCEEDED (hr : HRESULT) : Bool := decide (0 ≤ hr)

/-- The macro `FAILED(hr)`, that is `hr < 0`. -/
def FAILED (hr : HRESULT) : Bool := decide (hr < 0)

def S_OK : HRESULT := 0
def S_FALSE : HRESULT := 1
def E_FAIL : HRESULT := 0x80004005 - 2 ^ 32
def E_NOINTERFACE : HRESULT := 0x80004002 - 2 ^ 32
def E_POINTER : HRESULT := 0x80004003 - 2 ^ 32
def E_OUTOFMEMORY : HRESULT := 0x8007000E - 2 ^ 32
def RPC_E_CHANGED_MODE : HRESULT := 0x80010106 - 2 ^ 32

/-- The registry result `ERROR_SUCCESS`. -/
def ERROR_SUCCESS : Nat := 0

/-- The registry value type `REG_SZ`. -/
def REG_SZ : Nat := 1

/-- The conversion `static_cast<int>(u)` of a 32-bit unsigned value. -/
def toInt32 (u : Nat) : Int :=
  if u % 2 ^ 32 < 2 ^ 31 then ((u % 2 ^ 32 : Nat) : Int) else ((u % 2 ^ 32 : Nat) : Int) - 2 ^ 32

/-- The conversion `static_cast<UINT>(i)` of a signed value. -/
def toUInt32 (i : Int) : Nat := (i % 2 ^ 32).toNat

/-! ## Identifiers -/

/-- The Windows `GUID` record: `Data1`, `Data2`, `Data3` and the eight bytes of `Data4`. -/
structure GUID where
  Data1 : Nat := 0
  Data2 : Nat := 0
  Data3 : Nat := 0
  Data4 : List Nat := [0, 0, 0, 0, 0, 0, 0, 0]
  deriving DecidableEq, Repr

/-- The value-initialised identifier `GUID{}`, all zero. -/
def GUID.empty : GUID := {}

/-- The function `IsEqualGUID`. -/
def IsEqualGUID (a b : GUID) : Bool := decide (a = b)

/-- Public VirtualDesktopManager CLSID, aa509086-5ca9-4c25-8f95-589d3c07b48a. -/
def CLSID_VirtualDesktopManager : GUID :=
  ⟨0xaa509086, 0x5ca9, 0x4c25, [0x8f, 0x95, 0x58, 0x9d, 0x3c, 0x07, 0xb4, 0x8a]⟩

/-- Public IVirtualDesktopManager IID, a5cd92ff-29be-454c-8d04-d82879fb3f1b. -/
def IID_IVirtualDesktopManager : GUID :=
  ⟨0xa5cd92ff, 0x29be, 0x454c, [0x8d, 0x04, 0xd8, 0x28, 0x79, 0xfb, 0x3f, 0x1b]⟩

/-- Immersive Shell CLSID, c2f03a33-21f5-47fa-b4bb-156362a2f239. -/
def CLSID_ImmersiveShell : GUID :=
  ⟨0xc2f03a33, 0x21f5, 0x47fa, [0xb4, 0xbb, 0x15, 0x63, 0x62, 0xa2, 0xf2, 0x39]⟩

/-- VirtualDesktopNotificationService CLSID, c5e0cdca-7b6e-41b2-9fc4-d93975cc467b. -/
def CLSID_VirtualDesktopNotificationService : GUID :=
  ⟨0xc5e0cdca, 0x7b6e, 0x41b2, [0x9f, 0xc4, 0xd9, 0x39, 0x75, 0xcc, 0x46, 0x7b]⟩

/-- The CLSID used for the internal manager, c2f03a33-21f5-47fa-b4bb-156362a2f239. -/
def CLSID_VirtualDesktopManagerInternal : GUID :=
  ⟨0xc2f03a33, 0x21f5, 0x47fa, [0xb4, 0xbb, 0x15, 0x63, 0x62, 0xa2, 0xf2, 0x39]⟩

/-- The interface identifier of `IVirtualDesktopNotificationService`,
0cd45e71-d927-4f15-8b0a-8fef525337bf. -/
def IID_IVirtualDesktopNotificationService : GUID :=
  ⟨0x0cd45e71, 0xd927, 0x4f15, [0x8b, 0x0a, 0x8f, 0xef, 0x52, 0x53, 0x37, 0xbf]⟩

/-- The interface identifier of `IUnknown`, 00000000-0000-0000-C000-000000000046. -/
def IID_IUnknown : GUID :=
  ⟨0x00000000, 0x0000, 0x0000, [0xC0, 0x00, 0x00, 0x00, 0x00, 0x00, 0x00, 0x46]⟩

/-! ## Version detection -/

/-- The enumeration `WindowsVirtualDesktopVersion`. -/
inductive WindowsVirtualDesktopVersion where
  | Unknown
  | Win10_1803
  | Win10_1809
  | Win10_1903
  | Win10_1909
  | Win10_2004
  | Win10_20H2
  | Win10_21H1
  | Win10_21H2
  | Win10_22H2
  | Win11_21H2
  | Win11_22H2
  | Win11_23H2
  | Win11_24H2
  | Win11_24H2_Preview
  deriving DecidableEq, Repr

open WindowsVirtualDesktopVersion

/-- The classifier `GetCurrentVirtualDesktopVersion`; `build` is the value of
`osvi.dwBuildNumber` after the version query (0 when the query is unavailable). -/
def GetCurrentVirtualDesktopVersion (build : Nat) : WindowsVirtualDesktopVersion :=
  if build ≥ 26200 then Win11_24H2_Preview
  else if build ≥ 26100 then Win11_24H2
  else if build ≥ 22631 then Win11_23H2
  else if build ≥ 22621 then Win11_22H2
  else if build ≥ 22000 then Win11_21H2
  else if build ≥ 19045 then Win10_22H2
  else if build ≥ 19044 then Win10_21H2
  else if build ≥ 19043 then Win10_21H1
  else if build ≥ 19042 then Win10_20H2
  else if build ≥ 19041 then Win10_2004
  else if build ≥ 18363 then Win10_1909
  else if build ≥ 18362 then Win10_1903
  else if build ≥ 17763 then Win10_1809
  else if build ≥ 17134 then Win10_1803
  else Unknown

/-- The build number written next to each enumerator of
`WindowsVirtualDesktopVersion` (`Unknown = 0`). -/
def buildThreshold : WindowsVirtualDesktopVersion → Nat
  | Unknown => 0
  | Win10_1803 => 17134
  | Win10_1809 => 17763
  | Win10_1903 => 18362
  | Win10_1909 => 18363
  | Win10_2004 => 19041
  | Win10_20H2 => 19042
  | Win10_21H1 => 19043
  | Win10_21H2 => 19044
  | Win10_22H2 => 19045
  | Win11_21H2 => 22000
  | Win11_22H2 => 22621
  | Win11_23H2 => 22631
  | Win11_24H2 => 26100
  | Win11_24H2_Preview => 26200

/-- The fourteen known variants, oldest first. -/
def knownVersions : List WindowsVirtualDesktopVersion :=
  [Win10_1803, Win10_1809, Win10_1903, Win10_1909, Win10_2004, Win10_20H2, Win10_21H1,
   Win10_21H2, Win10_22H2, Win11_21H2, Win11_22H2, Win11_23H2, Win11_24H2, Win11_24H2_Preview]

/-- The ladder as the specification words it: among the known variants whose
threshold is at most `build`, the one with the greatest threshold, and
`Unknown` when there is none. -/
def ladderByGreatestThreshold (build : Nat) : WindowsVirtualDesktopVersion :=
  (knownVersions.filter (fun v => decide (buildThreshold v ≤ build))).foldl
    (fun best v => if buildThreshold best ≤ buildThreshold v then v else best) Unknown

/-! ## Identifier tables -/

/-- The record `VirtualDesktopGUIDs`. -/
structure VirtualDesktopGUIDs where
  iidVirtualDesktop : GUID := {}
  iidVirtualDesktopManagerInternal : GUID := {}
  iidVirtualDesktopNotification : GUID := {}
  deriving DecidableEq, Repr

/-- The selector `VirtualDesktopGUIDs::ForVersion`. -/
def VirtualDesktopGUIDs.ForVersion (version : WindowsVirtualDesktopVersion) :
    VirtualDesktopGUIDs :=
  match version with
  | Win10_1803 | Win10_1809 | Win10_1903 | Win10_1909 | Win10_2004
  | Win10_20H2 | Win10_21H1 | Win10_21H2 | Win10_22H2 =>
    { iidVirtualDesktop :=
        ⟨0xff72ffdd, 0xbe7e, 0x43fc, [0x9c, 0x03, 0xad, 0x81, 0x68, 0x1e, 0x88, 0xe4]⟩
      iidVirtualDesktopManagerInternal :=
        ⟨0xf31574d6, 0xb682, 0x4cdc, [0xbd, 0x56, 0x18, 0x27, 0x86, 0x0a, 0xbe, 0xc6]⟩
      iidVirtualDesktopNotification :=
        ⟨0xc179334c, 0x4295, 0x40d3, [0xbe, 0xa1, 0xc6, 0x54, 0xd9, 0x65, 0x60, 0x5a]⟩ }
  | Win11_21H2 | Win11_22H2 =>
    { iidVirtualDesktop :=
        ⟨0x536d3495, 0xb208, 0x4cc9, [0xae, 0x26, 0xde, 0x81, 0x11, 0x27, 0x5b, 0xf8]⟩
      iidVirtualDesktopManagerInternal :=
        ⟨0xb2f925b9, 0x5a0f, 0x4d2e, [0x9f, 0x4d, 0x2b, 0x15, 0x07, 0x59, 0x3c, 0x10]⟩
      iidVirtualDesktopNotification :=
        ⟨0xcd403e52, 0xdeed, 0x4c13, [0xb4, 0x37, 0xb9, 0x83, 0x80, 0xf2, 0xb1, 0xe8]⟩ }
  | Win11_23H2 | Win11_24H2 =>
    { iidVirtualDesktop :=
        ⟨0x3f07f4be, 0xb107, 0x441a, [0xaf, 0x0f, 0x39, 0xd8, 0x25, 0x29, 0x07, 0x2c]⟩
      iidVirtualDesktopManagerInternal :=
        ⟨0xa3175f2d, 0x239c, 0x4bd2, [0x8a, 0xa0, 0xee, 0xba, 0x8b, 0x0b, 0x13, 0x8e]⟩
      iidVirtualDesktopNotification :=
        ⟨0xb9e5e94d, 0x233e, 0x49ab, [0xaf, 0x5c, 0x2b, 0x45, 0x41, 0xc3, 0xaa, 0xde]⟩ }
  | Win11_24H2_Preview | Unknown =>
    { iidVirtualDesktop :=
        ⟨0x9f4c7c69, 0x6ed1, 0x408c, [0xa3, 0xa9, 0x1c, 0x0f, 0x89, 0xe3, 0xb7, 0xb2]⟩
      iidVirtualDesktopManagerInternal :=
        ⟨0x53f5ca0b, 0x158f, 0x4124, [0x90, 0x0c, 0x05, 0x71, 0x58, 0x06, 0x0b, 0x27]⟩
      iidVirtualDesktopNotification :=
        ⟨0x1ba7cf30, 0x3591, 0x43fa, [0xab, 0xfa, 0x4a, 0xaf, 0x7a, 0xbe, 0xed, 0xb7]⟩ }

/-! ## The operating system, as seen by one operation -/

/-- A desktop object handed out by the internal manager or by the enumerated
array (`IVirtualDesktop_*`).  `GetID_out` and `GetName_out` are the values the
call writes through its out-parameter, `none` when it leaves it untouched
(for `GetName`, `none` is the null `HSTRING`). -/
structure DesktopObject where
  QueryInterface : GUID → HRESULT := fun _ => 0
  GetID_hr : HRESULT := 0
  GetID_out : Option GUID := none
  GetName_hr : HRESULT := 0
  GetName_out : Option String := none

/-- The enumerated array `IObjectArray`: the count reported by `GetCount`
(a `UINT`) and the element access `GetAt`, `none` when the access fails. -/
structure IObjectArray where
  GetCount : Nat := 0
  GetAt : Nat → Option DesktopObject := fun _ => none

/-- The array holding the given desktop objects, every access succeeding. -/
def IObjectArray.ofList (l : List DesktopObject) : IObjectArray :=
  { GetCount := l.length, GetAt := fun i => l.get? i }

/-- A window handle together with what the public manager and the window
manager answer for it.  `GetWindowDesktopId_out` is the identity written
through the out-parameter (`none`: left untouched);
`IsWindowOnCurrentVirtualDesktop_out` is the flag after the call. -/
structure Window where
  IsWindowVisible : Bool := true
  GetWindowDesktopId_hr : HRESULT := 0
  GetWindowDesktopId_out : Option GUID := none
  IsWindowOnCurrentVirtualDesktop_hr : HRESULT := 0
  IsWindowOnCurrentVirtualDesktop_out : Bool := false
  deriving DecidableEq, Repr

/-- The answers of the registry for the key `...\VirtualDesktops\Desktops\<id>`
and its value `Name`: the two result codes, the value type, the size in bytes
and the characters of the buffer before the first terminator. -/
structure RegistryName where
  RegOpenKeyExW : Nat := 2
  RegQueryValueExW : Nat := 2
  valueType : Nat := 0
  nameSize : Nat := 0
  nameBuffer : String := ""
  deriving DecidableEq, Repr

/-- The four event-sink classes `VirtualDesktopNotification_*`. -/
inductive NotificationSink where
  | Win10
  | Win11_21H2
  | Win11_23H2
  | Win11_24H2_Preview
  deriving DecidableEq, Repr

/-- The calls through which the subsystem acts on its surroundings, recorded
in the order they are made. -/
inductive Effect where
  | CoUninitialize
  | Register (sink : NotificationSink)
  | Unregister (cookie : Nat)
  | SetTimer (id : Nat)
  | KillTimer (id : Nat)
  | UnhookWinEvent
  | Callback (listener : Nat) (desktopIndex : Int) (desktopName : String)
  deriving DecidableEq, Repr

/-- The answers of every call one operation can make.  Object-creating calls
follow the COM contract: the out-pointer is non-null exactly when the result
code succeeds; `GetDesktops` reports its array separately because the code
tests both. -/
structure Interop where
  dwBuildNumber : Nat := 0
  CoInitializeEx_MULTITHREADED : HRESULT := 0
  CoInitializeEx_APARTMENTTHREADED : HRESULT := 0
  CoCreateInstance_VirtualDesktopManager : HRESULT := 0
  CoCreateInstance_ImmersiveShell : HRESULT := 0
  QueryInterface_IServiceProvider : HRESULT := 0
  QueryService : GUID → GUID → HRESULT := fun _ _ => 0
  Register_hr : HRESULT := 0
  Register_cookie : Nat := 1
  GetCurrentDesktop_hr : HRESULT := 0
  GetCurrentDesktop_out : DesktopObject := {}
  GetCount_hr : HRESULT := 0
  GetCount_out : Nat := 0
  GetDesktops_hr : HRESULT := 0
  GetDesktops_out : Option IObjectArray := none
  GetForegroundWindow : Option Window := none
  GetShellWindow : Option Window := none
  EnumWindows : List Window := []
  SetTimer : Nat := 1
  RegOpenKeyExW_VirtualDesktops : Nat := 2
  RegQueryValueExW_size_result : Nat := 2
  RegQueryValueExW_dataSize : Nat := 0
  RegQueryValueExW_data_result : Nat := 2
  RegQueryValueExW_data : List GUID := []
  Desktops : GUID → RegistryName := fun _ => {}

/-! ## The subsystem -/

/-- The record `DesktopInfo`. -/
structure DesktopInfo where
  id : GUID := {}
  index : Int := 0
  name : String := ""
  deriving DecidableEq, Repr

/-- The data members of the class `VirtualDesktop`.  An interface pointer is
`true` when non-null; the listener is the identifier of the registered
function, `none` when empty.  The last field is not a member: it records the
outward calls made so far. -/
structure VirtualDesktop where
  m_initialized : Bool := false
  m_available : Bool := false
  m_comOwned : Bool := false
  m_usingPolling : Bool := false
  m_windowsVersion : WindowsVirtualDesktopVersion := Unknown
  m_pServiceProvider : Bool := false
  m_pVirtualDesktopManagerInternal : Bool := false
  m_pNotificationService : Bool := false
  m_pPublicVirtualDesktopManager : Bool := false
  m_notificationCookie : Nat := 0
  m_pNotificationHandler : Option NotificationSink := none
  m_pollingTimer : Nat := 0
  m_lastKnownDesktopId : GUID := {}
  m_lastKnownDesktopIndex : Int := 0
  m_desktopSwitchHook : Bool := false
  m_switchCallback : Option Nat := none
  calls : List Effect := []
  deriving DecidableEq, Repr

namespace VirtualDesktop

/-- The method `InitializeCOM`. -/
def InitializeCOM (io : Interop) (s : VirtualDesktop) : Bool × VirtualDesktop :=
  let hr := io.CoInitializeEx_MULTITHREADED
  if SUCCEEDED hr then (true, { s with m_comOwned := true })
  else if hr = S_FALSE then (true, { s with m_comOwned := false })
  else if hr = RPC_E_CHANGED_MODE then
    let hr := io.CoInitializeEx_APARTMENTTHREADED
    if SUCCEEDED hr then (true, { s with m_comOwned := true })
    else if hr = S_FALSE then (true, { s with m_comOwned := false })
    else (false, s)
  else (false, s)

/-- The sink class instantiated for a variant in `AcquireVirtualDesktopInterfaces`. -/
def sinkForVersion : WindowsVirtualDesktopVersion → NotificationSink
  | Win10_1803 | Win10_1809 | Win10_1903 | Win10_1909 | Win10_2004
  | Win10_20H2 | Win10_21H1 | Win10_21H2 | Win10_22H2 => NotificationSink.Win10
  | Win11_21H2 | Win11_22H2 => NotificationSink.Win11_21H2
  | Win11_23H2 | Win11_24H2 => NotificationSink.Win11_23H2
  | Win11_24H2_Preview | Unknown => NotificationSink.Win11_24H2_Preview

/-- The tail of `AcquireVirtualDesktopInterfaces`: the notification service
and the registration of the sink. -/
def acquireNotificationService (io : Interop) (s : VirtualDesktop) : VirtualDesktop :=
  let hr := io.QueryService CLSID_VirtualDesktopNotificationService
    IID_IVirtualDesktopNotificationService
  let s := { s with m_pNotificationService := SUCCEEDED hr }
  if FAILED hr then s
  else
    let pNotification := sinkForVersion s.m_windowsVersion
    let s := { s with m_pNotificationHandler := some pNotification,
                      calls := s.calls ++ [Effect.Register pNotification] }
    if FAILED io.Register_hr then { s with m_notificationCookie := 0 }
    else { s with m_notificationCookie := io.Register_cookie % 2 ^ 32 }

/-- The method `AcquireVirtualDesktopInterfaces`. -/
def AcquireVirtualDesktopInterfaces (io : Interop) (s : VirtualDesktop) :
    Bool × VirtualDesktop :=
  if FAILED io.CoCreateInstance_ImmersiveShell then (false, s)
  else
    let hr := io.QueryInterface_IServiceProvider
    let s := { s with m_pServiceProvider := SUCCEEDED hr }
    if FAILED hr then (false, s)
    else
      let guids := VirtualDesktopGUIDs.ForVersion s.m_windowsVersion
      let hr := io.QueryService CLSID_VirtualDesktopManagerInternal
        guids.iidVirtualDesktopManagerInternal
      let s := { s with m_pVirtualDesktopManagerInternal := SUCCEEDED hr }
      if FAILED hr then
        let hr := io.QueryService guids.iidVirtualDesktopManagerInternal
          guids.iidVirtualDesktopManagerInternal
        let s := { s with m_pVirtualDesktopManagerInternal := SUCCEEDED hr }
        if FAILED hr then (false, s)
        else (true, acquireNotificationService io s)
      else (true, acquireNotificationService io s)

/-- The method `Init`. -/
def Init (io : Interop) (s : VirtualDesktop) : Bool × VirtualDesktop :=
  if s.m_initialized then (true, s)
  else
    let s := { s with m_windowsVersion := GetCurrentVirtualDesktopVersion io.dwBuildNumber }
    let com := InitializeCOM io s
    if !com.1 then (false, com.2)
    else
      let s := com.2
      let hr := io.CoCreateInstance_VirtualDesktopManager
      let s := { s with m_pPublicVirtualDesktopManager := SUCCEEDED hr }
      let acq := AcquireVirtualDesktopInterfaces io s
      let s := acq.2
      let s :=
        if !acq.1 then
          if s.m_pPublicVirtualDesktopManager then
            { s with m_usingPolling := true, m_available := true }
          else { s with m_available := false }
        else { s with m_available := true, m_usingPolling := false }
      (true, { s with m_initialized := true })

/-- The method `ReleaseInterfaces`. -/
def ReleaseInterfaces (s : VirtualDesktop) : VirtualDesktop :=
  { s with m_pNotificationHandler := none, m_pNotificationService := false,
           m_pVirtualDesktopManagerInternal := false, m_pServiceProvider := false }

/-- The method `Shutdown`. -/
def Shutdown (s : VirtualDesktop) : VirtualDesktop :=
  if !s.m_initialized then s
  else
    let s :=
      if s.m_pollingTimer ≠ 0 then
        { s with calls := s.calls ++ [Effect.KillTimer s.m_pollingTimer], m_pollingTimer := 0 }
      else s
    let s :=
      if s.m_desktopSwitchHook then
        { s with calls := s.calls ++ [Effect.UnhookWinEvent], m_desktopSwitchHook := false }
      else s
    let s :=
      if s.m_notificationCookie ≠ 0 ∧ s.m_pNotificationService = true then
        { s with calls := s.calls ++ [Effect.Unregister s.m_notificationCookie],
                 m_notificationCookie := 0 }
      else s
    let s := ReleaseInterfaces s
    let s := { s with m_pPublicVirtualDesktopManager := false }
    let s :=
      if s.m_comOwned then
        { s with calls := s.calls ++ [Effect.CoUninitialize], m_comOwned := false }
      else s
    { s with m_initialized := false, m_available := false, m_usingPolling := false }

/-- The identity read from one enumerated element in the loop of
`GetDesktopIndexByGUID`: `desktopId` starts empty and is written by `GetID`
only when the element answers `QueryInterface` for the variant's desktop
interface. -/
def enumeratedDesktopId (version : WindowsVirtualDesktopVersion)
    (pDesktopUnk : DesktopObject) : GUID :=
  match version with
  | Win10_1803 | Win10_1809 | Win10_1903 | Win10_1909 | Win10_2004
  | Win10_20H2 | Win10_21H1 | Win10_21H2 | Win10_22H2 =>
    let guids := VirtualDesktopGUIDs.ForVersion version
    if SUCCEEDED (pDesktopUnk.QueryInterface guids.iidVirtualDesktop) then
      pDesktopUnk.GetID_out.getD GUID.empty
    else GUID.empty
  | Win11_21H2 | Win11_22H2 =>
    let guids := VirtualDesktopGUIDs.ForVersion version
    if SUCCEEDED (pDesktopUnk.QueryInterface guids.iidVirtualDesktop) then
      pDesktopUnk.GetID_out.getD GUID.empty
    else GUID.empty
  | Win11_23H2 | Win11_24H2 =>
    let guids := VirtualDesktopGUIDs.ForVersion version
    if SUCCEEDED (pDesktopUnk.QueryInterface guids.iidVirtualDesktop) then
      pDesktopUnk.GetID_out.getD GUID.empty
    else GUID.empty
  | Win11_24H2_Preview | Unknown =>
    let guids := VirtualDesktopGUIDs.ForVersion version
    if SUCCEEDED (pDesktopUnk.QueryInterface guids.iidVirtualDesktop) then
      pDesktopUnk.GetID_out.getD GUID.empty
    else GUID.empty

/-- The loop `for (UINT i = 0; i < count; i++)` of `GetDesktopIndexByGUID`;
the first argument is `count - i`, the number of iterations left. -/
def indexLoop (version : WindowsVirtualDesktopVersion) (pDesktops : IObjectArray)
    (guid : GUID) : Nat → Nat → Int
  | 0, _ => 1
  | remaining + 1, i =>
    match pDesktops.GetAt i with
    | none => indexLoop version pDesktops guid remaining (i + 1)
    | some pDesktopUnk =>
      if IsEqualGUID (enumeratedDesktopId version pDesktopUnk) guid then toInt32 (i + 1)
      else indexLoop version pDesktops guid remaining (i + 1)

/-- The per-variant call of `GetDesktops` on the internal manager, as made in
`GetDesktopIndexByGUID` and `GetDesktopByIndex`. -/
def callGetDesktops (io : Interop) (version : WindowsVirtualDesktopVersion) :
    HRESULT × Option IObjectArray :=
  match version with
  | Win10_1803 | Win10_1809 | Win10_1903 | Win10_1909 | Win10_2004
  | Win10_20H2 | Win10_21H1 | Win10_21H2 | Win10_22H2 =>
    (io.GetDesktops_hr, io.GetDesktops_out)
  | Win11_21H2 | Win11_22H2 => (io.GetDesktops_hr, io.GetDesktops_out)
  | Win11_23H2 | Win11_24H2 => (io.GetDesktops_hr, io.GetDesktops_out)
  | Win11_24H2_Preview | Unknown => (io.GetDesktops_hr, io.GetDesktops_out)

/-- The method `GetDesktopIndexByGUID`. -/
def GetDesktopIndexByGUID (io : Interop) (s : VirtualDesktop) (guid : GUID) : Int :=
  if !s.m_available || !s.m_pVirtualDesktopManagerInternal then 1
  else
    let r := callGetDesktops io s.m_windowsVersion
    match r.2 with
    | none => 1
    | some pDesktops =>
      if FAILED r.1 then 1
      else
        let count := pDesktops.GetCount % 2 ^ 32
        indexLoop s.m_windowsVersion pDesktops guid count 0

/-- The method `HStringToWString`; the null handle is `none`. -/
def HStringToWString (hstr : Option String) : String :=
  match hstr with
  | none => ""
  | some raw => if raw.length > 0 then raw else ""

/-- The method `GetDesktopInfoWin10`. -/
def GetDesktopInfoWin10 (io : Interop) (s : VirtualDesktop) (pDesktop : DesktopObject)
    (info : DesktopInfo) : Bool × DesktopInfo :=
  let info := { info with id := pDesktop.GetID_out.getD info.id }
  if FAILED pDesktop.GetID_hr then (false, info)
  else
    let info := { info with name := "" }
    let info := { info with index := GetDesktopIndexByGUID io s info.id }
    (true, info)

/-- The method `GetDesktopInfoWin11_21H2`. -/
def GetDesktopInfoWin11_21H2 (io : Interop) (s : VirtualDesktop) (pDesktop : DesktopObject)
    (info : DesktopInfo) : Bool × DesktopInfo :=
  let info := { info with id := pDesktop.GetID_out.getD info.id }
  if FAILED pDesktop.GetID_hr then (false, info)
  else
    let info :=
      if SUCCEEDED pDesktop.GetName_hr && pDesktop.GetName_out.isSome then
        { info with name := HStringToWString pDesktop.GetName_out }
      else { info with name := "" }
    let info := { info with index := GetDesktopIndexByGUID io s info.id }
    (true, info)

/-- The method `GetDesktopInfoWin11_23H2`. -/
def GetDesktopInfoWin11_23H2 (io : Interop) (s : VirtualDesktop) (pDesktop : DesktopObject)
    (info : DesktopInfo) : Bool × DesktopInfo :=
  let info := { info with id := pDesktop.GetID_out.getD info.id }
  if FAILED pDesktop.GetID_hr then (false, info)
  else
    let info :=
      if SUCCEEDED pDesktop.GetName_hr && pDesktop.GetName_out.isSome then
        { info with name := HStringToWString pDesktop.GetName_out }
      else { info with name := "" }
    let info := { info with index := GetDesktopIndexByGUID io s info.id }
    (true, info)

/-- The method `GetDesktopInfoWin11_24H2_Preview`. -/
def GetDesktopInfoWin11_24H2_Preview (io : Interop) (s : VirtualDesktop)
    (pDesktop : DesktopObject) (info : DesktopInfo) : Bool × DesktopInfo :=
  let info := { info with id := pDesktop.GetID_out.getD info.id }
  if FAILED pDesktop.GetID_hr then (false, info)
  else
    let info :=
      if SUCCEEDED pDesktop.GetName_hr && pDesktop.GetName_out.isSome then
        { info with name := HStringToWString pDesktop.GetName_out }
      else { info with name := "" }
    let info := { info with index := GetDesktopIndexByGUID io s info.id }
    (true, info)

/-- The method `GetCurrentDesktopWin10`. -/
def GetCurrentDesktopWin10 (io : Interop) (s : VirtualDesktop) (info : DesktopInfo) :
    Bool × DesktopInfo :=
  if FAILED io.GetCurrentDesktop_hr then (false, info)
  else GetDesktopInfoWin10 io s io.GetCurrentDesktop_out info

/-- The method `GetCurrentDesktopWin11_21H2`. -/
def GetCurrentDesktopWin11_21H2 (io : Interop) (s : VirtualDesktop) (info : DesktopInfo) :
    Bool × DesktopInfo :=
  if FAILED io.GetCurrentDesktop_hr then (false, info)
  else GetDesktopInfoWin11_21H2 io s io.GetCurrentDesktop_out info

/-- The method `GetCurrentDesktopWin11_23H2`. -/
def GetCurrentDesktopWin11_23H2 (io : Interop) (s : VirtualDesktop) (info : DesktopInfo) :
    Bool × DesktopInfo :=
  if FAILED io.GetCurrentDesktop_hr then (false, info)
  else GetDesktopInfoWin11_23H2 io s io.GetCurrentDesktop_out info

/-- The method `GetCurrentDesktopWin11_24H2_Preview`. -/
def GetCurrentDesktopWin11_24H2_Preview (io : Interop) (s : VirtualDesktop)
    (info : DesktopInfo) : Bool × DesktopInfo :=
  if FAILED io.GetCurrentDesktop_hr then (false, info)
  else GetDesktopInfoWin11_24H2_Preview io s io.GetCurrentDesktop_out info

/-- The search loop `for (int i = 0; i < numDesktops; i++)` of
`GetDesktopIndexFromPolling` over the identities of the registry value. -/
def pollingSearch (desktopId : GUID) : List GUID → Int → Int
  | [], _ => 1
  | g :: rest, i =>
    if IsEqualGUID g desktopId then i + 1 else pollingSearch desktopId rest (i + 1)

/-- The method `GetDesktopIndexFromPolling`.  `RegQueryValueExW_data` holds the
whole identities of the buffer after the second query, so its length is
`dataSize / sizeof(GUID)`. -/
def GetDesktopIndexFromPolling (io : Interop) (desktopId : GUID) : Int :=
  if io.RegOpenKeyExW_VirtualDesktops ≠ ERROR_SUCCESS then 1
  else if io.RegQueryValueExW_size_result ≠ ERROR_SUCCESS ∨ io.RegQueryValueExW_dataSize = 0
      ∨ io.RegQueryValueExW_dataSize % 16 ≠ 0 then 1
  else if io.RegQueryValueExW_data_result ≠ ERROR_SUCCESS then 1
  else pollingSearch desktopId io.RegQueryValueExW_data 0

/-- The method `GetDesktopNameFromRegistry`. -/
def GetDesktopNameFromRegistry (io : Interop) (desktopId : GUID) : String :=
  let key := io.Desktops desktopId
  if key.RegOpenKeyExW = ERROR_SUCCESS ∧ key.RegQueryValueExW = ERROR_SUCCESS
      ∧ key.valueType = REG_SZ ∧ key.nameSize > 2 then key.nameBuffer
  else "Desktop " ++ toString (GetDesktopIndexFromPolling io desktopId)

/-- The one-shot resolution at the head of the polling branch of
`GetCurrentDesktop`: with no identity known and the public manager present,
the identity of the foreground window is read into `m_lastKnownDesktopId`. -/
def resolveFromForeground (io : Interop) (s : VirtualDesktop) : VirtualDesktop :=
  if IsEqualGUID s.m_lastKnownDesktopId GUID.empty && s.m_pPublicVirtualDesktopManager then
    match io.GetForegroundWindow with
    | none => s
    | some hForeground =>
      let s := { s with m_lastKnownDesktopId :=
        hForeground.GetWindowDesktopId_out.getD s.m_lastKnownDesktopId }
      if !IsEqualGUID s.m_lastKnownDesktopId GUID.empty then
        { s with m_lastKnownDesktopIndex := GetDesktopIndexFromPolling io s.m_lastKnownDesktopId }
      else s
  else s

/-- The method `GetCurrentDesktop`; the record `info` is passed by reference,
so the result carries its new contents next to the return value. -/
def GetCurrentDesktop (io : Interop) (s : VirtualDesktop) (info : DesktopInfo) :
    Bool × DesktopInfo × VirtualDesktop :=
  if s.m_available && s.m_pVirtualDesktopManagerInternal && !s.m_usingPolling then
    match s.m_windowsVersion with
    | Win10_1803 | Win10_1809 | Win10_1903 | Win10_1909 | Win10_2004
    | Win10_20H2 | Win10_21H1 | Win10_21H2 | Win10_22H2 =>
      ((GetCurrentDesktopWin10 io s info).1, (GetCurrentDesktopWin10 io s info).2, s)
    | Win11_21H2 | Win11_22H2 =>
      ((GetCurrentDesktopWin11_21H2 io s info).1, (GetCurrentDesktopWin11_21H2 io s info).2, s)
    | Win11_23H2 | Win11_24H2 =>
      ((GetCurrentDesktopWin11_23H2 io s info).1, (GetCurrentDesktopWin11_23H2 io s info).2, s)
    | Win11_24H2_Preview | Unknown =>
      ((GetCurrentDesktopWin11_24H2_Preview io s info).1,
       (GetCurrentDesktopWin11_24H2_Preview io s info).2, s)
  else if s.m_usingPolling then
    let s := resolveFromForeground io s
    if !IsEqualGUID s.m_lastKnownDesktopId GUID.empty then
      (true, { info with id := s.m_lastKnownDesktopId, index := s.m_lastKnownDesktopIndex,
                         name := GetDesktopNameFromRegistry io s.m_lastKnownDesktopId }, s)
    else (true, { info with index := 1, name := "", id := GUID.empty }, s)
  else (true, { info with index := 1, name := "", id := GUID.empty }, s)

/-- The per-variant call of `GetCount` on the internal manager. -/
def callGetCount (io : Interop) (version : WindowsVirtualDesktopVersion) : HRESULT × Nat :=
  match version with
  | Win10_1803 | Win10_1809 | Win10_1903 | Win10_1909 | Win10_2004
  | Win10_20H2 | Win10_21H1 | Win10_21H2 | Win10_22H2 => (io.GetCount_hr, io.GetCount_out)
  | Win11_21H2 | Win11_22H2 => (io.GetCount_hr, io.GetCount_out)
  | Win11_23H2 | Win11_24H2 => (io.GetCount_hr, io.GetCount_out)
  | Win11_24H2_Preview | Unknown => (io.GetCount_hr, io.GetCount_out)

/-- The method `GetDesktopCount`. -/
def GetDesktopCount (io : Interop) (s : VirtualDesktop) : Int :=
  if !s.m_available || !s.m_pVirtualDesktopManagerInternal then 1
  else
    let r := callGetCount io s.m_windowsVersion
    if FAILED r.1 then 1 else toInt32 r.2

/-- The method `GetDesktopByIndex`. -/
def GetDesktopByIndex (io : Interop) (s : VirtualDesktop) (index : Int) (info : DesktopInfo) :
    Bool × DesktopInfo :=
  if !s.m_available || !s.m_pVirtualDesktopManagerInternal then
    (true, { info with index := index, name := "", id := GUID.empty })
  else
    let r := callGetDesktops io s.m_windowsVersion
    match r.2 with
    | none => (false, info)
    | some pDesktops =>
      if FAILED r.1 then (false, info)
      else
        let count := pDesktops.GetCount % 2 ^ 32
        let idx := toUInt32 (index - 1)
        if idx ≥ count then (false, info)
        else
          match pDesktops.GetAt idx with
          | none => (false, info)
          | some pDesktopUnk =>
            let info := { info with index := index }
            match s.m_windowsVersion with
            | Win10_1803 | Win10_1809 | Win10_1903 | Win10_1909 | Win10_2004
            | Win10_20H2 | Win10_21H1 | Win10_21H2 | Win10_22H2 =>
              GetDesktopInfoWin10 io s pDesktopUnk info
            | Win11_21H2 | Win11_22H2 => GetDesktopInfoWin11_21H2 io s pDesktopUnk info
            | Win11_23H2 | Win11_24H2 => GetDesktopInfoWin11_23H2 io s pDesktopUnk info
            | Win11_24H2_Preview | Unknown =>
              GetDesktopInfoWin11_24H2_Preview io s pDesktopUnk info

/-- The method `SetDesktopSwitchCallback`. -/
def SetDesktopSwitchCallback (io : Interop) (callback : Option Nat) (s : VirtualDesktop) :
    VirtualDesktop :=
  let s := { s with m_switchCallback := callback }
  if s.m_usingPolling && s.m_switchCallback.isSome then
    let s :=
      match io.GetForegroundWindow with
      | none => s
      | some hForeground =>
        if s.m_pPublicVirtualDesktopManager then
          { s with m_lastKnownDesktopId :=
              hForeground.GetWindowDesktopId_out.getD s.m_lastKnownDesktopId }
        else s
    let s := { s with m_lastKnownDesktopIndex := 1 }
    { s with m_pollingTimer := io.SetTimer, calls := s.calls ++ [Effect.SetTimer io.SetTimer] }
  else s

/-- The method `ClearDesktopSwitchCallback`. -/
def ClearDesktopSwitchCallback (s : VirtualDesktop) : VirtualDesktop :=
  let s := { s with m_switchCallback := none }
  let s :=
    if s.m_desktopSwitchHook then
      { s with calls := s.calls ++ [Effect.UnhookWinEvent], m_desktopSwitchHook := false }
    else s
  if s.m_pollingTimer ≠ 0 then
    { s with calls := s.calls ++ [Effect.KillTimer s.m_pollingTimer], m_pollingTimer := 0 }
  else s

/-- The method `OnDesktopSwitched`. -/
def OnDesktopSwitched (io : Interop) (s : VirtualDesktop) : VirtualDesktop :=
  match s.m_switchCallback with
  | none => s
  | some listener =>
    let r := GetCurrentDesktop io s {}
    if r.1 then
      { r.2.2 with calls := r.2.2.calls ++ [Effect.Callback listener r.2.1.index r.2.1.name] }
    else r.2.2

/-- The callback handed to `EnumWindows` in `CheckDesktopChange`, run over the
top-level windows in enumeration order: the identity of the first visible
window that reports a non-empty identity and is on the current desktop. -/
def enumWindowsFind : List Window → Option GUID
  | [] => none
  | hw :: rest =>
    if !hw.IsWindowVisible then enumWindowsFind rest
    else
      let id := hw.GetWindowDesktopId_out.getD GUID.empty
      if SUCCEEDED hw.GetWindowDesktopId_hr && !IsEqualGUID id GUID.empty then
        if SUCCEEDED hw.IsWindowOnCurrentVirtualDesktop_hr
            && hw.IsWindowOnCurrentVirtualDesktop_out then some id
        else enumWindowsFind rest
      else enumWindowsFind rest

/-- The method `CheckDesktopChange`, the body of one polling tick. -/
def CheckDesktopChange (io : Interop) (s : VirtualDesktop) : VirtualDesktop :=
  if !s.m_pPublicVirtualDesktopManager || s.m_switchCallback.isNone then s
  else
    let hWnd :=
      match io.GetForegroundWindow with
      | some w => some w
      | none => io.GetShellWindow
    match hWnd with
    | none => s
    | some hWnd =>
      if FAILED hWnd.IsWindowOnCurrentVirtualDesktop_hr then s
      else
        let currentDesktopId := hWnd.GetWindowDesktopId_out.getD GUID.empty
        let resolved :=
          if FAILED hWnd.GetWindowDesktopId_hr || IsEqualGUID currentDesktopId GUID.empty then
            enumWindowsFind io.EnumWindows
          else some currentDesktopId
        match resolved with
        | none => s
        | some currentDesktopId =>
          if !IsEqualGUID currentDesktopId s.m_lastKnownDesktopId then
            let s := { s with m_lastKnownDesktopId := currentDesktopId }
            let s := { s with m_lastKnownDesktopIndex :=
              GetDesktopIndexFromPolling io currentDesktopId }
            OnDesktopSwitched io s
          else s

/-- The timer procedure `PollingTimerProc`. -/
def PollingTimerProc (io : Interop) (s : VirtualDesktop) : VirtualDesktop :=
  CheckDesktopChange io s

end VirtualDesktop

/-- One operation on the subsystem: a call of a public method, a polling
tick, or the `CurrentVirtualDesktopChanged` callback of the registered sink,
each with arbitrary answers of the operating system.  A tick is possible in
every state because a timer of an earlier registration may still run. -/
inductive Step : VirtualDesktop → VirtualDesktop → Prop where
  | Init (io : Interop) (s : VirtualDesktop) : Step s (s.Init io).2
  | Shutdown (s : VirtualDesktop) : Step s s.Shutdown
  | SetDesktopSwitchCallback (io : Interop) (callback : Option Nat) (s : VirtualDesktop) :
      Step s (s.SetDesktopSwitchCallback io callback)
  | ClearDesktopSwitchCallback (s : VirtualDesktop) : Step s s.ClearDesktopSwitchCallback
  | PollingTimerProc (io : Interop) (s : VirtualDesktop) : Step s (s.PollingTimerProc io)
  | CurrentVirtualDesktopChanged (io : Interop) (s : VirtualDesktop) :
      Step s (s.OnDesktopSwitched io)
  | GetCurrentDesktop (io : Interop) (info : DesktopInfo) (s : VirtualDesktop) :
      Step s (s.GetCurrentDesktop io info).2.2

/-- The states the subsystem can be in: the freshly constructed object and
everything operations lead to from it. -/
inductive Reachable : VirtualDesktop → Prop where
  | initial : Reachable {}
  | step {s t : VirtualDesktop} : Reachable s → Step s t → Reachable t

/-- Whether `InitializeCOM` obtains a usable activation context: the
multithreaded initialisation succeeds, or it reports a changed mode and the
apartment-threaded retry succeeds. -/
def activationContextUsable (io : Interop) : Bool :=
  SUCCEEDED io.CoInitializeEx_MULTITHREADED ||
    (decide (io.CoInitializeEx_MULTITHREADED = RPC_E_CHANGED_MODE) &&
      SUCCEEDED io.CoInitializeEx_APARTMENTTHREADED)

/-- Whether the internal service locator and the internal manager can be
acquired for the variant of `io.dwBuildNumber`: the shell object and its
service provider, then the manager through the first or the fallback query. -/
def internalManagerAcquired (io : Interop) : Bool :=
  let iid := (VirtualDesktopGUIDs.ForVersion
    (GetCurrentVirtualDesktopVersion io.dwBuildNumber)).iidVirtualDesktopManagerInternal
  SUCCEEDED io.CoCreateInstance_ImmersiveShell && SUCCEEDED io.QueryInterface_IServiceProvider &&
    (SUCCEEDED (io.QueryService CLSID_VirtualDesktopManagerInternal iid) ||
      SUCCEEDED (io.QueryService iid iid))

/-- What holds in every reachable state: the capability flags are nested,
polling needs the public manager, an uninitialised subsystem holds no
interface, and a known identity carries an index of at least 1. -/
structure Coherent (s : VirtualDesktop) : Prop where
  polling_available : s.m_usingPolling = true → s.m_available = true
  available_initialized : s.m_available = true → s.m_initialized = true
  polling_public : s.m_usingPolling = true → s.m_pPublicVirtualDesktopManager = true
  released : s.m_initialized = false →
    s.m_pVirtualDesktopManagerInternal = false ∧ s.m_pPublicVirtualDesktopManager = false
  index_pos : s.m_lastKnownDesktopId ≠ GUID.empty → 1 ≤ s.m_lastKnownDesktopIndex

/-! ## Concrete states and answers used as instances -/

/-- A desktop identity used in examples: `Data1 = n`, everything else zero. -/
def sampleId (n : Nat) : GUID := ⟨n, 0, 0, [0, 0, 0, 0, 0, 0, 0, 0]⟩

/-- The state after `Init` on build 19045 with every call succeeding:
Notification mode on the Windows 10 family. -/
def notificationReady : VirtualDesktop :=
  (VirtualDesktop.Init { dwBuildNumber := 19045 } {}).2

/-- Answers in which both queries for the internal manager fail while
everything else, the public manager included, succeeds. -/
def internalManagerRefused : Interop :=
  { dwBuildNumber := 19045, QueryService := fun _ _ => E_NOINTERFACE }

/-- The state after `Init` when the internal manager is refused: Polling mode. -/
def pollingReady : VirtualDesktop :=
  (VirtualDesktop.Init internalManagerRefused {}).2

/-- The state after `Init` when neither the public manager nor the shell
object can be created: Unavailable. -/
def unavailableAfterInit : VirtualDesktop :=
  (VirtualDesktop.Init { CoCreateInstance_VirtualDesktopManager := E_FAIL,
                         CoCreateInstance_ImmersiveShell := E_FAIL } {}).2

/-- Answers for a polling query: the foreground window is on desktop
`sampleId 2`, the second of the two identities in the registry value. -/
def foregroundOnSecond : Interop :=
  { GetForegroundWindow := some { GetWindowDesktopId_out := some (sampleId 2) },
    RegOpenKeyExW_VirtualDesktops := 0, RegQueryValueExW_size_result := 0,
    RegQueryValueExW_dataSize := 32, RegQueryValueExW_data_result := 0,
    RegQueryValueExW_data := [sampleId 1, sampleId 2] }

/-- An enumeration reporting `2 ^ 31` desktops, the one at position `i`
carrying the identity `sampleId (i + 1)`. -/
def hugeEnumeration : IObjectArray :=
  { GetCount := 2 ^ 31, GetAt := fun i => some { GetID_out := some (sampleId (i + 1)) } }

/-- Answers in which the current desktop is the last one of `hugeEnumeration`. -/
def currentIsLastOfHuge : Interop :=
  { GetCurrentDesktop_out := { GetID_out := some (sampleId (2 ^ 31)) },
    GetDesktops_out := some hugeEnumeration }

/-- Answers for a notification-mode query on a system with two desktops,
the current one being the second. -/
def currentIsSecondOfTwo : Interop :=
  { GetCurrentDesktop_out := { GetID_out := some (sampleId 2) },
    GetDesktops_out := some (IObjectArray.ofList
      [{ GetID_out := some (sampleId 1) }, { GetID_out := some (sampleId 2) }]) }

/-! ## Notions used to state the claims on enumeration, names and timers -/

/-- The enumeration of a system whose desktops carry the given identities, in
order: every element access, interface query and identity read succeeds. -/
def snapshot (ids : List GUID) : IObjectArray :=
  IObjectArray.ofList (ids.map fun g => { GetID_out := some g })

/-- Answers in which `GetDesktops` succeeds with the snapshot of the given
identities. -/
def enumerating (ids : List GUID) : Interop :=
  { GetDesktops_out := some (snapshot ids) }

/-- The variants whose desktop interface has no `GetName` (the
`IVirtualDesktop_Win10` family). -/
def isWin10Family : WindowsVirtualDesktopVersion → Bool
  | Win10_1803 | Win10_1809 | Win10_1903 | Win10_1909 | Win10_2004
  | Win10_20H2 | Win10_21H1 | Win10_21H2 | Win10_22H2 => true
  | _ => false

/-- Whether the registry holds a display name for the identity, as
`GetDesktopNameFromRegistry` tests it: the key opens, the value `Name` reads,
it is a string and it is larger than a lone terminator. -/
def hasRegistryName (io : Interop) (desktopId : GUID) : Bool :=
  decide ((io.Desktops desktopId).RegOpenKeyExW = ERROR_SUCCESS ∧
    (io.Desktops desktopId).RegQueryValueExW = ERROR_SUCCESS ∧
    (io.Desktops desktopId).valueType = REG_SZ ∧ (io.Desktops desktopId).nameSize > 2)

/-- The timers left running by a sequence of calls: every `SetTimer` that
returned a non-zero identifier starts one, every `KillTimer` stops the timer
of that identifier. -/
def runningTimers (calls : List Effect) : List Nat :=
  calls.foldl (fun running e =>
    match e with
    | Effect.SetTimer id => if id ≠ 0 then running ++ [id] else running
    | Effect.KillTimer id => running.filter (fun t => decide (t ≠ id))
    | _ => running) []

/-- An enumeration reporting `2 ^ 32 - 1` desktops, the one at position `i`
carrying the identity `sampleId (i + 1)`. -/
def nearlyFullEnumeration : IObjectArray :=
  { GetCount := 2 ^ 32 - 1, GetAt := fun i => some { GetID_out := some (sampleId (i + 1)) } }

/-- The polling state after a first query with the foreground window on the
second stored desktop: the identity is known with index 2. -/
def pollingOnSecond : VirtualDesktop :=
  (VirtualDesktop.GetCurrentDesktop foregroundOnSecond pollingReady {}).2.2

/-- The state `pollingOnSecond` after a listener is registered while nothing
else changes. -/
def pollingOnSecondRegistered : VirtualDesktop :=
  VirtualDesktop.SetDesktopSwitchCallback foregroundOnSecond (some 1) pollingOnSecond

/-- Answers after the first stored desktop has been removed: the registry
value holds `sampleId 2` alone, the foreground window is still on it. -/
def firstDesktopRemoved : Interop :=
  { foregroundOnSecond with RegQueryValueExW_dataSize := 16,
                            RegQueryValueExW_data := [sampleId 2] }

/-- Polling mode after two listener registrations, the timer calls returning
the identifiers 1 and 2. -/
def registeredTwice : VirtualDesktop :=
  VirtualDesktop.SetDesktopSwitchCallback { SetTimer := 2 } (some 8)
    (VirtualDesktop.SetDesktopSwitchCallback { SetTimer := 1 } (some 7) pollingReady)

/-! ## Accessors, event sinks and per-variant dispatch -/

/-- The accessor `IsInitialized`. -/
def VirtualDesktop.IsInitialized (s : VirtualDesktop) : Bool := s.m_initialized

/-- The accessor `IsAvailable`. -/
def VirtualDesktop.IsAvailable (s : VirtualDesktop) : Bool := s.m_available

/-- The four families of internal interfaces, named by the suffix of their
types (`IVirtualDesktopManagerInternal_*`, `IVirtualDesktop_*`,
`IVirtualDesktopNotification_*`). -/
inductive InterfaceFamily where
  | Win10
  | Win11_21H2
  | Win11_23H2
  | Win11_24H2_Preview
  deriving DecidableEq, Repr

/-- The identifier `__uuidof(IVirtualDesktopNotification_Win10)`,
C179334C-4295-40D3-BEA1-C654D965605A. -/
def uuidof_IVirtualDesktopNotification_Win10 : GUID :=
  ⟨0xC179334C, 0x4295, 0x40D3, [0xBE, 0xA1, 0xC6, 0x54, 0xD9, 0x65, 0x60, 0x5A]⟩

/-- The identifier `__uuidof(IVirtualDesktopNotification_Win11_21H2)`,
cd403e52-deed-4c13-b437-b98380f2b1e8. -/
def uuidof_IVirtualDesktopNotification_Win11_21H2 : GUID :=
  ⟨0xcd403e52, 0xdeed, 0x4c13, [0xb4, 0x37, 0xb9, 0x83, 0x80, 0xf2, 0xb1, 0xe8]⟩

/-- The identifier `__uuidof(IVirtualDesktopNotification_Win11_23H2)`,
b9e5e94d-233e-49ab-af5c-2b4541c3aade. -/
def uuidof_IVirtualDesktopNotification_Win11_23H2 : GUID :=
  ⟨0xb9e5e94d, 0x233e, 0x49ab, [0xaf, 0x5c, 0x2b, 0x45, 0x41, 0xc3, 0xaa, 0xde]⟩

/-- The identifier `__uuidof(IVirtualDesktopNotification_Win11_24H2_Preview)`,
1ba7cf30-3591-43fa-abfa-4aaf7abeedb7. -/
def uuidof_IVirtualDesktopNotification_Win11_24H2_Preview : GUID :=
  ⟨0x1ba7cf30, 0x3591, 0x43fa, [0xab, 0xfa, 0x4a, 0xaf, 0x7a, 0xbe, 0xed, 0xb7]⟩

/-- The method `VirtualDesktopNotification_Win10::QueryInterface`.  `ppv` tells
whether the out-pointer is non-null; the result is the code returned, whether
`*ppv` holds the sink afterwards, and the reference count. -/
def VirtualDesktopNotification_Win10.QueryInterface (m_refCount : Nat) (riid : GUID)
    (ppv : Bool) : HRESULT × Bool × Nat :=
  if !ppv then (E_POINTER, false, m_refCount)
  else if riid = IID_IUnknown ∨ riid = uuidof_IVirtualDesktopNotification_Win10 then
    (S_OK, true, (m_refCount + 1) % 2 ^ 32)
  else (E_NOINTERFACE, false, m_refCount)

/-- The method `VirtualDesktopNotification_Win11_21H2::QueryInterface`. -/
def VirtualDesktopNotification_Win11_21H2.QueryInterface (m_refCount : Nat) (riid : GUID)
    (ppv : Bool) : HRESULT × Bool × Nat :=
  if !ppv then (E_POINTER, false, m_refCount)
  else if riid = IID_IUnknown ∨ riid = uuidof_IVirtualDesktopNotification_Win11_21H2 then
    (S_OK, true, (m_refCount + 1) % 2 ^ 32)
  else (E_NOINTERFACE, false, m_refCount)

/-- The method `VirtualDesktopNotification_Win11_23H2::QueryInterface`. -/
def VirtualDesktopNotification_Win11_23H2.QueryInterface (m_refCount : Nat) (riid : GUID)
    (ppv : Bool) : HRESULT × Bool × Nat :=
  if !ppv then (E_POINTER, false, m_refCount)
  else if riid = IID_IUnknown ∨ riid = uuidof_IVirtualDesktopNotification_Win11_23H2 then
    (S_OK, true, (m_refCount + 1) % 2 ^ 32)
  else (E_NOINTERFACE, false, m_refCount)

/-- The method `VirtualDesktopNotification_Win11_24H2_Preview::QueryInterface`. -/
def VirtualDesktopNotification_Win11_24H2_Preview.QueryInterface (m_refCount : Nat)
    (riid : GUID) (ppv : Bool) : HRESULT × Bool × Nat :=
  if !ppv then (E_POINTER, false, m_refCount)
  else if riid = IID_IUnknown ∨ riid = uuidof_IVirtualDesktopNotification_Win11_24H2_Preview then
    (S_OK, true, (m_refCount + 1) % 2 ^ 32)
  else (E_NOINTERFACE, false, m_refCount)

/-- The call `QueryInterface` on a sink object, by its class. -/
def NotificationSink.QueryInterface (sink : NotificationSink) (m_refCount : Nat) (riid : GUID)
    (ppv : Bool) : HRESULT × Bool × Nat :=
  match sink with
  | NotificationSink.Win10 => VirtualDesktopNotification_Win10.QueryInterface m_refCount riid ppv
  | NotificationSink.Win11_21H2 =>
    VirtualDesktopNotification_Win11_21H2.QueryInterface m_refCount riid ppv
  | NotificationSink.Win11_23H2 =>
    VirtualDesktopNotification_Win11_23H2.QueryInterface m_refCount riid ppv
  | NotificationSink.Win11_24H2_Preview =>
    VirtualDesktopNotification_Win11_24H2_Preview.QueryInterface m_refCount riid ppv

/-- The interface a sink class derives from. -/
def NotificationSink.family : NotificationSink → InterfaceFamily
  | NotificationSink.Win10 => InterfaceFamily.Win10
  | NotificationSink.Win11_21H2 => InterfaceFamily.Win11_21H2
  | NotificationSink.Win11_23H2 => InterfaceFamily.Win11_23H2
  | NotificationSink.Win11_24H2_Preview => InterfaceFamily.Win11_24H2_Preview

/-- The lifecycle callbacks declared by the notification interfaces. -/
inductive SinkCallback where
  | VirtualDesktopCreated
  | VirtualDesktopDestroyBegin
  | VirtualDesktopDestroyFailed
  | VirtualDesktopDestroyed
  | VirtualDesktopIsPerMonitorChanged
  | VirtualDesktopMoved
  | VirtualDesktopNameChanged
  | ViewVirtualDesktopChanged
  | CurrentVirtualDesktopChanged
  | VirtualDesktopWallpaperChanged
  | VirtualDesktopSwitched
  | RemoteVirtualDesktopConnected
  deriving DecidableEq, Repr

/-- The callbacks of the class `VirtualDesktopNotification_Win10` on the global
instance: the code returned and the state left, `none` for a callback the
class does not have. -/
def VirtualDesktopNotification_Win10.callback (m : SinkCallback) (io : Interop)
    (s : VirtualDesktop) : Option (HRESULT × VirtualDesktop) :=
  match m with
  | SinkCallback.VirtualDesktopCreated => some (S_OK, s)
  | SinkCallback.VirtualDesktopDestroyBegin => some (S_OK, s)
  | SinkCallback.VirtualDesktopDestroyFailed => some (S_OK, s)
  | SinkCallback.VirtualDesktopDestroyed => some (S_OK, s)
  | SinkCallback.ViewVirtualDesktopChanged => some (S_OK, s)
  | SinkCallback.CurrentVirtualDesktopChanged => some (S_OK, s.OnDesktopSwitched io)
  | _ => none

/-- The callbacks of the class `VirtualDesktopNotification_Win11_21H2`. -/
def VirtualDesktopNotification_Win11_21H2.callback (m : SinkCallback) (io : Interop)
    (s : VirtualDesktop) : Option (HRESULT × VirtualDesktop) :=
  match m with
  | SinkCallback.VirtualDesktopCreated => some (S_OK, s)
  | SinkCallback.VirtualDesktopDestroyBegin => some (S_OK, s)
  | SinkCallback.VirtualDesktopDestroyFailed => some (S_OK, s)
  | SinkCallback.VirtualDesktopDestroyed => some (S_OK, s)
  | SinkCallback.VirtualDesktopIsPerMonitorChanged => some (S_OK, s)
  | SinkCallback.VirtualDesktopMoved => some (S_OK, s)
  | SinkCallback.VirtualDesktopNameChanged => some (S_OK, s)
  | SinkCallback.ViewVirtualDesktopChanged => some (S_OK, s)
  | SinkCallback.CurrentVirtualDesktopChanged => some (S_OK, s.OnDesktopSwitched io)
  | SinkCallback.VirtualDesktopWallpaperChanged => some (S_OK, s)
  | _ => none

/-- The callbacks of the class `VirtualDesktopNotification_Win11_23H2`. -/
def VirtualDesktopNotification_Win11_23H2.callback (m : SinkCallback) (io : Interop)
    (s : VirtualDesktop) : Option (HRESULT × VirtualDesktop) :=
  match m with
  | SinkCallback.VirtualDesktopCreated => some (S_OK, s)
  | SinkCallback.VirtualDesktopDestroyBegin => some (S_OK, s)
  | SinkCallback.VirtualDesktopDestroyFailed => some (S_OK, s)
  | SinkCallback.VirtualDesktopDestroyed => some (S_OK, s)
  | SinkCallback.VirtualDesktopIsPerMonitorChanged => some (S_OK, s)
  | SinkCallback.VirtualDesktopMoved => some (S_OK, s)
  | SinkCallback.VirtualDesktopNameChanged => some (S_OK, s)
  | SinkCallback.ViewVirtualDesktopChanged => some (S_OK, s)
  | SinkCallback.CurrentVirtualDesktopChanged => some (S_OK, s.OnDesktopSwitched io)
  | SinkCallback.VirtualDesktopWallpaperChanged => some (S_OK, s)
  | SinkCallback.VirtualDesktopSwitched => some (S_OK, s)
  | SinkCallback.RemoteVirtualDesktopConnected => some (S_OK, s)

/-- The callbacks of the class `VirtualDesktopNotification_Win11_24H2_Preview`. -/
def VirtualDesktopNotification_Win11_24H2_Preview.callback (m : SinkCallback) (io : Interop)
    (s : VirtualDesktop) : Option (HRESULT × VirtualDesktop) :=
  match m with
  | SinkCallback.VirtualDesktopCreated => some (S_OK, s)
  | SinkCallback.VirtualDesktopDestroyBegin => some (S_OK, s)
  | SinkCallback.VirtualDesktopDestroyFailed => some (S_OK, s)
  | SinkCallback.VirtualDesktopDestroyed => some (S_OK, s)
  | SinkCallback.VirtualDesktopIsPerMonitorChanged => some (S_OK, s)
  | SinkCallback.VirtualDesktopMoved => some (S_OK, s)
  | SinkCallback.VirtualDesktopNameChanged => some (S_OK, s)
  | SinkCallback.ViewVirtualDesktopChanged => some (S_OK, s)
  | SinkCallback.CurrentVirtualDesktopChanged => some (S_OK, s.OnDesktopSwitched io)
  | SinkCallback.VirtualDesktopWallpaperChanged => some (S_OK, s)
  | SinkCallback.VirtualDesktopSwitched => some (S_OK, s)
  | SinkCallback.RemoteVirtualDesktopConnected => some (S_OK, s)

/-- A lifecycle callback arriving at a sink object, by its class. -/
def NotificationSink.callback (sink : NotificationSink) (m : SinkCallback) (io : Interop)
    (s : VirtualDesktop) : Option (HRESULT × VirtualDesktop) :=
  match sink with
  | NotificationSink.Win10 => VirtualDesktopNotification_Win10.callback m io s
  | NotificationSink.Win11_21H2 => VirtualDesktopNotification_Win11_21H2.callback m io s
  | NotificationSink.Win11_23H2 => VirtualDesktopNotification_Win11_23H2.callback m io s
  | NotificationSink.Win11_24H2_Preview =>
    VirtualDesktopNotification_Win11_24H2_Preview.callback m io s

/-- The callbacks each notification interface declares, in declaration order. -/
def NotificationSink.declared : NotificationSink → List SinkCallback
  | NotificationSink.Win10 =>
    [SinkCallback.VirtualDesktopCreated, SinkCallback.VirtualDesktopDestroyBegin,
     SinkCallback.VirtualDesktopDestroyFailed, SinkCallback.VirtualDesktopDestroyed,
     SinkCallback.ViewVirtualDesktopChanged, SinkCallback.CurrentVirtualDesktopChanged]
  | NotificationSink.Win11_21H2 =>
    [SinkCallback.VirtualDesktopCreated, SinkCallback.VirtualDesktopDestroyBegin,
     SinkCallback.VirtualDesktopDestroyFailed, SinkCallback.VirtualDesktopDestroyed,
     SinkCallback.VirtualDesktopIsPerMonitorChanged, SinkCallback.VirtualDesktopMoved,
     SinkCallback.VirtualDesktopNameChanged, SinkCallback.ViewVirtualDesktopChanged,
     SinkCallback.CurrentVirtualDesktopChanged, SinkCallback.VirtualDesktopWallpaperChanged]
  | NotificationSink.Win11_23H2 =>
    [SinkCallback.VirtualDesktopCreated, SinkCallback.VirtualDesktopDestroyBegin,
     SinkCallback.VirtualDesktopDestroyFailed, SinkCallback.VirtualDesktopDestroyed,
     SinkCallback.VirtualDesktopIsPerMonitorChanged, SinkCallback.VirtualDesktopMoved,
     SinkCallback.VirtualDesktopNameChanged, SinkCallback.ViewVirtualDesktopChanged,
     SinkCallback.CurrentVirtualDesktopChanged, SinkCallback.VirtualDesktopWallpaperChanged,
     SinkCallback.VirtualDesktopSwitched, SinkCallback.RemoteVirtualDesktopConnected]
  | NotificationSink.Win11_24H2_Preview =>
    [SinkCallback.VirtualDesktopCreated, SinkCallback.VirtualDesktopDestroyBegin,
     SinkCallback.VirtualDesktopDestroyFailed, SinkCallback.VirtualDesktopDestroyed,
     SinkCallback.VirtualDesktopIsPerMonitorChanged, SinkCallback.VirtualDesktopMoved,
     SinkCallback.VirtualDesktopNameChanged, SinkCallback.ViewVirtualDesktopChanged,
     SinkCallback.CurrentVirtualDesktopChanged, SinkCallback.VirtualDesktopWallpaperChanged,
     SinkCallback.VirtualDesktopSwitched, SinkCallback.RemoteVirtualDesktopConnected]

/-- The four groups of variants as the specification names them: the
Windows 10 family, Windows 11 21H2/22H2, Windows 11 23H2/24H2, and the 24H2
preview together with `Unknown`. -/
def variantGroup (v : WindowsVirtualDesktopVersion) : InterfaceFamily :=
  if v ∈ [Win11_24H2_Preview, Unknown] then InterfaceFamily.Win11_24H2_Preview
  else if v ∈ [Win11_23H2, Win11_24H2] then InterfaceFamily.Win11_23H2
  else if v ∈ [Win11_21H2, Win11_22H2] then InterfaceFamily.Win11_21H2
  else InterfaceFamily.Win10

/-! ## The query methods with the interface of every call made explicit

The methods below are the query methods of `VirtualDesktop` once more, with
one refinement of the operating system: what an internal object answers may
depend on the interface type through which it is called, the type each arm
of a `switch (m_windowsVersion)` casts the pointer to. -/

/-- The enumerated array: its elements are pointers, each given by what the
object answers through each of the four desktop interfaces. -/
structure DesktopPointerArray where
  GetCount : Nat := 0
  GetAt : Nat → Option (InterfaceFamily → DesktopObject) := fun _ => none

/-- The answers of the internal manager through one of its four interfaces;
the desktop objects it hands out are pointers. -/
structure ManagerAnswers where
  GetCurrentDesktop_hr : HRESULT := 0
  GetCurrentDesktop_out : InterfaceFamily → DesktopObject := fun _ => {}
  GetCount_hr : HRESULT := 0
  GetCount_out : Nat := 0
  GetDesktops_hr : HRESULT := 0
  GetDesktops_out : Option DesktopPointerArray := none

/-- The array as it is seen when every element is used through the desktop
interface of the family `f`. -/
def DesktopPointerArray.through (arr : DesktopPointerArray) (f : InterfaceFamily) :
    IObjectArray :=
  { GetCount := arr.GetCount, GetAt := fun i => (arr.GetAt i).map fun p => p f }

/-- The answers of the operating system as they are seen when the internal
manager and the desktop objects are used through the interfaces of the family
`f` alone; every other call answers as in `io`. -/
def answersThrough (via : InterfaceFamily → ManagerAnswers) (io : Interop)
    (f : InterfaceFamily) : Interop :=
  { io with
    GetCurrentDesktop_hr := (via f).GetCurrentDesktop_hr
    GetCurrentDesktop_out := (via f).GetCurrentDesktop_out f
    GetCount_hr := (via f).GetCount_hr
    GetCount_out := (via f).GetCount_out
    GetDesktops_hr := (via f).GetDesktops_hr
    GetDesktops_out := (via f).GetDesktops_out.map fun arr => arr.through f }

/-- The array of pointers whose elements answer the same through every
interface. -/
def IObjectArray.uniform (arr : IObjectArray) : DesktopPointerArray :=
  { GetCount := arr.GetCount, GetAt := fun i => (arr.GetAt i).map fun o _ => o }

/-- The answers `io` as answers that do not depend on the interface used. -/
def Interop.uniform (io : Interop) : InterfaceFamily → ManagerAnswers :=
  fun _ =>
    { GetCurrentDesktop_hr := io.GetCurrentDesktop_hr
      GetCurrentDesktop_out := fun _ => io.GetCurrentDesktop_out
      GetCount_hr := io.GetCount_hr
      GetCount_out := io.GetCount_out
      GetDesktops_hr := io.GetDesktops_hr
      GetDesktops_out := io.GetDesktops_out.map fun arr => arr.uniform }

namespace VirtualDesktop

/-- The `switch` inside the loop of `GetDesktopIndexByGUID`, each arm reading
the identity through the desktop interface it declares. -/
def enumeratedDesktopIdVia (version : WindowsVirtualDesktopVersion)
    (pDesktopUnk : InterfaceFamily → DesktopObject) : GUID :=
  match version with
  | Win10_1803 | Win10_1809 | Win10_1903 | Win10_1909 | Win10_2004
  | Win10_20H2 | Win10_21H1 | Win10_21H2 | Win10_22H2 =>
    let guids := VirtualDesktopGUIDs.ForVersion version
    if SUCCEEDED ((pDesktopUnk InterfaceFamily.Win10).QueryInterface
        guids.iidVirtualDesktop) then
      (pDesktopUnk InterfaceFamily.Win10).GetID_out.getD GUID.empty
    else GUID.empty
  | Win11_21H2 | Win11_22H2 =>
    let guids := VirtualDesktopGUIDs.ForVersion version
    if SUCCEEDED ((pDesktopUnk InterfaceFamily.Win11_21H2).QueryInterface
        guids.iidVirtualDesktop) then
      (pDesktopUnk InterfaceFamily.Win11_21H2).GetID_out.getD GUID.empty
    else GUID.empty
  | Win11_23H2 | Win11_24H2 =>
    let guids := VirtualDesktopGUIDs.ForVersion version
    if SUCCEEDED ((pDesktopUnk InterfaceFamily.Win11_23H2).QueryInterface
        guids.iidVirtualDesktop) then
      (pDesktopUnk InterfaceFamily.Win11_23H2).GetID_out.getD GUID.empty
    else GUID.empty
  | Win11_24H2_Preview | Unknown =>
    let guids := VirtualDesktopGUIDs.ForVersion version
    if SUCCEEDED ((pDesktopUnk InterfaceFamily.Win11_24H2_Preview).QueryInterface
        guids.iidVirtualDesktop) then
      (pDesktopUnk InterfaceFamily.Win11_24H2_Preview).GetID_out.getD GUID.empty
    else GUID.empty

/-- The loop of `GetDesktopIndexByGUID` over an array of pointers. -/
def indexLoopVia (version : WindowsVirtualDesktopVersion) (pDesktops : DesktopPointerArray)
    (guid : GUID) : Nat → Nat → Int
  | 0, _ => 1
  | remaining + 1, i =>
    match pDesktops.GetAt i with
    | none => indexLoopVia version pDesktops guid remaining (i + 1)
    | some pDesktopUnk =>
      if IsEqualGUID (enumeratedDesktopIdVia version pDesktopUnk) guid then toInt32 (i + 1)
      else indexLoopVia version pDesktops guid remaining (i + 1)

/-- The `switch` of `GetDesktopIndexByGUID` and of `GetDesktopByIndex` that
calls `GetDesktops`, each arm through the manager interface it casts to. -/
def callGetDesktopsVia (via : InterfaceFamily → ManagerAnswers)
    (version : WindowsVirtualDesktopVersion) : HRESULT × Option DesktopPointerArray :=
  match version with
  | Win10_1803 | Win10_1809 | Win10_1903 | Win10_1909 | Win10_2004
  | Win10_20H2 | Win10_21H1 | Win10_21H2 | Win10_22H2 =>
    ((via InterfaceFamily.Win10).GetDesktops_hr, (via InterfaceFamily.Win10).GetDesktops_out)
  | Win11_21H2 | Win11_22H2 =>
    ((via InterfaceFamily.Win11_21H2).GetDesktops_hr,
     (via InterfaceFamily.Win11_21H2).GetDesktops_out)
  | Win11_23H2 | Win11_24H2 =>
    ((via InterfaceFamily.Win11_23H2).GetDesktops_hr,
     (via InterfaceFamily.Win11_23H2).GetDesktops_out)
  | Win11_24H2_Preview | Unknown =>
    ((via InterfaceFamily.Win11_24H2_Preview).GetDesktops_hr,
     (via InterfaceFamily.Win11_24H2_Preview).GetDesktops_out)

/-- The method `GetDesktopIndexByGUID`, interfaces explicit. -/
def GetDesktopIndexByGUIDVia (via : InterfaceFamily → ManagerAnswers) (s : VirtualDesktop)
    (guid : GUID) : Int :=
  if !s.m_available || !s.m_pVirtualDesktopManagerInternal then 1
  else
    let r := callGetDesktopsVia via s.m_windowsVersion
    match r.2 with
    | none => 1
    | some pDesktops =>
      if FAILED r.1 then 1
      else
        let count := pDesktops.GetCount % 2 ^ 32
        indexLoopVia s.m_windowsVersion pDesktops guid count 0

/-- The method `GetDesktopInfoWin10`, interfaces explicit. -/
def GetDesktopInfoWin10Via (via : InterfaceFamily → ManagerAnswers) (s : VirtualDesktop)
    (pUnkDesktop : InterfaceFamily → DesktopObject) (info : DesktopInfo) :
    Bool × DesktopInfo :=
  let pDesktop := pUnkDesktop InterfaceFamily.Win10
  let info := { info with id := pDesktop.GetID_out.getD info.id }
  if FAILED pDesktop.GetID_hr then (false, info)
  else
    let info := { info with name := "" }
    let info := { info with index := GetDesktopIndexByGUIDVia via s info.id }
    (true, info)

/-- The method `GetDesktopInfoWin11_21H2`, interfaces explicit. -/
def GetDesktopInfoWin11_21H2Via (via : InterfaceFamily → ManagerAnswers) (s : VirtualDesktop)
    (pUnkDesktop : InterfaceFamily → DesktopObject) (info : DesktopInfo) :
    Bool × DesktopInfo :=
  let pDesktop := pUnkDesktop InterfaceFamily.Win11_21H2
  let info := { info with id := pDesktop.GetID_out.getD info.id }
  if FAILED pDesktop.GetID_hr then (false, info)
  else
    let info :=
      if SUCCEEDED pDesktop.GetName_hr && pDesktop.GetName_out.isSome then
        { info with name := HStringToWString pDesktop.GetName_out }
      else { info with name := "" }
    let info := { info with index := GetDesktopIndexByGUIDVia via s info.id }
    (true, info)

/-- The method `GetDesktopInfoWin11_23H2`, interfaces explicit. -/
def GetDesktopInfoWin11_23H2Via (via : InterfaceFamily → ManagerAnswers) (s : VirtualDesktop)
    (pUnkDesktop : InterfaceFamily → DesktopObject) (info : DesktopInfo) :
    Bool × DesktopInfo :=
  let pDesktop := pUnkDesktop InterfaceFamily.Win11_23H2
  let info := { info with id := pDesktop.GetID_out.getD info.id }
  if FAILED pDesktop.GetID_hr then (false, info)
  else
    let info :=
      if SUCCEEDED pDesktop.GetName_hr && pDesktop.GetName_out.isSome then
        { info with name := HStringToWString pDesktop.GetName_out }
      else { info with name := "" }
    let info := { info with index := GetDesktopIndexByGUIDVia via s info.id }
    (true, info)

/-- The method `GetDesktopInfoWin11_24H2_Preview`, interfaces explicit. -/
def GetDesktopInfoWin11_24H2_PreviewVia (via : InterfaceFamily → ManagerAnswers)
    (s : VirtualDesktop) (pUnkDesktop : InterfaceFamily → DesktopObject)
    (info : DesktopInfo) : Bool × DesktopInfo :=
  let pDesktop := pUnkDesktop InterfaceFamily.Win11_24H2_Preview
  let info := { info with id := pDesktop.GetID_out.getD info.id }
  if FAILED pDesktop.GetID_hr then (false, info)
  else
    let info :=
      if SUCCEEDED pDesktop.GetName_hr && pDesktop.GetName_out.isSome then
        { info with name := HStringToWString pDesktop.GetName_out }
      else { info with name := "" }
    let info := { info with index := GetDesktopIndexByGUIDVia via s info.id }
    (true, info)

/-- The method `GetCurrentDesktopWin10`, interfaces explicit. -/
def GetCurrentDesktopWin10Via (via : InterfaceFamily → ManagerAnswers) (s : VirtualDesktop)
    (info : DesktopInfo) : Bool × DesktopInfo :=
  let pManager := via InterfaceFamily.Win10
  if FAILED pManager.GetCurrentDesktop_hr then (false, info)
  else GetDesktopInfoWin10Via via s pManager.GetCurrentDesktop_out info

/-- The method `GetCurrentDesktopWin11_21H2`, interfaces explicit. -/
def GetCurrentDesktopWin11_21H2Via (via : InterfaceFamily → ManagerAnswers)
    (s : VirtualDesktop) (info : DesktopInfo) : Bool × DesktopInfo :=
  let pManager := via InterfaceFamily.Win11_21H2
  if FAILED pManager.GetCurrentDesktop_hr then (false, info)
  else GetDesktopInfoWin11_21H2Via via s pManager.GetCurrentDesktop_out info

/-- The method `GetCurrentDesktopWin11_23H2`, interfaces explicit. -/
def GetCurrentDesktopWin11_23H2Via (via : InterfaceFamily → ManagerAnswers)
    (s : VirtualDesktop) (info : DesktopInfo) : Bool × DesktopInfo :=
  let pManager := via InterfaceFamily.Win11_23H2
  if FAILED pManager.GetCurrentDesktop_hr then (false, info)
  else GetDesktopInfoWin11_23H2Via via s pManager.GetCurrentDesktop_out info

/-- The method `GetCurrentDesktopWin11_24H2_Preview`, interfaces explicit. -/
def GetCurrentDesktopWin11_24H2_PreviewVia (via : InterfaceFamily → ManagerAnswers)
    (s : VirtualDesktop) (info : DesktopInfo) : Bool × DesktopInfo :=
  let pManager := via InterfaceFamily.Win11_24H2_Preview
  if FAILED pManager.GetCurrentDesktop_hr then (false, info)
  else GetDesktopInfoWin11_24H2_PreviewVia via s pManager.GetCurrentDesktop_out info

/-- The method `GetCurrentDesktop`, interfaces explicit.  The polling branch
and the synthesized fallback make no call on an internal object and read the
answers `io` as before. -/
def GetCurrentDesktopVia (via : InterfaceFamily → ManagerAnswers) (io : Interop)
    (s : VirtualDesktop) (info : DesktopInfo) : Bool × DesktopInfo × VirtualDesktop :=
  if s.m_available && s.m_pVirtualDesktopManagerInternal && !s.m_usingPolling then
    match s.m_windowsVersion with
    | Win10_1803 | Win10_1809 | Win10_1903 | Win10_1909 | Win10_2004
    | Win10_20H2 | Win10_21H1 | Win10_21H2 | Win10_22H2 =>
      ((GetCurrentDesktopWin10Via via s info).1, (GetCurrentDesktopWin10Via via s info).2, s)
    | Win11_21H2 | Win11_22H2 =>
      ((GetCurrentDesktopWin11_21H2Via via s info).1,
       (GetCurrentDesktopWin11_21H2Via via s info).2, s)
    | Win11_23H2 | Win11_24H2 =>
      ((GetCurrentDesktopWin11_23H2Via via s info).1,
       (GetCurrentDesktopWin11_23H2Via via s info).2, s)
    | Win11_24H2_Preview | Unknown =>
      ((GetCurrentDesktopWin11_24H2_PreviewVia via s info).1,
       (GetCurrentDesktopWin11_24H2_PreviewVia via s info).2, s)
  else if s.m_usingPolling then
    let s := resolveFromForeground io s
    if !IsEqualGUID s.m_lastKnownDesktopId GUID.empty then
      (true, { info with id := s.m_lastKnownDesktopId, index := s.m_lastKnownDesktopIndex,
                         name := GetDesktopNameFromRegistry io s.m_lastKnownDesktopId }, s)
    else (true, { info with index := 1, name := "", id := GUID.empty }, s)
  else (true, { info with index := 1, name := "", id := GUID.empty }, s)

/-- The `switch` of `GetDesktopCount`, each arm calling `GetCount` through the
manager interface it casts to. -/
def callGetCountVia (via : InterfaceFamily → ManagerAnswers)
    (version : WindowsVirtualDesktopVersion) : HRESULT × Nat :=
  match version with
  | Win10_1803 | Win10_1809 | Win10_1903 | Win10_1909 | Win10_2004
  | Win10_20H2 | Win10_21H1 | Win10_21H2 | Win10_22H2 =>
    ((via InterfaceFamily.Win10).GetCount_hr, (via InterfaceFamily.Win10).GetCount_out)
  | Win11_21H2 | Win11_22H2 =>
    ((via InterfaceFamily.Win11_21H2).GetCount_hr, (via InterfaceFamily.Win11_21H2).GetCount_out)
  | Win11_23H2 | Win11_24H2 =>
    ((via InterfaceFamily.Win11_23H2).GetCount_hr, (via InterfaceFamily.Win11_23H2).GetCount_out)
  | Win11_24H2_Preview | Unknown =>
    ((via InterfaceFamily.Win11_24H2_Preview).GetCount_hr,
     (via InterfaceFamily.Win11_24H2_Preview).GetCount_out)

/-- The method `GetDesktopCount`, interfaces explicit. -/
def GetDesktopCountVia (via : InterfaceFamily → ManagerAnswers) (s : VirtualDesktop) : Int :=
  if !s.m_available || !s.m_pVirtualDesktopManagerInternal then 1
  else
    let r := callGetCountVia via s.m_windowsVersion
    if FAILED r.1 then 1 else toInt32 r.2

/-- The method `GetDesktopByIndex`, interfaces explicit. -/
def GetDesktopByIndexVia (via : InterfaceFamily → ManagerAnswers) (s : VirtualDesktop)
    (index : Int) (info : DesktopInfo) : Bool × DesktopInfo :=
  if !s.m_available || !s.m_pVirtualDesktopManagerInternal then
    (true, { info with index := index, name := "", id := GUID.empty })
  else
    let r := callGetDesktopsVia via s.m_windowsVersion
    match r.2 with
    | none => (false, info)
    | some pDesktops =>
      if FAILED r.1 then (false, info)
      else
        let count := pDesktops.GetCount % 2 ^ 32
        let idx := toUInt32 (index - 1)
        if idx ≥ count then (false, info)
        else
          match pDesktops.GetAt idx with
          | none => (false, info)
          | some pDesktopUnk =>
            let info := { info with index := index }
            match s.m_windowsVersion with
            | Win10_1803 | Win10_1809 | Win10_1903 | Win10_1909 | Win10_2004
            | Win10_20H2 | Win10_21H1 | Win10_21H2 | Win10_22H2 =>
              GetDesktopInfoWin10Via via s pDesktopUnk info
            | Win11_21H2 | Win11_22H2 => GetDesktopInfoWin11_21H2Via via s pDesktopUnk info
            | Win11_23H2 | Win11_24H2 => GetDesktopInfoWin11_23H2Via via s pDesktopUnk info
            | Win11_24H2_Preview | Unknown =>
              GetDesktopInfoWin11_24H2_PreviewVia via s pDesktopUnk info

end VirtualDesktop

/-- Answers in which the manager reports two desktops through the interfaces
of the family `f` and three through every other one. -/
def twoThrough (f : InterfaceFamily) : InterfaceFamily → ManagerAnswers :=
  fun g => if g = f then { GetCount_out := 2 } else { GetCount_out := 3 }

/-- The state after `Init` on the first build of the variant `v` with every call
succeeding: Notification mode on that variant. -/
def notificationOn (v : WindowsVirtualDesktopVersion) : VirtualDesktop :=
  (VirtualDesktop.Init { dwBuildNumber := buildThreshold v } {}).2

/-! ## Notions used to state the claims on lifecycle and polling ticks -/

/-- What holds of the tracked resources in every reachable state: a timer
identifier is held only in Polling mode, a cookie only next to the
notification service, the event hook is never installed, and an uninitialised
subsystem holds no cookie and none of the internal objects. -/
structure Tracked (s : VirtualDesktop) : Prop where
  timer_polling : s.m_pollingTimer ≠ 0 → s.m_usingPolling = true
  cookie_service : s.m_notificationCookie ≠ 0 → s.m_pNotificationService = true
  hook_absent : s.m_desktopSwitchHook = false
  released : s.m_initialized = false →
    s.m_notificationCookie = 0 ∧ s.m_pNotificationService = false ∧
    s.m_pNotificationHandler = none ∧ s.m_pServiceProvider = false ∧ s.m_comOwned = false

/-- One operation other than `Init`. -/
inductive StepExceptInit : VirtualDesktop → VirtualDesktop → Prop where
  | Shutdown (s : VirtualDesktop) : StepExceptInit s s.Shutdown
  | SetDesktopSwitchCallback (io : Interop) (callback : Option Nat) (s : VirtualDesktop) :
      StepExceptInit s (s.SetDesktopSwitchCallback io callback)
  | ClearDesktopSwitchCallback (s : VirtualDesktop) :
      StepExceptInit s s.ClearDesktopSwitchCallback
  | PollingTimerProc (io : Interop) (s : VirtualDesktop) :
      StepExceptInit s (s.PollingTimerProc io)
  | CurrentVirtualDesktopChanged (io : Interop) (s : VirtualDesktop) :
      StepExceptInit s (s.OnDesktopSwitched io)
  | GetCurrentDesktop (io : Interop) (info : DesktopInfo) (s : VirtualDesktop) :
      StepExceptInit s (s.GetCurrentDesktop io info).2.2

/-- The state `t` is reached from `s` by operations other than `Init`. -/
inductive WithoutInit : VirtualDesktop → VirtualDesktop → Prop where
  | refl (s : VirtualDesktop) : WithoutInit s s
  | step {s t u : VirtualDesktop} : WithoutInit s t → StepExceptInit t u → WithoutInit s u

/-- The window one tick samples: the foreground window, the shell window when
there is none. -/
def sampledWindow (io : Interop) : Option Window :=
  match io.GetForegroundWindow with
  | some w => some w
  | none => io.GetShellWindow

/-- The identity one tick resolves, when it resolves one: nothing without a
window or when the test of the sampled window fails; the identity of the
sampled window when it reads as non-empty; otherwise the answer of the
enumeration. -/
def tickIdentity (io : Interop) : Option GUID :=
  match sampledWindow io with
  | none => none
  | some hWnd =>
    if FAILED hWnd.IsWindowOnCurrentVirtualDesktop_hr then none
    else if FAILED hWnd.GetWindowDesktopId_hr
        || IsEqualGUID (hWnd.GetWindowDesktopId_out.getD GUID.empty) GUID.empty then
      VirtualDesktop.enumWindowsFind io.EnumWindows
    else some (hWnd.GetWindowDesktopId_out.getD GUID.empty)

/-- The three tests of the enumeration fallback as the specification words
them: the window is visible, it reports a non-empty identity, and it is
reported as on the current desktop. -/
def qualifies (hw : Window) : Bool :=
  hw.IsWindowVisible &&
  (SUCCEEDED hw.GetWindowDesktopId_hr
    && !IsEqualGUID (hw.GetWindowDesktopId_out.getD GUID.empty) GUID.empty) &&
  (SUCCEEDED hw.IsWindowOnCurrentVirtualDesktop_hr && hw.IsWindowOnCurrentVirtualDesktop_out)

/-- The identity of the first window of the list that passes the three tests. -/
def firstQualifying (windows : List Window) : Option GUID :=
  (windows.find? qualifies).map fun hw => hw.GetWindowDesktopId_out.getD GUID.empty

/-- The invocations of the listener among the recorded calls. -/
def listenerInvocations (calls : List Effect) : List Effect :=
  calls.filter fun e =>
    match e with
    | Effect.Callback _ _ _ => true
    | _ => false

/-- A sequence of polling ticks, one per element of the list of answers. -/
def runTicks : List Interop → VirtualDesktop → VirtualDesktop
  | [], s => s
  | io :: rest, s => runTicks rest (VirtualDesktop.PollingTimerProc io s)

/-- The number of ticks of a sequence that observe a change: the tick resolves
an identity different from the one last known when it runs. -/
def observedChanges : List Interop → VirtualDesktop → Nat
  | [], _ => 0
  | io :: rest, s =>
    (match tickIdentity io with
     | some d => if d ≠ s.m_lastKnownDesktopId then 1 else 0
     | none => 0) + observedChanges rest (VirtualDesktop.PollingTimerProc io s)

/-- Answers in which the internal manager is acquired and the notification
service is refused. -/
def notificationServiceRefused : Interop :=
  { dwBuildNumber := 19045,
    QueryService := fun rclsid _ =>
      if rclsid = CLSID_VirtualDesktopNotificationService then E_NOINTERFACE else S_OK }

/-- Answers in which everything is acquired and the registration of the sink
fails. -/
def registrationRefused : Interop :=
  { dwBuildNumber := 19045, Register_hr := E_FAIL }

/-- Answers in which the first initialisation call reports a context that is
already initialised on the thread. -/
def contextAlreadyInitialized : Interop :=
  { dwBuildNumber := 19045, CoInitializeEx_MULTITHREADED := S_FALSE }

/-- Answers in which the first initialisation call reports a changed mode and
the apartment-threaded retry reports a context that is already initialised. -/
def apartmentAlreadyInitialized : Interop :=
  { dwBuildNumber := 19045, CoInitializeEx_MULTITHREADED := RPC_E_CHANGED_MODE,
    CoInitializeEx_APARTMENTTHREADED := S_FALSE }

/-- Answers for a tick on the first of two stored desktops while the foreground
window is shown on all desktops: it reports the empty identity, and the
enumeration holds a visible window of the current desktop `sampleId 1`. -/
def foregroundPinned : Interop :=
  { GetForegroundWindow := some { GetWindowDesktopId_out := some GUID.empty,
                                  IsWindowOnCurrentVirtualDesktop_out := true },
    EnumWindows := [{ GetWindowDesktopId_out := some (sampleId 1),
                      IsWindowOnCurrentVirtualDesktop_out := true }],
    RegOpenKeyExW_VirtualDesktops := 0, RegQueryValueExW_size_result := 0,
    RegQueryValueExW_dataSize := 32, RegQueryValueExW_data_result := 0,
    RegQueryValueExW_data := [sampleId 1, sampleId 2] }

/-- Polling mode with a listener registered under the answers `foregroundPinned`. -/
def registeredWhilePinned : VirtualDesktop :=
  VirtualDesktop.SetDesktopSwitchCallback foregroundPinned (some 1) pollingReady

/-- The answers `foregroundPinned` except that the test of the foreground
window against the current desktop fails. -/
def foregroundTestFails : Interop :=
  { foregroundPinned with
    GetForegroundWindow := some { GetWindowDesktopId_out := some GUID.empty,
                                  IsWindowOnCurrentVirtualDesktop_hr := E_FAIL } }

/-- Notification mode entered again after a shutdown of `registeredTwice`,
with a listener registered: the timer 1 of the first registration still runs. -/
def notificationWithLeakedTimer : VirtualDesktop :=
  VirtualDesktop.SetDesktopSwitchCallback {} (some 9)
    (VirtualDesktop.Init { dwBuildNumber := 19045 } registeredTwice.Shutdown).2

/-- Answers for a tick in which the foreground window is on `sampleId 2` and
the internal manager fails to report the current desktop. -/
def currentDesktopQueryFails : Interop :=
  { foregroundOnSecond with GetCurrentDesktop_hr := E_FAIL }

/-- The state `t` differs from `s` at most in the last-known identity, the
last-known index and the recorded calls. -/
def OnlyResolution (s t : VirtualDesktop) : Prop :=
  ∃ (id : GUID) (index : Int) (calls : List Effect),
    t = { s with m_lastKnownDesktopId := id, m_lastKnownDesktopIndex := index, calls := calls }

open VirtualDesktop

/-! ## Classification and tables -/

/-- Case analysis along the ladder: a property of the classified variant
follows from its fifteen instances, each with the bounds of its rung. -/
theorem classify_elim (b : Nat) (P : WindowsVirtualDesktopVersion → Prop)
    (h14 : 26200 ≤ b → P Win11_24H2_Preview)
    (h13 : 26100 ≤ b → b < 26200 → P Win11_24H2)
    (h12 : 22631 ≤ b → b < 26100 → P Win11_23H2)
    (h11 : 22621 ≤ b → b < 22631 → P Win11_22H2)
    (h10 : 22000 ≤ b → b < 22621 → P Win11_21H2)
    (h9 : 19045 ≤ b → b < 22000 → P Win10_22H2)
    (h8 : 19044 ≤ b → b < 19045 → P Win10_21H2)
    (h7 : 19043 ≤ b → b < 19044 → P Win10_21H1)
    (h6 : 19042 ≤ b → b < 19043 → P Win10_20H2)
    (h5 : 19041 ≤ b → b < 19042 → P Win10_2004)
    (h4 : 18363 ≤ b → b < 19041 → P Win10_1909)
    (h3 : 18362 ≤ b → b < 18363 → P Win10_1903)
    (h2 : 17763 ≤ b → b < 18362 → P Win10_1809)
    (h1 : 17134 ≤ b → b < 17763 → P Win10_1803)
    (h0 : b < 17134 → P Unknown) :
    P (GetCurrentVirtualDesktopVersion b) := by
  unfold GetCurrentVirtualDesktopVersion
  by_cases c14 : b ≥ 26200
  · rw [if_pos c14]; exact h14 c14
  rw [if_neg c14]
  by_cases c13 : b ≥ 26100
  · rw [if_pos c13]; exact h13 c13 (by omega)
  rw [if_neg c13]
  by_cases c12 : b ≥ 22631
  · rw [if_pos c12]; exact h12 c12 (by omega)
  rw [if_neg c12]
  by_cases c11 : b ≥ 22621
  · rw [if_pos c11]; exact h11 c11 (by omega)
  rw [if_neg c11]
  by_cases c10 : b ≥ 22000
  · rw [if_pos c10]; exact h10 c10 (by omega)
  rw [if_neg c10]
  by_cases c9 : b ≥ 19045
  · rw [if_pos c9]; exact h9 c9 (by omega)
  rw [if_neg c9]
  by_cases c8 : b ≥ 19044
  · rw [if_pos c8]; exact h8 c8 (by omega)
  rw [if_neg c8]
  by_cases c7 : b ≥ 19043
  · rw [if_pos c7]; exact h7 c7 (by omega)
  rw [if_neg c7]
  by_cases c6 : b ≥ 19042
  · rw [if_pos c6]; exact h6 c6 (by omega)
  rw [if_neg c6]
  by_cases c5 : b ≥ 19041
  · rw [if_pos c5]; exact h5 c5 (by omega)
  rw [if_neg c5]
  by_cases c4 : b ≥ 18363
  · rw [if_pos c4]; exact h4 c4 (by omega)
  rw [if_neg c4]
  by_cases c3 : b ≥ 18362
  · rw [if_pos c3]; exact h3 c3 (by omega)
  rw [if_neg c3]
  by_cases c2 : b ≥ 17763
  · rw [if_pos c2]; exact h2 c2 (by omega)
  rw [if_neg c2]
  by_cases c1 : b ≥ 17134
  · rw [if_pos c1]; exact h1 c1 (by omega)
  rw [if_neg c1]
  exact h0 (by omega)

theorem buildThreshold_injective (v w : WindowsVirtualDesktopVersion)
    (h : buildThreshold v = buildThreshold w) : v = w := by
  cases v <;> cases w <;> simp [buildThreshold] at h <;> rfl

theorem classify_threshold_le (b : Nat) :
    buildThreshold (GetCurrentVirtualDesktopVersion b) ≤ b := by
  apply classify_elim b (fun v => buildThreshold v ≤ b) <;> intros <;>
    simp only [buildThreshold] <;> omega

theorem classify_threshold_greatest (b : Nat) (w : WindowsVirtualDesktopVersion)
    (hw : buildThreshold w ≤ b) :
    buildThreshold w ≤ buildThreshold (GetCurrentVirtualDesktopVersion b) := by
  apply classify_elim b (fun v => buildThreshold w ≤ buildThreshold v) <;> intros <;>
    cases w <;> simp only [buildThreshold] at hw ⊢ <;> omega

theorem classify_unknown_iff (b : Nat) :
    GetCurrentVirtualDesktopVersion b = Unknown ↔ b < 17134 := by
  apply classify_elim b (fun v => v = Unknown ↔ b < 17134) <;> intros <;> simp <;> omega

/-- The fold that keeps the element of greatest threshold returns a member of
the list (or the start value) that dominates all of them. -/
theorem foldl_greatest (l : List WindowsVirtualDesktopVersion)
    (init : WindowsVirtualDesktopVersion) :
    let r := l.foldl (fun best v => if buildThreshold best ≤ buildThreshold v then v else best) init
    (r = init ∨ r ∈ l) ∧ buildThreshold init ≤ buildThreshold r ∧
      ∀ x ∈ l, buildThreshold x ≤ buildThreshold r := by
  induction l generalizing init with
  | nil => simp
  | cons a t ih =>
    simp only [List.foldl_cons, List.mem_cons]
    by_cases hc : buildThreshold init ≤ buildThreshold a
    · have h := ih a
      simp only [hc, if_true] at h ⊢
      obtain ⟨h1, h2, h3⟩ := h
      refine ⟨?_, by omega, ?_⟩
      · rcases h1 with h1 | h1
        · exact Or.inr (Or.inl h1)
        · exact Or.inr (Or.inr h1)
      · intro x hx
        rcases hx with hx | hx
        · rw [hx]; exact h2
        · exact h3 x hx
    · have h := ih init
      simp only [hc, if_false] at h ⊢
      obtain ⟨h1, h2, h3⟩ := h
      refine ⟨?_, h2, ?_⟩
      · rcases h1 with h1 | h1
        · exact Or.inl h1
        · exact Or.inr (Or.inr h1)
      · intro x hx
        rcases hx with hx | hx
        · rw [hx]; omega
        · exact h3 x hx

theorem classify_eq_ladder (b : Nat) :
    GetCurrentVirtualDesktopVersion b = ladderByGreatestThreshold b := by
  apply buildThreshold_injective
  have h := foldl_greatest
    (knownVersions.filter (fun v => decide (buildThreshold v ≤ b))) Unknown
  simp only at h
  obtain ⟨h1, _, h3⟩ := h
  have hle : buildThreshold (ladderByGreatestThreshold b) ≤ b := by
    unfold ladderByGreatestThreshold
    rcases h1 with h1 | h1
    · rw [h1]; simp [buildThreshold]
    · simpa using (List.mem_filter.mp h1).2
  have hge : buildThreshold (GetCurrentVirtualDesktopVersion b)
      ≤ buildThreshold (ladderByGreatestThreshold b) := by
    by_cases hu : GetCurrentVirtualDesktopVersion b = Unknown
    · rw [hu]; simp [buildThreshold]
    · apply h3
      apply List.mem_filter.mpr
      refine ⟨?_, by simpa using classify_threshold_le b⟩
      revert hu
      generalize GetCurrentVirtualDesktopVersion b = v
      intro hu
      cases v <;> simp [knownVersions] at hu ⊢
  have := classify_threshold_greatest b _ hle
  omega

/-- C4: the classifier is the ordered threshold ladder.  For every build
number it returns the variant the specification's wording selects (greatest
threshold not above the build), it returns `Unknown` exactly below 17134, and
a variant is returned exactly when its threshold is the greatest one not
above the build. -/
theorem classification_is_threshold_ladder (b : Nat) :
    GetCurrentVirtualDesktopVersion b = ladderByGreatestThreshold b ∧
    (GetCurrentVirtualDesktopVersion b = Unknown ↔ b < 17134) ∧
    (∀ v, GetCurrentVirtualDesktopVersion b = v ↔
      (buildThreshold v ≤ b ∧ ∀ w, buildThreshold w ≤ b → buildThreshold w ≤ buildThreshold v)) := by
  refine ⟨classify_eq_ladder b, classify_unknown_iff b, fun v => ⟨?_, ?_⟩⟩
  · rintro rfl
    exact ⟨classify_threshold_le b, fun w hw => classify_threshold_greatest b w hw⟩
  · rintro ⟨h1, h2⟩
    apply buildThreshold_injective
    have := classify_threshold_greatest b v h1
    have := h2 _ (classify_threshold_le b)
    omega

/-- C5: `Unknown` shares the newest table.  The selector gives `Unknown` the
three identifiers of `Win11_24H2_Preview`, so every build below 17134 is
acquired with the identifiers of the newest known variant. -/
theorem unknown_shares_newest_table :
    VirtualDesktopGUIDs.ForVersion Unknown = VirtualDesktopGUIDs.ForVersion Win11_24H2_Preview ∧
    (VirtualDesktopGUIDs.ForVersion Unknown).iidVirtualDesktop
      = (VirtualDesktopGUIDs.ForVersion Win11_24H2_Preview).iidVirtualDesktop ∧
    (VirtualDesktopGUIDs.ForVersion Unknown).iidVirtualDesktopManagerInternal
      = (VirtualDesktopGUIDs.ForVersion Win11_24H2_Preview).iidVirtualDesktopManagerInternal ∧
    (VirtualDesktopGUIDs.ForVersion Unknown).iidVirtualDesktopNotification
      = (VirtualDesktopGUIDs.ForVersion Win11_24H2_Preview).iidVirtualDesktopNotification ∧
    ∀ b, b < 17134 →
      VirtualDesktopGUIDs.ForVersion (GetCurrentVirtualDesktopVersion b)
        = VirtualDesktopGUIDs.ForVersion Win11_24H2_Preview := by
  refine ⟨rfl, rfl, rfl, rfl, fun b hb => ?_⟩
  rw [(classify_unknown_iff b).mpr hb]
  rfl

/-- C6: for each of the fifteen variants the selector returns three
identifiers, none of which is the all-zero identifier. -/
theorem table_identifiers_nonzero (v : WindowsVirtualDesktopVersion) :
    (VirtualDesktopGUIDs.ForVersion v).iidVirtualDesktop ≠ GUID.empty ∧
    (VirtualDesktopGUIDs.ForVersion v).iidVirtualDesktopManagerInternal ≠ GUID.empty ∧
    (VirtualDesktopGUIDs.ForVersion v).iidVirtualDesktopNotification ≠ GUID.empty := by
  cases v <;> decide

/-- C7: build 19045 classifies as `Win10_22H2`, and every build from 17134 up
to 21999 selects the Windows 10 triple. -/
theorem win10_builds_select_win10_triple :
    GetCurrentVirtualDesktopVersion 19045 = Win10_22H2 ∧
    ∀ b, 17134 ≤ b → b < 22000 →
      VirtualDesktopGUIDs.ForVersion (GetCurrentVirtualDesktopVersion b) =
        { iidVirtualDesktop :=
            ⟨0xff72ffdd, 0xbe7e, 0x43fc, [0x9c, 0x03, 0xad, 0x81, 0x68, 0x1e, 0x88, 0xe4]⟩
          iidVirtualDesktopManagerInternal :=
            ⟨0xf31574d6, 0xb682, 0x4cdc, [0xbd, 0x56, 0x18, 0x27, 0x86, 0x0a, 0xbe, 0xc6]⟩
          iidVirtualDesktopNotification :=
            ⟨0xc179334c, 0x4295, 0x40d3, [0xbe, 0xa1, 0xc6, 0x54, 0xd9, 0x65, 0x60, 0x5a]⟩ } := by
  refine ⟨by decide, fun b h1 h2 => ?_⟩
  apply classify_elim b (fun v => VirtualDesktopGUIDs.ForVersion v = _) <;> intros <;>
    first | rfl | omega

/-! ## Invariants of the reachable states -/

theorem pollingSearch_pos (d : GUID) (l : List GUID) (i : Int) (hi : 0 ≤ i) :
    1 ≤ pollingSearch d l i := by
  induction l generalizing i with
  | nil => simp [pollingSearch]
  | cons g t ih =>
    unfold pollingSearch
    split
    · omega
    · exact ih (i + 1) (by omega)

theorem GetDesktopIndexFromPolling_pos (io : Interop) (d : GUID) :
    1 ≤ GetDesktopIndexFromPolling io d := by
  unfold GetDesktopIndexFromPolling
  split_ifs
  · omega
  · omega
  · omega
  · exact pollingSearch_pos d _ 0 (le_refl 0)

theorem Coherent_initial : Coherent {} := by
  constructor <;> simp [GUID.empty]

theorem Coherent_resolveFromForeground (io : Interop) (s : VirtualDesktop) (h : Coherent s) :
    Coherent (resolveFromForeground io s) := by
  obtain ⟨h1, h2, h3, h4, h5⟩ := h
  unfold resolveFromForeground
  split
  · split
    · exact ⟨h1, h2, h3, h4, h5⟩
    · dsimp only
      split
      · exact ⟨h1, h2, h3, h4, fun _ => GetDesktopIndexFromPolling_pos io _⟩
      · refine ⟨h1, h2, h3, h4, ?_⟩
        intro hne
        simp_all [IsEqualGUID]
  · exact ⟨h1, h2, h3, h4, h5⟩

theorem GetCurrentDesktop_state (io : Interop) (s : VirtualDesktop) (info : DesktopInfo) :
    (s.GetCurrentDesktop io info).2.2 = s ∨
      (s.GetCurrentDesktop io info).2.2 = resolveFromForeground io s := by
  unfold GetCurrentDesktop
  split
  · split <;> exact Or.inl rfl
  · split
    · dsimp only
      split <;> exact Or.inr rfl
    · exact Or.inl rfl

theorem Coherent_GetCurrentDesktop (io : Interop) (s : VirtualDesktop) (info : DesktopInfo)
    (h : Coherent s) : Coherent (s.GetCurrentDesktop io info).2.2 := by
  rcases GetCurrentDesktop_state io s info with e | e <;> rw [e]
  · exact h
  · exact Coherent_resolveFromForeground io s h

theorem Coherent_calls (s : VirtualDesktop) (c : List Effect) (h : Coherent s) :
    Coherent { s with calls := c } := by
  obtain ⟨h1, h2, h3, h4, h5⟩ := h
  exact ⟨h1, h2, h3, h4, h5⟩

theorem Coherent_OnDesktopSwitched (io : Interop) (s : VirtualDesktop) (h : Coherent s) :
    Coherent (s.OnDesktopSwitched io) := by
  unfold OnDesktopSwitched
  split
  · exact h
  · dsimp only
    split
    · exact Coherent_calls _ _ (Coherent_GetCurrentDesktop io s _ h)
    · exact Coherent_GetCurrentDesktop io s _ h

theorem Coherent_CheckDesktopChange (io : Interop) (s : VirtualDesktop) (h : Coherent s) :
    Coherent (s.CheckDesktopChange io) := by
  unfold CheckDesktopChange
  split
  · exact h
  · dsimp only
    split
    · exact h
    · split
      · exact h
      · split
        · exact h
        · split
          · apply Coherent_OnDesktopSwitched
            obtain ⟨h1, h2, h3, h4, h5⟩ := h
            exact ⟨h1, h2, h3, h4, fun _ => GetDesktopIndexFromPolling_pos io _⟩
          · exact h

theorem Coherent_SetDesktopSwitchCallback (io : Interop) (cb : Option Nat) (s : VirtualDesktop)
    (h : Coherent s) : Coherent (s.SetDesktopSwitchCallback io cb) := by
  obtain ⟨h1, h2, h3, h4, h5⟩ := h
  unfold SetDesktopSwitchCallback
  dsimp only
  split
  · split
    · exact ⟨h1, h2, h3, h4, fun _ => le_refl 1⟩
    · split <;> exact ⟨h1, h2, h3, h4, fun _ => le_refl 1⟩
  · exact ⟨h1, h2, h3, h4, h5⟩

theorem Coherent_ClearDesktopSwitchCallback (s : VirtualDesktop) (h : Coherent s) :
    Coherent s.ClearDesktopSwitchCallback := by
  obtain ⟨h1, h2, h3, h4, h5⟩ := h
  unfold ClearDesktopSwitchCallback
  dsimp only
  split <;> split <;> exact ⟨h1, h2, h3, h4, h5⟩

theorem Shutdown_frame (s : VirtualDesktop) (hi : s.m_initialized = true) :
    s.Shutdown.m_initialized = false ∧ s.Shutdown.m_available = false ∧
    s.Shutdown.m_usingPolling = false ∧ s.Shutdown.m_pVirtualDesktopManagerInternal = false ∧
    s.Shutdown.m_pPublicVirtualDesktopManager = false ∧
    s.Shutdown.m_lastKnownDesktopId = s.m_lastKnownDesktopId ∧
    s.Shutdown.m_lastKnownDesktopIndex = s.m_lastKnownDesktopIndex := by
  by_cases c1 : s.m_pollingTimer = 0 <;> by_cases c2 : s.m_desktopSwitchHook = true <;>
    by_cases c3 : s.m_notificationCookie = 0 <;>
    by_cases c4 : s.m_pNotificationService = true <;>
    by_cases c5 : s.m_comOwned = true <;>
    simp [Shutdown, ReleaseInterfaces, hi, c1, c2, c3, c4, c5]

theorem Coherent_Shutdown (s : VirtualDesktop) (h : Coherent s) : Coherent s.Shutdown := by
  by_cases hi : s.m_initialized = true
  · obtain ⟨e1, e2, e3, e4, e5, e6, e7⟩ := Shutdown_frame s hi
    refine ⟨?_, ?_, ?_, ?_, ?_⟩
    · rw [e3]; simp
    · rw [e2]; simp
    · rw [e3]; simp
    · intro _; exact ⟨e4, e5⟩
    · rw [e6, e7]; exact h.index_pos
  · have : s.Shutdown = s := by simp [Shutdown, hi]
    rw [this]; exact h

theorem InitializeCOM_fst (io : Interop) (s : VirtualDesktop) :
    (InitializeCOM io s).1 = activationContextUsable io := by
  have r1 : SUCCEEDED RPC_E_CHANGED_MODE = false := by decide
  have r2 : RPC_E_CHANGED_MODE ≠ S_FALSE := by decide
  unfold InitializeCOM activationContextUsable
  by_cases c1 : SUCCEEDED io.CoInitializeEx_MULTITHREADED = true
  · simp [c1]
  · have n1 : io.CoInitializeEx_MULTITHREADED ≠ S_FALSE := by
      intro e; rw [e] at c1; exact c1 (by decide)
    by_cases c2 : io.CoInitializeEx_MULTITHREADED = RPC_E_CHANGED_MODE
    · by_cases c3 : SUCCEEDED io.CoInitializeEx_APARTMENTTHREADED = true
      · simp [c2, c3, r1, r2]
      · have n3 : io.CoInitializeEx_APARTMENTTHREADED ≠ S_FALSE := by
          intro e; rw [e] at c3; exact c3 (by decide)
        simp [c2, c3, n3, r1, r2]
    · simp [c1, n1, c2]

theorem InitializeCOM_frame (io : Interop) (s : VirtualDesktop) :
    (InitializeCOM io s).2.m_initialized = s.m_initialized ∧
    (InitializeCOM io s).2.m_available = s.m_available ∧
    (InitializeCOM io s).2.m_usingPolling = s.m_usingPolling ∧
    (InitializeCOM io s).2.m_pPublicVirtualDesktopManager = s.m_pPublicVirtualDesktopManager ∧
    (InitializeCOM io s).2.m_pVirtualDesktopManagerInternal
      = s.m_pVirtualDesktopManagerInternal ∧
    (InitializeCOM io s).2.m_lastKnownDesktopId = s.m_lastKnownDesktopId ∧
    (InitializeCOM io s).2.m_lastKnownDesktopIndex = s.m_lastKnownDesktopIndex ∧
    (InitializeCOM io s).2.m_windowsVersion = s.m_windowsVersion := by
  unfold InitializeCOM
  dsimp only
  split
  · simp
  · split
    · simp
    · split
      · split
        · simp
        · split <;> simp
      · simp

theorem FAILED_eq_not_SUCCEEDED (hr : Int) : FAILED hr = !SUCCEEDED hr := by
  unfold FAILED SUCCEEDED
  by_cases h : 0 ≤ hr
  · have h2 : ¬ hr < 0 := by omega
    simp [h, h2]
  · have h2 : hr < 0 := by omega
    simp [h, h2]

theorem acquireNotificationService_frame (io : Interop) (s : VirtualDesktop) :
    (acquireNotificationService io s).m_initialized = s.m_initialized ∧
    (acquireNotificationService io s).m_available = s.m_available ∧
    (acquireNotificationService io s).m_usingPolling = s.m_usingPolling ∧
    (acquireNotificationService io s).m_pPublicVirtualDesktopManager
      = s.m_pPublicVirtualDesktopManager ∧
    (acquireNotificationService io s).m_pVirtualDesktopManagerInternal
      = s.m_pVirtualDesktopManagerInternal ∧
    (acquireNotificationService io s).m_lastKnownDesktopId = s.m_lastKnownDesktopId ∧
    (acquireNotificationService io s).m_lastKnownDesktopIndex = s.m_lastKnownDesktopIndex ∧
    (acquireNotificationService io s).m_windowsVersion = s.m_windowsVersion := by
  unfold acquireNotificationService
  dsimp only
  split
  · simp
  · split <;> simp

theorem Acquire_spec (io : Interop) (s : VirtualDesktop) :
    (AcquireVirtualDesktopInterfaces io s).1 =
      (SUCCEEDED io.CoCreateInstance_ImmersiveShell && SUCCEEDED io.QueryInterface_IServiceProvider &&
        (SUCCEEDED (io.QueryService CLSID_VirtualDesktopManagerInternal
            (VirtualDesktopGUIDs.ForVersion s.m_windowsVersion).iidVirtualDesktopManagerInternal) ||
          SUCCEEDED (io.QueryService
            (VirtualDesktopGUIDs.ForVersion s.m_windowsVersion).iidVirtualDesktopManagerInternal
            (VirtualDesktopGUIDs.ForVersion s.m_windowsVersion).iidVirtualDesktopManagerInternal))) ∧
    (AcquireVirtualDesktopInterfaces io s).2.m_initialized = s.m_initialized ∧
    (AcquireVirtualDesktopInterfaces io s).2.m_available = s.m_available ∧
    (AcquireVirtualDesktopInterfaces io s).2.m_usingPolling = s.m_usingPolling ∧
    (AcquireVirtualDesktopInterfaces io s).2.m_pPublicVirtualDesktopManager
      = s.m_pPublicVirtualDesktopManager ∧
    (AcquireVirtualDesktopInterfaces io s).2.m_lastKnownDesktopId = s.m_lastKnownDesktopId ∧
    (AcquireVirtualDesktopInterfaces io s).2.m_lastKnownDesktopIndex
      = s.m_lastKnownDesktopIndex ∧
    (AcquireVirtualDesktopInterfaces io s).2.m_windowsVersion = s.m_windowsVersion ∧
    (AcquireVirtualDesktopInterfaces io s).2.m_pVirtualDesktopManagerInternal =
      (if SUCCEEDED io.CoCreateInstance_ImmersiveShell
          && SUCCEEDED io.QueryInterface_IServiceProvider then
        (SUCCEEDED (io.QueryService CLSID_VirtualDesktopManagerInternal
            (VirtualDesktopGUIDs.ForVersion s.m_windowsVersion).iidVirtualDesktopManagerInternal) ||
          SUCCEEDED (io.QueryService
            (VirtualDesktopGUIDs.ForVersion s.m_windowsVersion).iidVirtualDesktopManagerInternal
            (VirtualDesktopGUIDs.ForVersion s.m_windowsVersion).iidVirtualDesktopManagerInternal))
       else s.m_pVirtualDesktopManagerInternal) := by
  unfold AcquireVirtualDesktopInterfaces
  simp only [FAILED_eq_not_SUCCEEDED]
  by_cases c1 : SUCCEEDED io.CoCreateInstance_ImmersiveShell = true
  · by_cases c2 : SUCCEEDED io.QueryInterface_IServiceProvider = true
    · by_cases c3 : SUCCEEDED (io.QueryService CLSID_VirtualDesktopManagerInternal
          (VirtualDesktopGUIDs.ForVersion s.m_windowsVersion).iidVirtualDesktopManagerInternal) = true
      · simp [c1, c2, c3, acquireNotificationService_frame]
      · by_cases c4 : SUCCEEDED (io.QueryService
            (VirtualDesktopGUIDs.ForVersion s.m_windowsVersion).iidVirtualDesktopManagerInternal
            (VirtualDesktopGUIDs.ForVersion s.m_windowsVersion).iidVirtualDesktopManagerInternal) = true
        · simp [c1, c2, c3, c4, acquireNotificationService_frame]
        · simp [c1, c2, c3, c4]
    · simp [c1, c2]
  · simp [c1]

theorem Init_spec (io : Interop) (s : VirtualDesktop) (hc : Coherent s)
    (hi : s.m_initialized = false) (hu : activationContextUsable io = true) :
    (s.Init io).1 = true ∧ (s.Init io).2.m_initialized = true ∧
    (s.Init io).2.m_pPublicVirtualDesktopManager
      = SUCCEEDED io.CoCreateInstance_VirtualDesktopManager ∧
    (s.Init io).2.m_available
      = (internalManagerAcquired io || SUCCEEDED io.CoCreateInstance_VirtualDesktopManager) ∧
    (s.Init io).2.m_usingPolling
      = (!internalManagerAcquired io && SUCCEEDED io.CoCreateInstance_VirtualDesktopManager) ∧
    (s.Init io).2.m_pVirtualDesktopManagerInternal = internalManagerAcquired io ∧
    (s.Init io).2.m_lastKnownDesktopId = s.m_lastKnownDesktopId ∧
    (s.Init io).2.m_lastKnownDesktopIndex = s.m_lastKnownDesktopIndex := by
  have hp : s.m_usingPolling = false := by
    have := hc.polling_available; have := hc.available_initialized
    cases hpp : s.m_usingPolling <;> simp_all
  obtain ⟨hr1, -⟩ := hc.released hi
  unfold Init
  simp only [hi, Bool.false_eq_true, if_false, InitializeCOM_fst, hu, Bool.not_true]
  cases h1 : SUCCEEDED io.CoCreateInstance_ImmersiveShell <;>
    cases h2 : SUCCEEDED io.QueryInterface_IServiceProvider <;>
    cases h3 : SUCCEEDED (io.QueryService CLSID_VirtualDesktopManagerInternal
      (VirtualDesktopGUIDs.ForVersion (GetCurrentVirtualDesktopVersion
        io.dwBuildNumber)).iidVirtualDesktopManagerInternal) <;>
    cases h4 : SUCCEEDED (io.QueryService
      (VirtualDesktopGUIDs.ForVersion (GetCurrentVirtualDesktopVersion
        io.dwBuildNumber)).iidVirtualDesktopManagerInternal
      (VirtualDesktopGUIDs.ForVersion (GetCurrentVirtualDesktopVersion
        io.dwBuildNumber)).iidVirtualDesktopManagerInternal) <;>
    cases hq : SUCCEEDED io.CoCreateInstance_VirtualDesktopManager <;>
    simp [internalManagerAcquired, Acquire_spec, InitializeCOM_frame, h1, h2, h3, h4, hq, hp, hr1]

theorem Init_initialized (io : Interop) (s : VirtualDesktop) (hi : s.m_initialized = true) :
    s.Init io = (true, s) := by
  unfold Init
  simp [hi]

theorem Init_unusable (io : Interop) (s : VirtualDesktop) (hi : s.m_initialized = false)
    (hu : activationContextUsable io = false) :
    (s.Init io).1 = false ∧ (s.Init io).2.m_initialized = false ∧
    (s.Init io).2.m_available = s.m_available ∧
    (s.Init io).2.m_usingPolling = s.m_usingPolling ∧
    (s.Init io).2.m_pPublicVirtualDesktopManager = s.m_pPublicVirtualDesktopManager ∧
    (s.Init io).2.m_pVirtualDesktopManagerInternal = s.m_pVirtualDesktopManagerInternal ∧
    (s.Init io).2.m_lastKnownDesktopId = s.m_lastKnownDesktopId ∧
    (s.Init io).2.m_lastKnownDesktopIndex = s.m_lastKnownDesktopIndex := by
  unfold Init
  simp [hi, InitializeCOM_fst, hu, InitializeCOM_frame]

theorem Coherent_Init (io : Interop) (s : VirtualDesktop) (h : Coherent s) :
    Coherent (s.Init io).2 := by
  cases hi : s.m_initialized
  · cases hu : activationContextUsable io
    · obtain ⟨-, e1, e2, e3, e4, e5, e6, e7⟩ := Init_unusable io s hi hu
      obtain ⟨h1, h2, h3, h4, h5⟩ := h
      refine ⟨?_, ?_, ?_, ?_, ?_⟩
      · rw [e3, e2]; exact h1
      · rw [e2]; intro ha; have := h2 ha; simp_all
      · rw [e3, e4]; exact h3
      · rw [e5, e4]; intro _; exact h4 hi
      · rw [e6, e7]; exact h5
    · obtain ⟨-, e1, e2, e3, e4, e5, e6, e7⟩ := Init_spec io s h hi hu
      refine ⟨?_, ?_, ?_, ?_, ?_⟩
      · rw [e4, e3]
        cases internalManagerAcquired io <;>
          cases SUCCEEDED io.CoCreateInstance_VirtualDesktopManager <;> simp
      · intro _; exact e1
      · rw [e4, e2]
        cases internalManagerAcquired io <;>
          cases SUCCEEDED io.CoCreateInstance_VirtualDesktopManager <;> simp
      · rw [e1]; simp
      · rw [e6, e7]; exact h.index_pos
  · rw [Init_initialized io s hi]; exact h

theorem Coherent_step {s t : VirtualDesktop} (h : Coherent s) (st : Step s t) : Coherent t := by
  cases st with
  | Init io => exact Coherent_Init io s h
  | Shutdown => exact Coherent_Shutdown s h
  | SetDesktopSwitchCallback io cb => exact Coherent_SetDesktopSwitchCallback io cb s h
  | ClearDesktopSwitchCallback => exact Coherent_ClearDesktopSwitchCallback s h
  | PollingTimerProc io => exact Coherent_CheckDesktopChange io s h
  | CurrentVirtualDesktopChanged io => exact Coherent_OnDesktopSwitched io s h
  | GetCurrentDesktop io info => exact Coherent_GetCurrentDesktop io s info h

theorem Reachable_Coherent {s : VirtualDesktop} (h : Reachable s) : Coherent s := by
  induction h with
  | initial => exact Coherent_initial
  | step _ st ih => exact Coherent_step ih st

/-! ## Init -/

theorem Reachable_notificationReady : Reachable notificationReady :=
  Reachable.step Reachable.initial (Step.Init _ _)

theorem Reachable_pollingReady : Reachable pollingReady :=
  Reachable.step Reachable.initial (Step.Init _ _)

theorem Reachable_unavailableAfterInit : Reachable unavailableAfterInit :=
  Reachable.step Reachable.initial (Step.Init _ _)

/-- C2 (counterexample): when the activation context cannot be initialised
(`E_OUTOFMEMORY`), `Init` on the fresh object returns failure and the
subsystem stays uninitialised. -/
theorem init_reports_failure_without_activation_context :
    (VirtualDesktop.Init { CoInitializeEx_MULTITHREADED := E_OUTOFMEMORY } {}).1 = false ∧
    (VirtualDesktop.Init { CoInitializeEx_MULTITHREADED := E_OUTOFMEMORY } {}).2.m_initialized
      = false := by
  decide

/-- C2 (amended): `Init` returns success exactly when the subsystem is already
initialised or the activation context is usable, whatever the public-manager
creation and the internal acquisition answer; the subsystem is initialised
afterwards exactly when `Init` returned success. -/
theorem init_succeeds_iff_activation_context_usable (io : Interop) (s : VirtualDesktop) :
    (s.Init io).1 = (s.m_initialized || activationContextUsable io) ∧
    (s.Init io).2.m_initialized = (s.Init io).1 := by
  cases hi : s.m_initialized
  · cases hu : activationContextUsable io
    · unfold Init
      simp [hi, InitializeCOM_fst, hu, InitializeCOM_frame]
    · unfold Init
      simp [hi, InitializeCOM_fst, hu]
  · rw [Init_initialized io s hi]; simp [hi]

/-- C3: capability selection by `Init` from an uninitialised reachable state
with a usable activation context.  The result is Notification mode exactly
when the internal manager was acquired, Polling mode exactly when it was not
and the public manager was created, Unavailable exactly when neither; the
two pointers record the two acquisitions. -/
theorem init_selects_capability (io : Interop) (s : VirtualDesktop) (hs : Reachable s)
    (hi : s.m_initialized = false) (hu : activationContextUsable io = true) :
    (((s.Init io).2.m_available = true ∧ (s.Init io).2.m_usingPolling = false)
      ↔ internalManagerAcquired io = true) ∧
    (((s.Init io).2.m_available = true ∧ (s.Init io).2.m_usingPolling = true)
      ↔ (internalManagerAcquired io = false ∧
          SUCCEEDED io.CoCreateInstance_VirtualDesktopManager = true)) ∧
    (((s.Init io).2.m_available = false ∧ (s.Init io).2.m_usingPolling = false)
      ↔ (internalManagerAcquired io = false ∧
          SUCCEEDED io.CoCreateInstance_VirtualDesktopManager = false)) ∧
    (s.Init io).2.m_pVirtualDesktopManagerInternal = internalManagerAcquired io ∧
    (s.Init io).2.m_pPublicVirtualDesktopManager
      = SUCCEEDED io.CoCreateInstance_VirtualDesktopManager := by
  obtain ⟨-, -, e2, e3, e4, e5, -, -⟩ := Init_spec io s (Reachable_Coherent hs) hi hu
  rw [e2, e3, e4, e5]
  cases internalManagerAcquired io <;>
    cases SUCCEEDED io.CoCreateInstance_VirtualDesktopManager <;> simp

/-- C3 (instance): with the internal manager refused and the public manager
present, `Init` on the fresh object ends in Polling mode. -/
theorem init_selects_capability_witness :
    (VirtualDesktop.Init internalManagerRefused {}).2.m_available = true ∧
    (VirtualDesktop.Init internalManagerRefused {}).2.m_usingPolling = true :=
  (init_selects_capability internalManagerRefused {} Reachable.initial rfl
    (by decide)).2.1.mpr ⟨by decide, by decide⟩

/-! ## GetCurrentDesktop -/

theorem GetDesktopInfoWin10_fst (io : Interop) (s : VirtualDesktop) (d : DesktopObject)
    (info : DesktopInfo) : (GetDesktopInfoWin10 io s d info).1 = SUCCEEDED d.GetID_hr := by
  unfold GetDesktopInfoWin10
  simp only [FAILED_eq_not_SUCCEEDED]
  cases SUCCEEDED d.GetID_hr <;> simp

theorem GetDesktopInfoWin11_21H2_fst (io : Interop) (s : VirtualDesktop) (d : DesktopObject)
    (info : DesktopInfo) : (GetDesktopInfoWin11_21H2 io s d info).1 = SUCCEEDED d.GetID_hr := by
  unfold GetDesktopInfoWin11_21H2
  simp only [FAILED_eq_not_SUCCEEDED]
  cases SUCCEEDED d.GetID_hr <;> simp

theorem GetDesktopInfoWin11_23H2_fst (io : Interop) (s : VirtualDesktop) (d : DesktopObject)
    (info : DesktopInfo) : (GetDesktopInfoWin11_23H2 io s d info).1 = SUCCEEDED d.GetID_hr := by
  unfold GetDesktopInfoWin11_23H2
  simp only [FAILED_eq_not_SUCCEEDED]
  cases SUCCEEDED d.GetID_hr <;> simp

theorem GetDesktopInfoWin11_24H2_Preview_fst (io : Interop) (s : VirtualDesktop)
    (d : DesktopObject) (info : DesktopInfo) :
    (GetDesktopInfoWin11_24H2_Preview io s d info).1 = SUCCEEDED d.GetID_hr := by
  unfold GetDesktopInfoWin11_24H2_Preview
  simp only [FAILED_eq_not_SUCCEEDED]
  cases SUCCEEDED d.GetID_hr <;> simp

/-- C1 (counterexample): in Notification mode a failing "get current"
accessor, or a failing identity read on the object it returned, makes
`GetCurrentDesktop` return failure. -/
theorem getCurrentDesktop_fails_in_notification_mode :
    Reachable notificationReady ∧
    (notificationReady.GetCurrentDesktop { GetCurrentDesktop_hr := E_FAIL } {}).1 = false ∧
    (notificationReady.GetCurrentDesktop
      { GetCurrentDesktop_out := { GetID_hr := E_FAIL } } {}).1 = false :=
  ⟨Reachable_notificationReady, by decide, by decide⟩

/-- C1 (amended): `GetCurrentDesktop` returns success in every state in which
the notification path is not taken (not available, no internal manager, or
polling), and the record is then the synthesized desktop 1 or carries the
last-known identity with its stored index; on the notification path it
returns success exactly when the "get current" accessor and the identity
read on the returned object both succeed. -/
theorem getCurrentDesktop_succeeds_iff (io : Interop) (s : VirtualDesktop)
    (info : DesktopInfo) :
    (s.GetCurrentDesktop io info).1 =
      (!(s.m_available && s.m_pVirtualDesktopManagerInternal && !s.m_usingPolling) ||
        (SUCCEEDED io.GetCurrentDesktop_hr && SUCCEEDED io.GetCurrentDesktop_out.GetID_hr)) ∧
    ((s.m_available && s.m_pVirtualDesktopManagerInternal && !s.m_usingPolling) = false →
      (s.GetCurrentDesktop io info).2.1 = { id := GUID.empty, index := 1, name := "" } ∨
      ((s.GetCurrentDesktop io info).2.1.id ≠ GUID.empty ∧
        (s.GetCurrentDesktop io info).2.1.id
          = (s.GetCurrentDesktop io info).2.2.m_lastKnownDesktopId ∧
        (s.GetCurrentDesktop io info).2.1.index
          = (s.GetCurrentDesktop io info).2.2.m_lastKnownDesktopIndex)) := by
  unfold GetCurrentDesktop
  cases hn : (s.m_available && s.m_pVirtualDesktopManagerInternal && !s.m_usingPolling)
  · simp only [Bool.false_eq_true, if_false, Bool.not_false, Bool.true_or, true_implies]
    split
    · split
      · rename_i hne
        refine ⟨rfl, Or.inr ⟨?_, rfl, rfl⟩⟩
        intro heq
        simp only at heq
        simp [IsEqualGUID, heq] at hne
      · exact ⟨rfl, Or.inl rfl⟩
    · exact ⟨rfl, Or.inl rfl⟩
  · simp only [if_true, Bool.not_true, Bool.false_or, Bool.true_eq_false, false_implies,
      and_true]
    cases s.m_windowsVersion <;>
      simp only [GetCurrentDesktopWin10, GetCurrentDesktopWin11_21H2, GetCurrentDesktopWin11_23H2,
        GetCurrentDesktopWin11_24H2_Preview, FAILED_eq_not_SUCCEEDED] <;>
      cases SUCCEEDED io.GetCurrentDesktop_hr <;>
      simp [GetDesktopInfoWin10_fst, GetDesktopInfoWin11_21H2_fst, GetDesktopInfoWin11_23H2_fst,
        GetDesktopInfoWin11_24H2_Preview_fst]

theorem Reachable_Shutdown {s : VirtualDesktop} (hs : Reachable s) : Reachable s.Shutdown :=
  Reachable.step hs (Step.Shutdown s)

theorem Shutdown_not_available (s : VirtualDesktop) (h : Coherent s) :
    s.Shutdown.m_available = false := by
  cases hi : s.m_initialized
  · have e : s.Shutdown = s := by simp [Shutdown, hi]
    rw [e]
    have := h.available_initialized
    cases ha : s.m_available <;> simp_all
  · exact (Shutdown_frame s hi).2.1

theorem getCurrentDesktop_of_not_available (io : Interop) (s : VirtualDesktop)
    (info : DesktopInfo) (h : Coherent s) (ha : s.m_available = false) :
    s.GetCurrentDesktop io info = (true, { id := GUID.empty, index := 1, name := "" }, s) := by
  have hp : s.m_usingPolling = false := by
    have := h.polling_available
    cases hpp : s.m_usingPolling <;> simp_all
  unfold GetCurrentDesktop
  simp [ha, hp]

/-- C8: when the subsystem is not available, `GetCurrentDesktop` returns
success with index 1, the empty name and the empty identity, whatever the
record held before, and changes nothing; this covers the Unavailable state
after `Init`, every state after `Shutdown`, and the object before `Init`. -/
theorem getCurrentDesktop_unavailable_is_synthesized (io : Interop) (s : VirtualDesktop)
    (info : DesktopInfo) (hs : Reachable s) :
    (s.m_available = false →
      s.GetCurrentDesktop io info = (true, { id := GUID.empty, index := 1, name := "" }, s)) ∧
    s.Shutdown.GetCurrentDesktop io info
      = (true, { id := GUID.empty, index := 1, name := "" }, s.Shutdown) ∧
    VirtualDesktop.GetCurrentDesktop io {} info
      = (true, { id := GUID.empty, index := 1, name := "" }, {}) := by
  refine ⟨fun ha => getCurrentDesktop_of_not_available io s info (Reachable_Coherent hs) ha, ?_, ?_⟩
  · exact getCurrentDesktop_of_not_available io _ info
      (Reachable_Coherent (Reachable_Shutdown hs))
      (Shutdown_not_available s (Reachable_Coherent hs))
  · exact getCurrentDesktop_of_not_available io _ info Coherent_initial rfl

/-- C8 (instance): in the Unavailable state left by `Init`, a record that
held desktop 7 named "old" comes back as the synthesized desktop 1. -/
theorem getCurrentDesktop_unavailable_is_synthesized_witness :
    unavailableAfterInit.m_initialized = true ∧ unavailableAfterInit.m_available = false ∧
    unavailableAfterInit.GetCurrentDesktop foregroundOnSecond
        { id := sampleId 5, index := 7, name := "old" }
      = (true, { id := GUID.empty, index := 1, name := "" }, unavailableAfterInit) :=
  ⟨by decide, by decide,
    (getCurrentDesktop_unavailable_is_synthesized foregroundOnSecond unavailableAfterInit
      { id := sampleId 5, index := 7, name := "old" } Reachable_unavailableAfterInit).1
      (by decide)⟩

/-- C9: `GetCurrentDesktop` in Polling mode.  A known identity is returned
with the stored index and nothing changes; with none known, the identity the
foreground window reports is stored together with its index in the ordered
identity store and returned; the synthesized desktop 1 is returned only when
there is no foreground window or it reports no identity. -/
theorem getCurrentDesktop_polling (io : Interop) (s : VirtualDesktop) (info : DesktopInfo)
    (hs : Reachable s) (hp : s.m_usingPolling = true) :
    (s.m_lastKnownDesktopId ≠ GUID.empty →
      s.GetCurrentDesktop io info =
        (true, { id := s.m_lastKnownDesktopId, index := s.m_lastKnownDesktopIndex,
                 name := GetDesktopNameFromRegistry io s.m_lastKnownDesktopId }, s)) ∧
    (s.m_lastKnownDesktopId = GUID.empty →
      ∀ w, io.GetForegroundWindow = some w →
        w.GetWindowDesktopId_out.getD GUID.empty ≠ GUID.empty →
        s.GetCurrentDesktop io info =
          (true, { id := w.GetWindowDesktopId_out.getD GUID.empty,
                   index := GetDesktopIndexFromPolling io
                     (w.GetWindowDesktopId_out.getD GUID.empty),
                   name := GetDesktopNameFromRegistry io
                     (w.GetWindowDesktopId_out.getD GUID.empty) },
            { s with m_lastKnownDesktopId := w.GetWindowDesktopId_out.getD GUID.empty,
                     m_lastKnownDesktopIndex := GetDesktopIndexFromPolling io
                       (w.GetWindowDesktopId_out.getD GUID.empty) })) ∧
    (s.m_lastKnownDesktopId = GUID.empty →
      (io.GetForegroundWindow = none ∨ ∃ w, io.GetForegroundWindow = some w ∧
        w.GetWindowDesktopId_out.getD GUID.empty = GUID.empty) →
      s.GetCurrentDesktop io info
        = (true, { id := GUID.empty, index := 1, name := "" }, s)) := by
  have hpub := (Reachable_Coherent hs).polling_public hp
  refine ⟨fun hne => ?_, fun he w hw hd => ?_, fun he hno => ?_⟩
  · unfold GetCurrentDesktop resolveFromForeground
    simp [hp, hne, IsEqualGUID]
  · unfold GetCurrentDesktop resolveFromForeground
    simp [hp, he, hpub, hw, hd, IsEqualGUID]
  · unfold GetCurrentDesktop resolveFromForeground
    rcases hno with hno | ⟨w, hw, hd⟩
    · simp [hp, he, hpub, hno, IsEqualGUID]
    · clear hs
      cases s
      simp only at hp he hpub
      subst hp he hpub
      simp [hw, hd, IsEqualGUID]

/-- C9 (instance): in the Polling state left by `Init`, with no identity
known yet and the foreground window on the second stored desktop, the query
returns that identity with index 2 and stores both. -/
theorem getCurrentDesktop_polling_witness :
    pollingReady.GetCurrentDesktop foregroundOnSecond {} =
      (true, { id := sampleId 2, index := 2, name := "Desktop 2" },
        { pollingReady with m_lastKnownDesktopId := sampleId 2, m_lastKnownDesktopIndex := 2 }) :=
  (getCurrentDesktop_polling foregroundOnSecond pollingReady {} Reachable_pollingReady
    (by decide)).2.1 (by decide) _ rfl (by decide)

/-! ## Validity of the index returned by GetCurrentDesktop -/

theorem toInt32_of_lt (n : Nat) (h : n < 2 ^ 31) : toInt32 n = (n : Int) := by
  unfold toInt32
  have e : n % 2 ^ 32 = n := Nat.mod_eq_of_lt (by omega)
  rw [e, if_pos h]

theorem indexLoop_pos (version : WindowsVirtualDesktopVersion) (pDesktops : IObjectArray)
    (guid : GUID) (remaining i : Nat) (h : i + remaining < 2 ^ 31) :
    1 ≤ indexLoop version pDesktops guid remaining i := by
  induction remaining generalizing i with
  | zero => simp [indexLoop]
  | succ n ih =>
    unfold indexLoop
    split
    · exact ih (i + 1) (by omega)
    · split
      · rw [toInt32_of_lt (i + 1) (by omega)]; omega
      · exact ih (i + 1) (by omega)

theorem callGetDesktops_eq (io : Interop) (version : WindowsVirtualDesktopVersion) :
    callGetDesktops io version = (io.GetDesktops_hr, io.GetDesktops_out) := by
  cases version <;> rfl

theorem GetDesktopIndexByGUID_pos (io : Interop) (s : VirtualDesktop) (guid : GUID)
    (hc : ∀ arr, io.GetDesktops_out = some arr → arr.GetCount % 2 ^ 32 < 2 ^ 31) :
    1 ≤ GetDesktopIndexByGUID io s guid := by
  unfold GetDesktopIndexByGUID
  rw [callGetDesktops_eq]
  dsimp only
  split
  · exact le_refl 1
  · split
    · exact le_refl 1
    · split
      · exact le_refl 1
      · rename_i arr harr _
        exact indexLoop_pos _ _ _ _ _ (by have := hc arr harr; omega)

theorem GetDesktopInfo_index_pos (io : Interop) (s : VirtualDesktop) (d : DesktopObject)
    (info : DesktopInfo)
    (hc : ∀ arr, io.GetDesktops_out = some arr → arr.GetCount % 2 ^ 32 < 2 ^ 31) :
    ((GetDesktopInfoWin10 io s d info).1 = true →
      1 ≤ (GetDesktopInfoWin10 io s d info).2.index) ∧
    ((GetDesktopInfoWin11_21H2 io s d info).1 = true →
      1 ≤ (GetDesktopInfoWin11_21H2 io s d info).2.index) ∧
    ((GetDesktopInfoWin11_23H2 io s d info).1 = true →
      1 ≤ (GetDesktopInfoWin11_23H2 io s d info).2.index) ∧
    ((GetDesktopInfoWin11_24H2_Preview io s d info).1 = true →
      1 ≤ (GetDesktopInfoWin11_24H2_Preview io s d info).2.index) := by
  unfold GetDesktopInfoWin10 GetDesktopInfoWin11_21H2 GetDesktopInfoWin11_23H2
    GetDesktopInfoWin11_24H2_Preview
  refine ⟨?_, ?_, ?_, ?_⟩ <;> dsimp only <;> split <;> intro h <;>
    first
    | exact GetDesktopIndexByGUID_pos io s _ hc
    | simp at h

/-- C10 (amended): in every reachable state and for all answers in which the
enumeration reports fewer than `2 ^ 31` desktops, a successful
`GetCurrentDesktop` returns an index of at least 1. -/
theorem getCurrentDesktop_index_valid (io : Interop) (s : VirtualDesktop) (info : DesktopInfo)
    (hs : Reachable s)
    (hc : ∀ arr, io.GetDesktops_out = some arr → arr.GetCount % 2 ^ 32 < 2 ^ 31)
    (hok : (s.GetCurrentDesktop io info).1 = true) :
    1 ≤ (s.GetCurrentDesktop io info).2.1.index := by
  have hcoh := Reachable_Coherent hs
  obtain ⟨g1, g2, g3, g4⟩ := GetDesktopInfo_index_pos io s io.GetCurrentDesktop_out info hc
  revert hok
  unfold GetCurrentDesktop
  split
  · cases s.m_windowsVersion <;>
      simp only [GetCurrentDesktopWin10, GetCurrentDesktopWin11_21H2, GetCurrentDesktopWin11_23H2,
        GetCurrentDesktopWin11_24H2_Preview] <;>
      split <;> intro hok <;>
      first
      | exact g1 hok
      | exact g2 hok
      | exact g3 hok
      | exact g4 hok
      | simp at hok
  · split
    · dsimp only
      split
      · rename_i hne
        intro _
        refine (Coherent_resolveFromForeground io s hcoh).index_pos ?_
        intro heq
        simp [IsEqualGUID, heq] at hne
      · intro _; exact le_refl 1
    · intro _; exact le_refl 1

/-- C10 (instance of the amended claim): in Notification mode on a system with
two desktops, the current one being the second, the returned index is valid. -/
theorem getCurrentDesktop_index_valid_witness :
    (notificationReady.GetCurrentDesktop currentIsSecondOfTwo {}).1 = true ∧
    1 ≤ (notificationReady.GetCurrentDesktop currentIsSecondOfTwo {}).2.1.index :=
  ⟨by decide,
    getCurrentDesktop_index_valid currentIsSecondOfTwo notificationReady {}
      Reachable_notificationReady
      (by
        intro arr h
        simp only [currentIsSecondOfTwo, Option.some.injEq] at h
        subst h
        decide)
      (by decide)⟩

theorem indexLoop_skip (version : WindowsVirtualDesktopVersion) (pDesktops : IObjectArray)
    (guid : GUID) (n m i : Nat)
    (h : ∀ j, i ≤ j → j < i + n → ∀ o, pDesktops.GetAt j = some o →
      IsEqualGUID (enumeratedDesktopId version o) guid = false) :
    indexLoop version pDesktops guid (n + m) i = indexLoop version pDesktops guid m (i + n) := by
  induction n generalizing i with
  | zero => simp
  | succ k ih =>
    have e : k + 1 + m = (k + m) + 1 := by omega
    rw [e, indexLoop]
    have step := ih (i + 1) (fun j h1 h2 o ho => h j (by omega) (by omega) o ho)
    have e2 : i + 1 + k = i + (k + 1) := by omega
    rw [e2] at step
    split
    · exact step
    · rename_i o ho
      rw [h i (le_refl i) (by omega) o ho]
      simpa using step

/-- C10 (counterexample): in Notification mode, when the enumeration reports
`2 ^ 31` desktops and the current one is the last, `GetCurrentDesktop`
returns success with the index `-2147483648`. -/
theorem getCurrentDesktop_index_overflows :
    Reachable notificationReady ∧
    (notificationReady.GetCurrentDesktop currentIsLastOfHuge {}).1 = true ∧
    (notificationReady.GetCurrentDesktop currentIsLastOfHuge {}).2.1.index = -2147483648 := by
  refine ⟨Reachable_notificationReady, by decide, ?_⟩
  have a1 : notificationReady.m_available = true := by decide
  have a2 : notificationReady.m_pVirtualDesktopManagerInternal = true := by decide
  have a3 : notificationReady.m_usingPolling = false := by decide
  have a4 : notificationReady.m_windowsVersion = Win10_22H2 := by decide
  have e : (notificationReady.GetCurrentDesktop currentIsLastOfHuge {}).2.1.index
      = indexLoop Win10_22H2 hugeEnumeration (sampleId (2 ^ 31)) (2 ^ 31) 0 := by
    simp [GetCurrentDesktop, a1, a2, a3, a4, GetCurrentDesktopWin10, GetDesktopInfoWin10,
      GetDesktopIndexByGUID, callGetDesktops, currentIsLastOfHuge, FAILED, hugeEnumeration]
  rw [e]
  have skip := indexLoop_skip Win10_22H2 hugeEnumeration (sampleId (2 ^ 31)) (2 ^ 31 - 1) 1 0
    (by
      intro j _ hj o ho
      simp only [hugeEnumeration, Option.some.injEq] at ho
      subst ho
      simp [enumeratedDesktopId, SUCCEEDED, IsEqualGUID, sampleId]
      omega)
  have e2 : (2 ^ 31 - 1 + 1 : Nat) = 2 ^ 31 := by norm_num
  rw [e2] at skip
  rw [skip]
  simp [indexLoop, hugeEnumeration, enumeratedDesktopId, SUCCEEDED, IsEqualGUID, sampleId,
    toInt32]

/-! ## GetDesktopCount and GetDesktopByIndex -/

theorem callGetCount_eq (io : Interop) (version : WindowsVirtualDesktopVersion) :
    callGetCount io version = (io.GetCount_hr, io.GetCount_out) := by
  cases version <;> rfl

/-- C11 (counterexample): in Notification mode an accessor that succeeds
reporting 0 desktops makes `GetDesktopCount` return 0, and one reporting
`2 ^ 31` desktops makes it return `-2147483648`. -/
theorem getDesktopCount_below_one :
    Reachable notificationReady ∧
    GetDesktopCount { GetCount_out := 0 } notificationReady = 0 ∧
    GetDesktopCount { GetCount_out := 2 ^ 31 } notificationReady = -2147483648 :=
  ⟨Reachable_notificationReady, by decide, by decide⟩

/-- C11 (amended): `GetDesktopCount` returns 1 when the subsystem is not
available, holds no internal manager, or the count accessor fails; otherwise
it returns the reported count converted to a signed 32-bit integer, which is
at least 1 exactly when the reported count lies between 1 and `2 ^ 31 - 1`. -/
theorem getDesktopCount_value (io : Interop) (s : VirtualDesktop) :
    GetDesktopCount io s =
      (if (!s.m_available || !s.m_pVirtualDesktopManagerInternal || FAILED io.GetCount_hr) = true
        then 1 else toInt32 io.GetCount_out) ∧
    (1 ≤ GetDesktopCount io s ↔
      ((!s.m_available || !s.m_pVirtualDesktopManagerInternal || FAILED io.GetCount_hr) = true ∨
        (1 ≤ io.GetCount_out % 2 ^ 32 ∧ io.GetCount_out % 2 ^ 32 < 2 ^ 31))) := by
  have hv : GetDesktopCount io s =
      (if (!s.m_available || !s.m_pVirtualDesktopManagerInternal || FAILED io.GetCount_hr) = true
        then 1 else toInt32 io.GetCount_out) := by
    unfold GetDesktopCount
    rw [callGetCount_eq]
    cases s.m_available <;> cases s.m_pVirtualDesktopManagerInternal <;>
      cases h : FAILED io.GetCount_hr <;> simp [h]
  refine ⟨hv, ?_⟩
  rw [hv]
  by_cases hc : (!s.m_available || !s.m_pVirtualDesktopManagerInternal || FAILED io.GetCount_hr) = true
  · simp [hc]
  · rw [if_neg hc]
    have hr : 1 ≤ toInt32 io.GetCount_out ↔
        (1 ≤ io.GetCount_out % 2 ^ 32 ∧ io.GetCount_out % 2 ^ 32 < 2 ^ 31) := by
      unfold toInt32
      split <;> omega
    rw [hr]
    constructor
    · intro h; exact Or.inr h
    · rintro (h | h)
      · exact absurd h hc
      · exact h

theorem GetDesktopInfo_id (io : Interop) (s : VirtualDesktop) (d : DesktopObject)
    (info : DesktopInfo) :
    (GetDesktopInfoWin10 io s d info).2.id = d.GetID_out.getD info.id ∧
    (GetDesktopInfoWin11_21H2 io s d info).2.id = d.GetID_out.getD info.id ∧
    (GetDesktopInfoWin11_23H2 io s d info).2.id = d.GetID_out.getD info.id ∧
    (GetDesktopInfoWin11_24H2_Preview io s d info).2.id = d.GetID_out.getD info.id := by
  unfold GetDesktopInfoWin10 GetDesktopInfoWin11_21H2 GetDesktopInfoWin11_23H2
    GetDesktopInfoWin11_24H2_Preview
  refine ⟨?_, ?_, ?_, ?_⟩ <;> dsimp only <;> split <;> first | rfl | (split <;> rfl)

theorem GetDesktopInfo_index (io : Interop) (s : VirtualDesktop) (d : DesktopObject)
    (info : DesktopInfo) (h : SUCCEEDED d.GetID_hr = true) :
    (GetDesktopInfoWin10 io s d info).2.index
      = GetDesktopIndexByGUID io s (d.GetID_out.getD info.id) ∧
    (GetDesktopInfoWin11_21H2 io s d info).2.index
      = GetDesktopIndexByGUID io s (d.GetID_out.getD info.id) ∧
    (GetDesktopInfoWin11_23H2 io s d info).2.index
      = GetDesktopIndexByGUID io s (d.GetID_out.getD info.id) ∧
    (GetDesktopInfoWin11_24H2_Preview io s d info).2.index
      = GetDesktopIndexByGUID io s (d.GetID_out.getD info.id) := by
  have hf : FAILED d.GetID_hr = false := by rw [FAILED_eq_not_SUCCEEDED, h]; rfl
  unfold GetDesktopInfoWin10 GetDesktopInfoWin11_21H2 GetDesktopInfoWin11_23H2
    GetDesktopInfoWin11_24H2_Preview
  simp only [hf, Bool.false_eq_true, if_false]
  refine ⟨?_, ?_, ?_, ?_⟩ <;> first | trivial | rfl | (split <;> rfl)

theorem GetDesktopInfoWin10_name (io : Interop) (s : VirtualDesktop) (d : DesktopObject)
    (info : DesktopInfo) (h : SUCCEEDED d.GetID_hr = true) :
    (GetDesktopInfoWin10 io s d info).2.name = "" := by
  have hf : FAILED d.GetID_hr = false := by rw [FAILED_eq_not_SUCCEEDED, h]; rfl
  unfold GetDesktopInfoWin10
  simp [hf]

theorem GetDesktopByIndex_unavailable (io : Interop) (s : VirtualDesktop) (i : Int)
    (info : DesktopInfo)
    (h : (!s.m_available || !s.m_pVirtualDesktopManagerInternal) = true) :
    GetDesktopByIndex io s i info = (true, { id := GUID.empty, index := i, name := "" }) := by
  unfold GetDesktopByIndex
  simp only [h, if_true]

/-- What `GetDesktopByIndex` does once the enumeration has been obtained and
the element at the requested position has been fetched: success follows the
identity read, the identity is the one read from that element, and the index
is the one `GetDesktopIndexByGUID` resolves for it. -/
theorem GetDesktopByIndex_element (io : Interop) (s : VirtualDesktop) (i : Int)
    (info : DesktopInfo) (arr : IObjectArray) (o : DesktopObject)
    (ha : s.m_available = true) (hm : s.m_pVirtualDesktopManagerInternal = true)
    (hout : io.GetDesktops_out = some arr) (hr : SUCCEEDED io.GetDesktops_hr = true)
    (hlt : toUInt32 (i - 1) < arr.GetCount % 2 ^ 32)
    (hat : arr.GetAt (toUInt32 (i - 1)) = some o) :
    (GetDesktopByIndex io s i info).1 = SUCCEEDED o.GetID_hr ∧
    (GetDesktopByIndex io s i info).2.id = o.GetID_out.getD info.id ∧
    (SUCCEEDED o.GetID_hr = true →
      (GetDesktopByIndex io s i info).2.index
        = GetDesktopIndexByGUID io s (o.GetID_out.getD info.id)) ∧
    (SUCCEEDED o.GetID_hr = true → isWin10Family s.m_windowsVersion = true →
      (GetDesktopByIndex io s i info).2.name = "") := by
  have hf : FAILED io.GetDesktops_hr = false := by rw [FAILED_eq_not_SUCCEEDED, hr]; rfl
  have hge : ¬ toUInt32 (i - 1) ≥ arr.GetCount % 2 ^ 32 := by omega
  obtain ⟨d1, d2, d3, d4⟩ := GetDesktopInfo_id io s o { info with index := i }
  unfold GetDesktopByIndex
  simp only [ha, hm, Bool.not_true, Bool.or_self, Bool.false_eq_true, if_false,
    callGetDesktops_eq, hout, hf, hge, hat]
  cases hv : s.m_windowsVersion <;>
    simp only [GetDesktopInfoWin10_fst, GetDesktopInfoWin11_21H2_fst,
      GetDesktopInfoWin11_23H2_fst, GetDesktopInfoWin11_24H2_Preview_fst, d1, d2, d3, d4,
      isWin10Family, true_and] <;>
    refine ⟨fun h => ?_, fun h hw => ?_⟩ <;>
    first
    | exact (GetDesktopInfo_index io s o { info with index := i } h).1
    | exact (GetDesktopInfo_index io s o { info with index := i } h).2.1
    | exact (GetDesktopInfo_index io s o { info with index := i } h).2.2.1
    | exact (GetDesktopInfo_index io s o { info with index := i } h).2.2.2
    | exact GetDesktopInfoWin10_name io s o _ h
    | exact absurd hw (by decide)

/-- The cases in which `GetDesktopByIndex` fails in Notification mode: no
array, a failed enumeration call, a position at or beyond the reported
count, or a failed element access. -/
theorem GetDesktopByIndex_fails (io : Interop) (s : VirtualDesktop) (i : Int)
    (info : DesktopInfo)
    (ha : s.m_available = true) (hm : s.m_pVirtualDesktopManagerInternal = true)
    (h : ∀ arr, io.GetDesktops_out = some arr → SUCCEEDED io.GetDesktops_hr = true →
      toUInt32 (i - 1) < arr.GetCount % 2 ^ 32 → arr.GetAt (toUInt32 (i - 1)) = none) :
    (GetDesktopByIndex io s i info).1 = false := by
  unfold GetDesktopByIndex
  simp only [ha, hm, Bool.not_true, Bool.or_self, Bool.false_eq_true, if_false,
    callGetDesktops_eq]
  cases hout : io.GetDesktops_out with
  | none => rfl
  | some arr =>
    dsimp only
    cases hr : SUCCEEDED io.GetDesktops_hr
    · simp [FAILED_eq_not_SUCCEEDED, hr]
    · simp only [FAILED_eq_not_SUCCEEDED, hr, Bool.not_true, Bool.false_eq_true, if_false]
      by_cases hlt : toUInt32 (i - 1) < arr.GetCount % 2 ^ 32
      · have := h arr hout hr hlt
        have hge : ¬ toUInt32 (i - 1) ≥ arr.GetCount % 2 ^ 32 := by omega
        simp only [hge, if_false, this]
      · have hge : toUInt32 (i - 1) ≥ arr.GetCount % 2 ^ 32 := by omega
        simp only [hge, if_true]

theorem getDesktopCount_eq (io : Interop) (s : VirtualDesktop) :
    GetDesktopCount io s =
      (if (!s.m_available || !s.m_pVirtualDesktopManagerInternal || FAILED io.GetCount_hr) = true
        then 1 else toInt32 io.GetCount_out) := by
  unfold GetDesktopCount
  rw [callGetCount_eq]
  cases s.m_available <;> cases s.m_pVirtualDesktopManagerInternal <;>
    cases h : FAILED io.GetCount_hr <;> simp [h]

theorem toInt32_of_lt_mod (n : Nat) (h : n % 2 ^ 32 < 2 ^ 31) :
    toInt32 n = ((n % 2 ^ 32 : Nat) : Int) := by
  unfold toInt32
  rw [if_pos h]

theorem toUInt32_of_nonneg (i : Int) (h0 : 0 ≤ i) (h1 : i < 2 ^ 32) :
    toUInt32 i = i.toNat := by
  unfold toUInt32
  rw [Int.emod_eq_of_lt h0 h1]

theorem toUInt32_of_neg (i : Int) (h0 : i < 0) (h1 : -(2 ^ 31) - 1 ≤ i) :
    2 ^ 31 - 1 ≤ toUInt32 i := by
  unfold toUInt32
  omega

/-- C12 (counterexample): in Polling mode and in the Unavailable state, where
`GetDesktopCount` is 1, `GetDesktopByIndex` returns success for the indices 7
and 0. -/
theorem getDesktopByIndex_succeeds_out_of_range :
    Reachable pollingReady ∧ GetDesktopCount {} pollingReady = 1 ∧
    GetDesktopByIndex {} pollingReady 7 {}
      = (true, { id := GUID.empty, index := 7, name := "" }) ∧
    Reachable unavailableAfterInit ∧ GetDesktopCount {} unavailableAfterInit = 1 ∧
    GetDesktopByIndex {} unavailableAfterInit 0 {}
      = (true, { id := GUID.empty, index := 0, name := "" }) :=
  ⟨Reachable_pollingReady, by decide, by decide,
    Reachable_unavailableAfterInit, by decide, by decide⟩

/-- C12 (amended): for a 32-bit index `i`.  Without the internal manager
(Polling mode, Unavailable) `GetDesktopByIndex` makes no range check and
returns success with index `i`, the empty name and the empty identity.  With
it (Notification mode), when the enumeration reports fewer than `2 ^ 31`
desktops, every `i < 1` and every `i` above the reported number fails; this
is the number `GetDesktopCount` returns when the count accessor succeeds
with the same number. -/
theorem getDesktopByIndex_range (io : Interop) (s : VirtualDesktop) (i : Int)
    (info : DesktopInfo) (hi : -(2 ^ 31) ≤ i ∧ i < 2 ^ 31) :
    ((!s.m_available || !s.m_pVirtualDesktopManagerInternal) = true →
      GetDesktopByIndex io s i info = (true, { id := GUID.empty, index := i, name := "" })) ∧
    (s.m_available = true → s.m_pVirtualDesktopManagerInternal = true →
      (∀ arr, io.GetDesktops_out = some arr → arr.GetCount % 2 ^ 32 < 2 ^ 31) →
      (i < 1 ∨ ∀ arr, io.GetDesktops_out = some arr → ((arr.GetCount % 2 ^ 32 : Nat) : Int) < i) →
      (GetDesktopByIndex io s i info).1 = false) ∧
    (s.m_available = true → s.m_pVirtualDesktopManagerInternal = true →
      (∀ arr, io.GetDesktops_out = some arr →
        arr.GetCount % 2 ^ 32 < 2 ^ 31 ∧ io.GetCount_out = arr.GetCount) →
      SUCCEEDED io.GetCount_hr = true →
      (i < 1 ∨ GetDesktopCount io s < i) →
      (GetDesktopByIndex io s i info).1 = false) := by
  have key : s.m_available = true → s.m_pVirtualDesktopManagerInternal = true →
      (∀ arr, io.GetDesktops_out = some arr → arr.GetCount % 2 ^ 32 < 2 ^ 31) →
      (i < 1 ∨ ∀ arr, io.GetDesktops_out = some arr → ((arr.GetCount % 2 ^ 32 : Nat) : Int) < i) →
      (GetDesktopByIndex io s i info).1 = false := by
    intro ha hm hN hout
    apply GetDesktopByIndex_fails io s i info ha hm
    intro arr harr _ hlt
    exfalso
    have hb := hN arr harr
    rcases hout with h | h
    · have := toUInt32_of_neg (i - 1) (by omega) (by omega)
      omega
    · have h2 := h arr harr
      have := toUInt32_of_nonneg (i - 1) (by omega) (by omega)
      omega
  refine ⟨GetDesktopByIndex_unavailable io s i info, key, ?_⟩
  intro ha hm hN hc hout
  apply key ha hm (fun arr harr => (hN arr harr).1)
  rcases hout with h | h
  · exact Or.inl h
  · refine Or.inr (fun arr harr => ?_)
    obtain ⟨hb, he⟩ := hN arr harr
    have hf : FAILED io.GetCount_hr = false := by rw [FAILED_eq_not_SUCCEEDED, hc]; rfl
    have hv := (getDesktopCount_eq io s)
    rw [hv] at h
    simp only [ha, hm, hf, Bool.not_true, Bool.or_self, Bool.false_eq_true, if_false] at h
    rw [he, toInt32_of_lt_mod _ hb] at h
    exact h

/-- C12 (instance): in Notification mode on a system with two desktops the
index 0 fails. -/
theorem getDesktopByIndex_range_witness :
    (GetDesktopByIndex (enumerating [sampleId 1, sampleId 2]) notificationReady 0 {}).1
      = false :=
  (getDesktopByIndex_range (enumerating [sampleId 1, sampleId 2]) notificationReady 0 {}
    ⟨by decide, by decide⟩).2.1 (by decide) (by decide)
    (by
      intro arr h
      simp only [enumerating, Option.some.injEq] at h
      subst h
      decide)
    (Or.inl (by decide))

/-! ## Enumeration: positions and identities -/

theorem snapshot_GetCount (ids : List GUID) : (snapshot ids).GetCount = ids.length := by
  simp [snapshot, IObjectArray.ofList]

theorem snapshot_GetAt (ids : List GUID) (p : Nat) :
    (snapshot ids).GetAt p = (ids.get? p).map (fun g => { GetID_out := some g }) := by
  simp [snapshot, IObjectArray.ofList]

theorem snapshot_GetAt_some (ids : List GUID) (p : Nat) (o : DesktopObject)
    (h : (snapshot ids).GetAt p = some o) :
    ∃ g, ids.get? p = some g ∧ o = { GetID_out := some g } := by
  rw [snapshot_GetAt] at h
  cases hg : ids.get? p with
  | none => rw [hg] at h; simp at h
  | some g =>
    rw [hg] at h
    simp only [Option.map_some', Option.some.injEq] at h
    exact ⟨g, rfl, h.symm⟩

theorem enumeratedDesktopId_regular (version : WindowsVirtualDesktopVersion) (g : GUID) :
    enumeratedDesktopId version { GetID_out := some g } = g := by
  cases version <;> simp [enumeratedDesktopId, SUCCEEDED]

/-- The loop returns the converted position of the first matching element. -/
theorem indexLoop_first (version : WindowsVirtualDesktopVersion) (arr : IObjectArray)
    (g : GUID) (count p : Nat) (o : DesktopObject) (hp : p < count)
    (hat : arr.GetAt p = some o) (hid : enumeratedDesktopId version o = g)
    (hbefore : ∀ q, q < p → ∀ o', arr.GetAt q = some o' → enumeratedDesktopId version o' ≠ g) :
    indexLoop version arr g count 0 = toInt32 (p + 1) := by
  have e : count = p + ((count - p - 1) + 1) := by omega
  rw [e, indexLoop_skip version arr g p ((count - p - 1) + 1) 0
    (fun q _ hq o' ho' => by
      simpa [IsEqualGUID] using hbefore q (by omega) o' ho')]
  rw [indexLoop, Nat.zero_add, hat]
  simp [IsEqualGUID, hid]

/-- The loop returns 1 when no element matches. -/
theorem indexLoop_none (version : WindowsVirtualDesktopVersion) (arr : IObjectArray)
    (g : GUID) (count : Nat)
    (hno : ∀ q, q < count → ∀ o', arr.GetAt q = some o' → enumeratedDesktopId version o' ≠ g) :
    indexLoop version arr g count 0 = 1 := by
  have h := indexLoop_skip version arr g count 0 0
    (fun q _ hq o' ho' => by
      simpa [IsEqualGUID] using hno q (by omega) o' ho')
  rw [Nat.add_zero] at h
  rw [h, indexLoop]

theorem GetDesktopIndexByGUID_enum (io : Interop) (s : VirtualDesktop) (g : GUID)
    (arr : IObjectArray) (ha : s.m_available = true)
    (hm : s.m_pVirtualDesktopManagerInternal = true)
    (hout : io.GetDesktops_out = some arr) (hr : SUCCEEDED io.GetDesktops_hr = true) :
    GetDesktopIndexByGUID io s g
      = indexLoop s.m_windowsVersion arr g (arr.GetCount % 2 ^ 32) 0 := by
  have hf : FAILED io.GetDesktops_hr = false := by rw [FAILED_eq_not_SUCCEEDED, hr]; rfl
  unfold GetDesktopIndexByGUID
  simp only [ha, hm, Bool.not_true, Bool.or_self, Bool.false_eq_true, if_false,
    callGetDesktops_eq, hout, hf]

theorem GetDesktopIndexByGUID_default (io : Interop) (s : VirtualDesktop) (g : GUID)
    (h : s.m_available = false ∨ s.m_pVirtualDesktopManagerInternal = false ∨
      FAILED io.GetDesktops_hr = true ∨ io.GetDesktops_out = none) :
    GetDesktopIndexByGUID io s g = 1 := by
  unfold GetDesktopIndexByGUID
  rw [callGetDesktops_eq]
  rcases h with h | h | h | h
  · simp [h]
  · simp [h]
  · split
    · rfl
    · dsimp only
      split
      · rfl
      · simp [h]
  · split
    · rfl
    · simp [h]

/-- C13 (counterexample): in Notification mode, against an enumeration that
reports `2 ^ 32 - 1` desktops, `GetDesktopByIndex (-1)` returns success. -/
theorem getDesktopByIndex_negative_index_succeeds :
    Reachable notificationReady ∧ nearlyFullEnumeration.GetCount = 4294967295 ∧
    (GetDesktopByIndex { GetDesktops_out := some nearlyFullEnumeration }
      notificationReady (-1) {}).1 = true :=
  ⟨Reachable_notificationReady, by decide, by decide⟩

/-- C13 (amended): in Notification mode, against the enumeration snapshot of
the call, for every snapshot of fewer than `2 ^ 31` desktops and every 32-bit
index `i`, a successful `GetDesktopByIndex i` has `1 ≤ i ≤ N` and returns the
identity at position `i` of that snapshot. -/
theorem getDesktopByIndex_fresh (io : Interop) (s : VirtualDesktop) (i : Int)
    (info : DesktopInfo) (ids : List GUID)
    (ha : s.m_available = true) (hm : s.m_pVirtualDesktopManagerInternal = true)
    (hout : io.GetDesktops_out = some (snapshot ids)) (hN : ids.length < 2 ^ 31)
    (hi : -(2 ^ 31) ≤ i ∧ i < 2 ^ 31)
    (hok : (GetDesktopByIndex io s i info).1 = true) :
    1 ≤ i ∧ i ≤ ids.length ∧
    ids.get? (i - 1).toNat = some (GetDesktopByIndex io s i info).2.id := by
  have hcount : (snapshot ids).GetCount % 2 ^ 32 = ids.length := by
    rw [snapshot_GetCount]; exact Nat.mod_eq_of_lt (by omega)
  have hrange : 1 ≤ i ∧ i ≤ ids.length := by
    by_contra hcon
    have hf := GetDesktopByIndex_fails io s i info ha hm (by
      intro arr harr _ hlt
      exfalso
      rw [hout, Option.some.injEq] at harr
      subst harr
      rw [hcount] at hlt
      by_cases h1 : i < 1
      · have := toUInt32_of_neg (i - 1) (by omega) (by omega)
        omega
      · have := toUInt32_of_nonneg (i - 1) (by omega) (by omega)
        omega)
    rw [hf] at hok
    exact absurd hok (by decide)
  refine ⟨hrange.1, hrange.2, ?_⟩
  have hidx := toUInt32_of_nonneg (i - 1) (by omega) (by omega)
  have hlt : toUInt32 (i - 1) < (snapshot ids).GetCount % 2 ^ 32 := by
    rw [hcount, hidx]; omega
  have hr : SUCCEEDED io.GetDesktops_hr = true := by
    cases hs : SUCCEEDED io.GetDesktops_hr
    · have hf := GetDesktopByIndex_fails io s i info ha hm (by
        intro arr _ hsucc _
        rw [hs] at hsucc
        exact absurd hsucc (by decide))
      rw [hf] at hok
      exact absurd hok (by decide)
    · rfl
  cases hg : ids.get? (i - 1).toNat with
  | none =>
    have hlen := List.get?_eq_none.mp hg
    omega
  | some g =>
    have hat : (snapshot ids).GetAt (toUInt32 (i - 1)) = some { GetID_out := some g } := by
      rw [snapshot_GetAt, hidx, hg]; rfl
    have := (GetDesktopByIndex_element io s i info (snapshot ids) _ ha hm hout hr hlt hat).2.1
    rw [this]; rfl

/-- C13 (instance): of three desktops the second is removed; against the
fresh enumeration of the two that remain, `GetDesktopByIndex 3` fails. -/
theorem getDesktopByIndex_fresh_witness :
    (GetDesktopByIndex (enumerating [sampleId 1, sampleId 2, sampleId 3])
      notificationReady 3 {}).1 = true ∧
    (GetDesktopByIndex (enumerating [sampleId 1, sampleId 3]) notificationReady 3 {}).1
      = false := by
  refine ⟨by decide, ?_⟩
  cases h : (GetDesktopByIndex (enumerating [sampleId 1, sampleId 3]) notificationReady 3 {}).1
  · rfl
  · have := getDesktopByIndex_fresh (enumerating [sampleId 1, sampleId 3]) notificationReady 3 {}
      [sampleId 1, sampleId 3] (by decide) (by decide) rfl (by decide)
      ⟨by decide, by decide⟩ h
    exact absurd this.2.1 (by decide)

/-- C14 (amended): round trip over one snapshot.  In Notification mode, for a
snapshot of pairwise distinct identities and every index `k` from 1 to the
number of desktops that is below `2 ^ 31`, `GetDesktopByIndex k` succeeds,
returns the identity at position `k` and the index `k`, and
`GetDesktopIndexByGUID` resolves that identity to `k`. -/
theorem snapshot_round_trip (io : Interop) (s : VirtualDesktop) (k : Int)
    (info : DesktopInfo) (ids : List GUID)
    (ha : s.m_available = true) (hm : s.m_pVirtualDesktopManagerInternal = true)
    (hout : io.GetDesktops_out = some (snapshot ids))
    (hr : SUCCEEDED io.GetDesktops_hr = true)
    (hd : ids.Nodup) (hN : ids.length < 2 ^ 32)
    (hk1 : 1 ≤ k) (hk2 : k ≤ ids.length) (hk3 : k < 2 ^ 31) :
    (GetDesktopByIndex io s k info).1 = true ∧
    (GetDesktopByIndex io s k info).2.index = k ∧
    ids.get? (k - 1).toNat = some (GetDesktopByIndex io s k info).2.id ∧
    GetDesktopIndexByGUID io s (GetDesktopByIndex io s k info).2.id = k := by
  have hcount : (snapshot ids).GetCount % 2 ^ 32 = ids.length := by
    rw [snapshot_GetCount]; exact Nat.mod_eq_of_lt hN
  have hidx := toUInt32_of_nonneg (k - 1) (by omega) (by omega)
  have hp : (k - 1).toNat < ids.length := by omega
  have hlt : toUInt32 (k - 1) < (snapshot ids).GetCount % 2 ^ 32 := by
    rw [hcount, hidx]; exact hp
  obtain ⟨g, hg⟩ : ∃ g, ids.get? (k - 1).toNat = some g := ⟨_, List.get?_eq_get hp⟩
  have hat' : (snapshot ids).GetAt (k - 1).toNat = some { GetID_out := some g } := by
    rw [snapshot_GetAt, hg]; rfl
  have hat : (snapshot ids).GetAt (toUInt32 (k - 1)) = some { GetID_out := some g } := by
    rw [hidx]; exact hat'
  have hres : GetDesktopIndexByGUID io s g = k := by
    rw [GetDesktopIndexByGUID_enum io s _ (snapshot ids) ha hm hout hr, hcount,
      indexLoop_first s.m_windowsVersion (snapshot ids) _ ids.length (k - 1).toNat _ hp
        hat' (enumeratedDesktopId_regular _ _)
        (by
          intro q hq o' ho'
          obtain ⟨g', hg', rfl⟩ := snapshot_GetAt_some ids q o' ho'
          rw [enumeratedDesktopId_regular]
          intro heq
          have hne := List.nodup_iff_get?_ne_get?.mp hd q (k - 1).toNat hq hp
          rw [hg, hg', heq] at hne
          exact hne rfl),
      toInt32_of_lt _ (by omega)]
    omega
  obtain ⟨e1, e2, e3, -⟩ :=
    GetDesktopByIndex_element io s k info (snapshot ids) _ ha hm hout hr hlt hat
  have hsucc : SUCCEEDED ({ GetID_out := some g } : DesktopObject).GetID_hr = true := rfl
  have e3' := e3 hsucc
  simp only [Option.getD_some] at e2 e3'
  refine ⟨by rw [e1]; exact hsucc, by rw [e3', hres], by rw [e2]; exact hg, by rw [e2, hres]⟩

/-- C14 (instance): three desktops, the second one is fetched by index 2 and
resolves back to 2. -/
theorem snapshot_round_trip_witness :
    (GetDesktopByIndex (enumerating [sampleId 1, sampleId 2, sampleId 3])
      notificationReady 2 {}).2.index = 2 ∧
    GetDesktopIndexByGUID (enumerating [sampleId 1, sampleId 2, sampleId 3]) notificationReady
      (GetDesktopByIndex (enumerating [sampleId 1, sampleId 2, sampleId 3])
        notificationReady 2 {}).2.id = 2 :=
  have h := snapshot_round_trip (enumerating [sampleId 1, sampleId 2, sampleId 3])
    notificationReady 2 {} [sampleId 1, sampleId 2, sampleId 3] (by decide) (by decide) rfl
    (by decide) (by decide) (by decide) (by decide) (by decide) (by decide)
  ⟨h.2.1, h.2.2.2⟩

theorem toInt32_lt (u : Nat) : toInt32 u < 2 ^ 31 := by
  unfold toInt32
  split <;> omega

theorem indexLoop_lt (version : WindowsVirtualDesktopVersion) (arr : IObjectArray)
    (g : GUID) (remaining i : Nat) : indexLoop version arr g remaining i < 2 ^ 31 := by
  induction remaining generalizing i with
  | zero => simp [indexLoop]
  | succ n ih =>
    rw [indexLoop]
    split
    · exact ih (i + 1)
    · split
      · exact toInt32_lt (i + 1)
      · exact ih (i + 1)

theorem GetDesktopIndexByGUID_lt (io : Interop) (s : VirtualDesktop) (g : GUID) :
    GetDesktopIndexByGUID io s g < 2 ^ 31 := by
  unfold GetDesktopIndexByGUID
  split
  · norm_num
  · dsimp only
    split
    · norm_num
    · split
      · norm_num
      · exact indexLoop_lt _ _ _ _ _

theorem indexLoop_le (version : WindowsVirtualDesktopVersion) (arr : IObjectArray)
    (g : GUID) (remaining i : Nat) (h : i + remaining < 2 ^ 31) (h1 : 1 ≤ i + remaining) :
    indexLoop version arr g remaining i ≤ ((i + remaining : Nat) : Int) := by
  induction remaining generalizing i with
  | zero => simp only [indexLoop]; omega
  | succ n ih =>
    rw [indexLoop]
    split
    · have := ih (i + 1) (by omega) (by omega)
      omega
    · split
      · rw [toInt32_of_lt (i + 1) (by omega)]; omega
      · have := ih (i + 1) (by omega) (by omega)
        omega

theorem indexLoop_huge :
    indexLoop Win10_22H2 hugeEnumeration (sampleId (2 ^ 31)) (2 ^ 31) 0 = -2147483648 := by
  have h := indexLoop_first Win10_22H2 hugeEnumeration (sampleId (2 ^ 31)) (2 ^ 31)
    (2 ^ 31 - 1) { GetID_out := some (sampleId (2 ^ 31)) } (by norm_num)
    (by simp [hugeEnumeration]) (enumeratedDesktopId_regular _ _)
    (by
      intro q hq o' ho'
      simp only [hugeEnumeration, Option.some.injEq] at ho'
      subst ho'
      rw [enumeratedDesktopId_regular]
      simp [sampleId]
      omega)
  rw [h]
  simp [toInt32]

/-- C14 (counterexample): in Notification mode, against an enumeration of
`2 ^ 31` desktops with pairwise different identities, the identity of the
desktop at position `2 ^ 31`, the last one, is resolved to `-2147483648`, and
no identity at all is resolved to `2 ^ 31`: the resolved indices are not
`1..N`. -/
theorem round_trip_breaks_at_last_of_huge :
    Reachable notificationReady ∧
    hugeEnumeration.GetCount = 2 ^ 31 ∧
    (∀ i j : Nat, (hugeEnumeration.GetAt i).map (enumeratedDesktopId Win10_22H2)
        = (hugeEnumeration.GetAt j).map (enumeratedDesktopId Win10_22H2) → i = j) ∧
    (hugeEnumeration.GetAt (2 ^ 31 - 1)).map (enumeratedDesktopId Win10_22H2)
      = some (sampleId (2 ^ 31)) ∧
    GetDesktopIndexByGUID { GetDesktops_out := some hugeEnumeration } notificationReady
      (sampleId (2 ^ 31)) = -2147483648 ∧
    (∀ g : GUID, GetDesktopIndexByGUID { GetDesktops_out := some hugeEnumeration }
      notificationReady g ≠ 2 ^ 31) := by
  refine ⟨Reachable_notificationReady, rfl, ?_, ?_, ?_, ?_⟩
  · intro i j h
    simp only [hugeEnumeration, Option.map_some', enumeratedDesktopId_regular,
      Option.some.injEq, sampleId, GUID.mk.injEq, and_true] at h
    omega
  · simp [hugeEnumeration, enumeratedDesktopId_regular]
  · rw [GetDesktopIndexByGUID_enum { GetDesktops_out := some hugeEnumeration } notificationReady
      _ hugeEnumeration (by decide) (by decide) rfl (by decide)]
    have hv : notificationReady.m_windowsVersion = Win10_22H2 := by decide
    have hc : hugeEnumeration.GetCount % 2 ^ 32 = 2 ^ 31 := by decide
    rw [hv, hc]
    exact indexLoop_huge
  · intro g h
    have := GetDesktopIndexByGUID_lt { GetDesktops_out := some hugeEnumeration }
      notificationReady g
    rw [h] at this
    exact absurd this (by norm_num)

/-- C15 (counterexample): in Notification mode, against an enumeration of
`2 ^ 31` desktops with pairwise different identities, the identity of the
last one, at zero-based position `2 ^ 31 - 1`, is resolved to `-2147483648`,
which is neither 1 plus the position nor within `1..N`. -/
theorem getDesktopIndexByGUID_last_of_huge :
    Reachable notificationReady ∧
    (hugeEnumeration.GetAt (2 ^ 31 - 1)).map (enumeratedDesktopId Win10_22H2)
      = some (sampleId (2 ^ 31)) ∧
    GetDesktopIndexByGUID currentIsLastOfHuge notificationReady (sampleId (2 ^ 31))
      = -2147483648 := by
  refine ⟨Reachable_notificationReady, ?_, ?_⟩
  · simp [hugeEnumeration, enumeratedDesktopId_regular]
  · rw [GetDesktopIndexByGUID_enum currentIsLastOfHuge notificationReady _ hugeEnumeration
      (by decide) (by decide) rfl (by decide)]
    have hv : notificationReady.m_windowsVersion = Win10_22H2 := by decide
    have hc : hugeEnumeration.GetCount % 2 ^ 32 = 2 ^ 31 := by decide
    rw [hv, hc]
    exact indexLoop_huge

/-- C15 (amended): index resolution by enumeration, for an enumeration that
reports fewer than `2 ^ 31` desktops.  `GetDesktopIndexByGUID g` returns 1
plus the zero-based position of the first enumerated desktop whose identity
is `g`; it returns 1 when the subsystem is not available, the internal
manager is absent or the enumeration call fails, and when no enumerated
desktop has identity `g`; the result lies in `1..max(1, N)`. -/
theorem getDesktopIndexByGUID_resolves (io : Interop) (s : VirtualDesktop) (g : GUID)
    (arr : IObjectArray) (hout : io.GetDesktops_out = some arr)
    (hN : arr.GetCount % 2 ^ 32 < 2 ^ 31) :
    ((s.m_available = false ∨ s.m_pVirtualDesktopManagerInternal = false ∨
        FAILED io.GetDesktops_hr = true) → GetDesktopIndexByGUID io s g = 1) ∧
    (s.m_available = true → s.m_pVirtualDesktopManagerInternal = true →
      SUCCEEDED io.GetDesktops_hr = true →
      (∀ p o, p < arr.GetCount % 2 ^ 32 → arr.GetAt p = some o →
        enumeratedDesktopId s.m_windowsVersion o = g →
        (∀ q, q < p → ∀ o', arr.GetAt q = some o' →
          enumeratedDesktopId s.m_windowsVersion o' ≠ g) →
        GetDesktopIndexByGUID io s g = (p : Int) + 1) ∧
      ((∀ q, q < arr.GetCount % 2 ^ 32 → ∀ o', arr.GetAt q = some o' →
          enumeratedDesktopId s.m_windowsVersion o' ≠ g) →
        GetDesktopIndexByGUID io s g = 1)) ∧
    (1 ≤ GetDesktopIndexByGUID io s g ∧
      GetDesktopIndexByGUID io s g ≤ max 1 ((arr.GetCount % 2 ^ 32 : Nat) : Int)) := by
  refine ⟨?_, ?_, ?_⟩
  · intro h
    apply GetDesktopIndexByGUID_default
    rcases h with h | h | h
    · exact Or.inl h
    · exact Or.inr (Or.inl h)
    · exact Or.inr (Or.inr (Or.inl h))
  · intro ha hm hr
    rw [GetDesktopIndexByGUID_enum io s g arr ha hm hout hr]
    refine ⟨?_, ?_⟩
    · intro p o hp hat hid hbefore
      rw [indexLoop_first s.m_windowsVersion arr g _ p o hp hat hid hbefore,
        toInt32_of_lt _ (by omega)]
      omega
    · intro hno
      exact indexLoop_none s.m_windowsVersion arr g _ hno
  · refine ⟨GetDesktopIndexByGUID_pos io s g (fun a h => by
      rw [hout, Option.some.injEq] at h; subst h; exact hN), ?_⟩
    by_cases hd : s.m_available = false ∨ s.m_pVirtualDesktopManagerInternal = false ∨
        FAILED io.GetDesktops_hr = true ∨ io.GetDesktops_out = none
    · rw [GetDesktopIndexByGUID_default io s g hd]
      exact le_max_left _ _
    · have ha : s.m_available = true := by
        cases h : s.m_available
        · exact absurd (Or.inl h) hd
        · rfl
      have hm : s.m_pVirtualDesktopManagerInternal = true := by
        cases h : s.m_pVirtualDesktopManagerInternal
        · exact absurd (Or.inr (Or.inl h)) hd
        · rfl
      have hr : SUCCEEDED io.GetDesktops_hr = true := by
        cases h : SUCCEEDED io.GetDesktops_hr
        · exact absurd (Or.inr (Or.inr (Or.inl (by rw [FAILED_eq_not_SUCCEEDED, h]; rfl)))) hd
        · rfl
      rw [GetDesktopIndexByGUID_enum io s g arr ha hm hout hr]
      by_cases h0 : arr.GetCount % 2 ^ 32 = 0
      · rw [h0]
        simp [indexLoop]
      · have := indexLoop_le s.m_windowsVersion arr g (arr.GetCount % 2 ^ 32) 0
          (by omega) (by omega)
        rw [Nat.zero_add] at this
        exact le_trans this (le_max_right _ _)

/-- C15 (instance): with three desktops enumerated, the identity of the third
resolves to 3 and an identity that is not enumerated resolves to 1. -/
theorem getDesktopIndexByGUID_resolves_witness :
    GetDesktopIndexByGUID (enumerating [sampleId 1, sampleId 2, sampleId 3]) notificationReady
      (sampleId 3) = 3 ∧
    GetDesktopIndexByGUID (enumerating [sampleId 1, sampleId 2, sampleId 3]) notificationReady
      (sampleId 9) = 1 :=
  have h := (getDesktopIndexByGUID_resolves (enumerating [sampleId 1, sampleId 2, sampleId 3])
    notificationReady · (snapshot [sampleId 1, sampleId 2, sampleId 3]) rfl (by decide))
  ⟨((h (sampleId 3)).2.1 (by decide) (by decide) (by decide)).1 2 { GetID_out := some (sampleId 3) }
      (by decide) rfl (by decide)
      (by
        intro q hq o' ho'
        obtain ⟨g', hg', rfl⟩ := snapshot_GetAt_some _ q o' ho'
        rw [enumeratedDesktopId_regular]
        interval_cases q <;> simp at hg' <;> subst hg' <;> decide),
    ((h (sampleId 9)).2.1 (by decide) (by decide) (by decide)).2
      (by
        intro q hq o' ho'
        obtain ⟨g', hg', rfl⟩ := snapshot_GetAt_some _ q o' ho'
        rw [enumeratedDesktopId_regular]
        have hq3 : q < 3 := hq
        interval_cases q <;> simp at hg' <;> subst hg' <;> decide)⟩

/-! ## Names, stability of the index, dispatcher and timers -/

theorem Reachable_pollingOnSecond : Reachable pollingOnSecond :=
  Reachable.step Reachable_pollingReady (Step.GetCurrentDesktop _ _ _)

theorem Reachable_pollingOnSecondRegistered : Reachable pollingOnSecondRegistered :=
  Reachable.step Reachable_pollingOnSecond (Step.SetDesktopSwitchCallback _ _ _)

theorem Reachable_registeredTwice : Reachable registeredTwice :=
  Reachable.step
    (Reachable.step Reachable_pollingReady (Step.SetDesktopSwitchCallback _ _ _))
    (Step.SetDesktopSwitchCallback _ _ _)

/-- C16 (the code evaluated on a concrete run): Polling mode, the identity store
holding two desktops and the foreground window on the second throughout.  A
query returns the second identity with index 2; after a listener is
registered the same query returns the same identity with index 1, and a
polling tick does not repair it. -/
theorem index_changes_after_listener_registration :
    Reachable pollingOnSecondRegistered ∧
    (pollingReady.GetCurrentDesktop foregroundOnSecond {}).2.1
      = { id := sampleId 2, index := 2, name := "Desktop 2" } ∧
    (pollingOnSecondRegistered.GetCurrentDesktop foregroundOnSecond {}).2.1
      = { id := sampleId 2, index := 1, name := "Desktop 2" } ∧
    ((pollingOnSecondRegistered.PollingTimerProc foregroundOnSecond).GetCurrentDesktop
        foregroundOnSecond {}).2.1
      = { id := sampleId 2, index := 1, name := "Desktop 2" } :=
  ⟨Reachable_pollingOnSecondRegistered, by decide, by decide, by decide⟩

/-- C17 (counterexample): in Notification mode on a Windows 10 build, with no
registry name entry, the current desktop, second of two, is resolved by
`GetCurrentDesktop` and by `GetDesktopByIndex` with index 2 and the empty
name. -/
theorem win10_notification_name_is_empty :
    Reachable notificationReady ∧
    isWin10Family notificationReady.m_windowsVersion = true ∧
    hasRegistryName currentIsSecondOfTwo (sampleId 2) = false ∧
    (notificationReady.GetCurrentDesktop currentIsSecondOfTwo {}).1 = true ∧
    (notificationReady.GetCurrentDesktop currentIsSecondOfTwo {}).2.1
      = { id := sampleId 2, index := 2, name := "" } ∧
    GetDesktopByIndex currentIsSecondOfTwo notificationReady 2 {}
      = (true, { id := sampleId 2, index := 2, name := "" }) :=
  ⟨Reachable_notificationReady, by decide, by decide, by decide, by decide, by decide⟩

theorem GetDesktopNameFromRegistry_eq (io : Interop) (d : GUID) :
    GetDesktopNameFromRegistry io d =
      (if hasRegistryName io d = true then (io.Desktops d).nameBuffer
       else "Desktop " ++ toString (GetDesktopIndexFromPolling io d)) := by
  unfold GetDesktopNameFromRegistry hasRegistryName
  by_cases h : (io.Desktops d).RegOpenKeyExW = ERROR_SUCCESS ∧
      (io.Desktops d).RegQueryValueExW = ERROR_SUCCESS ∧
      (io.Desktops d).valueType = REG_SZ ∧ (io.Desktops d).nameSize > 2
  · simp only [h, and_self, if_true, decide_True]
  · simp only [h, if_false, decide_False, Bool.false_eq_true]

theorem GetCurrentDesktop_polling_known (io : Interop) (s : VirtualDesktop)
    (info : DesktopInfo) (hp : s.m_usingPolling = true)
    (hne : s.m_lastKnownDesktopId ≠ GUID.empty) :
    s.GetCurrentDesktop io info =
      (true, { id := s.m_lastKnownDesktopId, index := s.m_lastKnownDesktopIndex,
               name := GetDesktopNameFromRegistry io s.m_lastKnownDesktopId }, s) := by
  unfold GetCurrentDesktop resolveFromForeground
  simp [hp, hne, IsEqualGUID]

theorem GetDesktopByIndex_success (io : Interop) (s : VirtualDesktop) (i : Int)
    (info : DesktopInfo)
    (ha : s.m_available = true) (hm : s.m_pVirtualDesktopManagerInternal = true)
    (hok : (GetDesktopByIndex io s i info).1 = true) :
    ∃ arr o, io.GetDesktops_out = some arr ∧ SUCCEEDED io.GetDesktops_hr = true ∧
      toUInt32 (i - 1) < arr.GetCount % 2 ^ 32 ∧ arr.GetAt (toUInt32 (i - 1)) = some o ∧
      SUCCEEDED o.GetID_hr = true := by
  by_contra hcon
  have hf := GetDesktopByIndex_fails io s i info ha hm (by
    intro arr hout hr hlt
    cases hat : arr.GetAt (toUInt32 (i - 1)) with
    | none => rfl
    | some o =>
      exfalso
      apply hcon
      refine ⟨arr, o, hout, hr, hlt, hat, ?_⟩
      rw [← (GetDesktopByIndex_element io s i info arr o ha hm hout hr hlt hat).1]
      exact hok)
  rw [hf] at hok
  exact absurd hok (by decide)

/-- C17 (amended): the name resolved for an identity without a registry name
entry.  In Polling mode `GetCurrentDesktop` returns exactly "Desktop "
followed by the decimal position of the identity in the ordered identity
store; on the Windows 10 family in Notification mode `GetCurrentDesktop`
returns the empty name, and `GetDesktopByIndex` returns the empty name on
the Windows 10 family and whenever the internal manager is absent. -/
theorem name_without_registry_entry (io : Interop) (s : VirtualDesktop) (info : DesktopInfo)
    (hno : hasRegistryName io (s.GetCurrentDesktop io info).2.1.id = false) :
    (s.m_usingPolling = true → (s.GetCurrentDesktop io info).2.1.id ≠ GUID.empty →
      (s.GetCurrentDesktop io info).2.1.name
        = "Desktop " ++ toString (GetDesktopIndexFromPolling io
            (s.GetCurrentDesktop io info).2.1.id)) ∧
    ((s.m_available && s.m_pVirtualDesktopManagerInternal && !s.m_usingPolling) = true →
      isWin10Family s.m_windowsVersion = true → (s.GetCurrentDesktop io info).1 = true →
      (s.GetCurrentDesktop io info).2.1.name = "") ∧
    (∀ i, (isWin10Family s.m_windowsVersion = true ∨
        (!s.m_available || !s.m_pVirtualDesktopManagerInternal) = true) →
      (GetDesktopByIndex io s i info).1 = true →
      (GetDesktopByIndex io s i info).2.name = "") := by
  refine ⟨?_, ?_, ?_⟩
  · intro hp
    revert hno
    unfold GetCurrentDesktop
    simp only [hp, Bool.not_true, Bool.and_false, Bool.false_eq_true, if_false, if_true]
    split
    · intro hno _
      simp only [GetDesktopNameFromRegistry_eq] at hno ⊢
      rw [if_neg (by rw [hno]; decide)]
    · intro _ hne
      exact absurd rfl hne
  · intro hn hw
    unfold GetCurrentDesktop
    simp only [hn, if_true]
    cases hv : s.m_windowsVersion <;> rw [hv] at hw <;>
      first
      | exact absurd hw (by decide)
      | (simp only [GetCurrentDesktopWin10]
         split
         · intro h; simp at h
         · intro h
           rw [GetDesktopInfoWin10_fst] at h
           exact GetDesktopInfoWin10_name io s _ info h)
  · intro i hcase hsucc
    by_cases hu : (!s.m_available || !s.m_pVirtualDesktopManagerInternal) = true
    · rw [GetDesktopByIndex_unavailable io s i info hu]
    · have ha : s.m_available = true := by
        cases h : s.m_available
        · rw [h] at hu; exact absurd rfl hu
        · rfl
      have hm : s.m_pVirtualDesktopManagerInternal = true := by
        cases h : s.m_pVirtualDesktopManagerInternal
        · rw [h] at hu; simp at hu
        · rfl
      have hw : isWin10Family s.m_windowsVersion = true := by
        rcases hcase with h | h
        · exact h
        · exact absurd h hu
      obtain ⟨arr, o, hout, hr, hlt, hat, hid⟩ := GetDesktopByIndex_success io s i info ha hm hsucc
      exact (GetDesktopByIndex_element io s i info arr o ha hm hout hr hlt hat).2.2.2 hid hw

/-- C17 (instance): in Polling mode, with no registry name entry, the
identity at position 2 of the identity store is named "Desktop 2". -/
theorem name_without_registry_entry_witness :
    (pollingReady.GetCurrentDesktop foregroundOnSecond {}).2.1.index = 2 ∧
    (pollingReady.GetCurrentDesktop foregroundOnSecond {}).2.1.name = "Desktop 2" :=
  ⟨by decide,
    (name_without_registry_entry foregroundOnSecond pollingReady {} (by decide)).1
      (by decide) (by decide)⟩

/-- C18 (counterexample): Polling mode with the second stored desktop known
under index 2; once the first desktop has left the identity store, the query
returns index 2 and the name "Desktop 1". -/
theorem polling_name_differs_from_index :
    Reachable pollingOnSecond ∧ pollingOnSecond.m_usingPolling = true ∧
    pollingOnSecond.m_lastKnownDesktopId = sampleId 2 ∧
    hasRegistryName firstDesktopRemoved (sampleId 2) = false ∧
    (pollingOnSecond.GetCurrentDesktop firstDesktopRemoved {}).2.1
      = { id := sampleId 2, index := 2, name := "Desktop 1" } :=
  ⟨Reachable_pollingOnSecond, by decide, by decide, by decide, by decide⟩

/-- C18 (amended): in Polling mode with a non-empty last-known identity,
`GetCurrentDesktop` returns that identity with the stored index, and the name
is the registry display name when a string entry larger than a terminator
exists, otherwise "Desktop " followed by the decimal position of the identity
in the ordered identity store as read during the call (1 when the store is
missing or unreadable); that position is the returned index whenever the
stored index equals it. -/
theorem polling_name_resolution (io : Interop) (s : VirtualDesktop) (info : DesktopInfo)
    (hp : s.m_usingPolling = true) (hne : s.m_lastKnownDesktopId ≠ GUID.empty) :
    (s.GetCurrentDesktop io info).1 = true ∧
    (s.GetCurrentDesktop io info).2.1.id = s.m_lastKnownDesktopId ∧
    (s.GetCurrentDesktop io info).2.1.index = s.m_lastKnownDesktopIndex ∧
    (hasRegistryName io s.m_lastKnownDesktopId = true →
      (s.GetCurrentDesktop io info).2.1.name = (io.Desktops s.m_lastKnownDesktopId).nameBuffer) ∧
    (hasRegistryName io s.m_lastKnownDesktopId = false →
      (s.GetCurrentDesktop io info).2.1.name
        = "Desktop " ++ toString (GetDesktopIndexFromPolling io s.m_lastKnownDesktopId)) ∧
    (hasRegistryName io s.m_lastKnownDesktopId = false →
      s.m_lastKnownDesktopIndex = GetDesktopIndexFromPolling io s.m_lastKnownDesktopId →
      (s.GetCurrentDesktop io info).2.1.name
        = "Desktop " ++ toString (s.GetCurrentDesktop io info).2.1.index) ∧
    ((io.RegOpenKeyExW_VirtualDesktops ≠ ERROR_SUCCESS ∨
        io.RegQueryValueExW_size_result ≠ ERROR_SUCCESS ∨
        io.RegQueryValueExW_data_result ≠ ERROR_SUCCESS) →
      GetDesktopIndexFromPolling io s.m_lastKnownDesktopId = 1) := by
  rw [GetCurrentDesktop_polling_known io s info hp hne, GetDesktopNameFromRegistry_eq]
  refine ⟨rfl, rfl, rfl, ?_, ?_, ?_, ?_⟩
  · intro h; simp only [h, if_true]
  · intro h; simp only [h, Bool.false_eq_true, if_false]
  · intro h he; simp only [h, Bool.false_eq_true, if_false, he]
  · intro h
    unfold GetDesktopIndexFromPolling
    split_ifs with a b c
    · rfl
    · rfl
    · rfl
    · exfalso
      rcases h with h | h | h
      · exact a h
      · exact b (Or.inl h)
      · exact c h

/-- C18 (instance): the second stored desktop, known under index 2 and
without a registry name, is named "Desktop 2". -/
theorem polling_name_resolution_witness :
    (pollingOnSecond.GetCurrentDesktop foregroundOnSecond {}).2.1.index = 2 ∧
    (pollingOnSecond.GetCurrentDesktop foregroundOnSecond {}).2.1.name = "Desktop 2" :=
  have h := polling_name_resolution foregroundOnSecond pollingOnSecond {} (by decide) (by decide)
  ⟨h.2.2.1, h.2.2.2.2.1 (by decide)⟩

theorem resolveFromForeground_calls (io : Interop) (s : VirtualDesktop) :
    (resolveFromForeground io s).calls = s.calls := by
  unfold resolveFromForeground
  split
  · split
    · rfl
    · dsimp only
      split <;> rfl
  · rfl

theorem GetCurrentDesktop_calls (io : Interop) (s : VirtualDesktop) (info : DesktopInfo) :
    (s.GetCurrentDesktop io info).2.2.calls = s.calls := by
  rcases GetCurrentDesktop_state io s info with e | e <;> rw [e]
  exact resolveFromForeground_calls io s

/-- C19: the dispatcher.  Without a listener `OnDesktopSwitched` does nothing.
With a listener it resolves once, `GetCurrentDesktop` on a fresh record in
the present state; the calls it adds are exactly one invocation of the
listener with the index and name of that resolution when the resolution
succeeds and none when it fails, and apart from that record of calls the
state it leaves is the state the resolution leaves. -/
theorem onDesktopSwitched_dispatch (io : Interop) (s : VirtualDesktop) :
    (s.m_switchCallback = none → s.OnDesktopSwitched io = s) ∧
    (∀ listener, s.m_switchCallback = some listener →
      (s.OnDesktopSwitched io).calls = s.calls ++
        (if (s.GetCurrentDesktop io {}).1 = true then
          [Effect.Callback listener (s.GetCurrentDesktop io {}).2.1.index
            (s.GetCurrentDesktop io {}).2.1.name]
         else []) ∧
      { s.OnDesktopSwitched io with calls := s.calls } = (s.GetCurrentDesktop io {}).2.2) := by
  refine ⟨fun h => ?_, fun listener h => ?_⟩
  · unfold OnDesktopSwitched
    rw [h]
  · have hc := GetCurrentDesktop_calls io s {}
    unfold OnDesktopSwitched
    rw [h]
    dsimp only
    cases hr : (s.GetCurrentDesktop io {}).1
    · simp only [Bool.false_eq_true, if_false, List.append_nil]
      refine ⟨hc, ?_⟩
      rw [← hc]
    · simp only [if_true]
      refine ⟨by rw [hc], ?_⟩
      rw [← hc]

/-- C20 (the code evaluated on a concrete run): Polling mode, two listeners
registered one after the other, the timer calls returning the identifiers 1
and 2.  The second listener is held and both timers run; after
`ClearDesktopSwitchCallback` no listener is held, the timer member is zero,
and timer 1 is still running. -/
theorem second_registration_leaves_first_timer_running :
    Reachable registeredTwice ∧ registeredTwice.m_usingPolling = true ∧
    registeredTwice.m_switchCallback = some 8 ∧
    runningTimers registeredTwice.calls = [1, 2] ∧
    registeredTwice.ClearDesktopSwitchCallback.m_switchCallback = none ∧
    registeredTwice.ClearDesktopSwitchCallback.m_pollingTimer = 0 ∧
    runningTimers registeredTwice.ClearDesktopSwitchCallback.calls = [1] :=
  ⟨Reachable_registeredTwice, by decide, by decide, by decide, by decide, by decide, by decide⟩

/-! ## Frames of the resolving operations and the tracked resources -/

theorem OnlyResolution_refl (s : VirtualDesktop) : OnlyResolution s s :=
  ⟨s.m_lastKnownDesktopId, s.m_lastKnownDesktopIndex, s.calls, rfl⟩

theorem OnlyResolution_trans {s t u : VirtualDesktop} (h1 : OnlyResolution s t)
    (h2 : OnlyResolution t u) : OnlyResolution s u := by
  obtain ⟨a, b, c, rfl⟩ := h1
  obtain ⟨a2, b2, c2, rfl⟩ := h2
  exact ⟨a2, b2, c2, rfl⟩

theorem OnlyResolution_resolveFromForeground (io : Interop) (s : VirtualDesktop) :
    OnlyResolution s (resolveFromForeground io s) := by
  unfold resolveFromForeground
  split
  · split
    · exact OnlyResolution_refl s
    · dsimp only
      split
      · exact ⟨_, _, s.calls, rfl⟩
      · exact ⟨_, s.m_lastKnownDesktopIndex, s.calls, rfl⟩
  · exact OnlyResolution_refl s

theorem OnlyResolution_GetCurrentDesktop (io : Interop) (s : VirtualDesktop)
    (info : DesktopInfo) : OnlyResolution s (s.GetCurrentDesktop io info).2.2 := by
  rcases GetCurrentDesktop_state io s info with e | e <;> rw [e]
  · exact OnlyResolution_refl s
  · exact OnlyResolution_resolveFromForeground io s

theorem OnlyResolution_OnDesktopSwitched (io : Interop) (s : VirtualDesktop) :
    OnlyResolution s (s.OnDesktopSwitched io) := by
  unfold OnDesktopSwitched
  split
  · exact OnlyResolution_refl s
  · dsimp only
    split
    · exact OnlyResolution_trans (OnlyResolution_GetCurrentDesktop io s {})
        ⟨_, _, _, rfl⟩
    · exact OnlyResolution_GetCurrentDesktop io s {}

theorem OnlyResolution_CheckDesktopChange (io : Interop) (s : VirtualDesktop) :
    OnlyResolution s (s.CheckDesktopChange io) := by
  unfold CheckDesktopChange
  split
  · exact OnlyResolution_refl s
  · dsimp only
    split
    · exact OnlyResolution_refl s
    · split
      · exact OnlyResolution_refl s
      · split
        · exact OnlyResolution_refl s
        · split
          · exact OnlyResolution_trans ⟨_, _, s.calls, rfl⟩
              (OnlyResolution_OnDesktopSwitched io _)
          · exact OnlyResolution_refl s

theorem Tracked_of_OnlyResolution {s t : VirtualDesktop} (h : OnlyResolution s t)
    (ht : Tracked s) : Tracked t := by
  obtain ⟨a, b, c, rfl⟩ := h
  obtain ⟨h1, h2, h3, h4⟩ := ht
  exact ⟨h1, h2, h3, h4⟩

theorem Tracked_initial : Tracked {} := by
  constructor <;> simp

theorem Tracked_SetDesktopSwitchCallback (io : Interop) (cb : Option Nat) (s : VirtualDesktop)
    (h : Tracked s) : Tracked (s.SetDesktopSwitchCallback io cb) := by
  obtain ⟨h1, h2, h3, h4⟩ := h
  unfold SetDesktopSwitchCallback
  dsimp only
  split
  · rename_i hc
    have hp : s.m_usingPolling = true := by
      simp only [Bool.and_eq_true] at hc
      exact hc.1
    split
    · exact ⟨fun _ => hp, h2, h3, h4⟩
    · split <;> exact ⟨fun _ => hp, h2, h3, h4⟩
  · exact ⟨h1, h2, h3, h4⟩

theorem Tracked_ClearDesktopSwitchCallback (s : VirtualDesktop) (h : Tracked s) :
    Tracked s.ClearDesktopSwitchCallback := by
  obtain ⟨h1, h2, h3, h4⟩ := h
  unfold ClearDesktopSwitchCallback
  dsimp only
  split
  · split
    · exact ⟨fun c => absurd rfl c, h2, rfl, h4⟩
    · exact ⟨h1, h2, rfl, h4⟩
  · split
    · exact ⟨fun c => absurd rfl c, h2, h3, h4⟩
    · exact ⟨h1, h2, h3, h4⟩

theorem Shutdown_uninitialized (s : VirtualDesktop) (hi : s.m_initialized = false) :
    s.Shutdown = s := by
  simp [Shutdown, hi]

theorem Shutdown_fields (s : VirtualDesktop) (hi : s.m_initialized = true) :
    s.Shutdown.m_pollingTimer = 0 ∧ s.Shutdown.m_desktopSwitchHook = false ∧
    s.Shutdown.m_notificationCookie =
      (if s.m_notificationCookie ≠ 0 ∧ s.m_pNotificationService = true then 0
       else s.m_notificationCookie) ∧
    s.Shutdown.m_pNotificationHandler = none ∧ s.Shutdown.m_pNotificationService = false ∧
    s.Shutdown.m_pServiceProvider = false ∧ s.Shutdown.m_comOwned = false ∧
    s.Shutdown.m_switchCallback = s.m_switchCallback ∧
    s.Shutdown.calls = s.calls
      ++ (if s.m_pollingTimer ≠ 0 then [Effect.KillTimer s.m_pollingTimer] else [])
      ++ (if s.m_desktopSwitchHook = true then [Effect.UnhookWinEvent] else [])
      ++ (if s.m_notificationCookie ≠ 0 ∧ s.m_pNotificationService = true then
            [Effect.Unregister s.m_notificationCookie] else [])
      ++ (if s.m_comOwned = true then [Effect.CoUninitialize] else []) := by
  by_cases c1 : s.m_pollingTimer = 0 <;> by_cases c2 : s.m_desktopSwitchHook = true <;>
    by_cases c3 : s.m_notificationCookie = 0 <;>
    by_cases c4 : s.m_pNotificationService = true <;>
    by_cases c5 : s.m_comOwned = true <;>
    simp [Shutdown, ReleaseInterfaces, hi, c1, c2, c3, c4, c5]

theorem Tracked_Shutdown (s : VirtualDesktop) (h : Tracked s) : Tracked s.Shutdown := by
  by_cases hi : s.m_initialized = true
  · obtain ⟨e1, e2, e3, e4, e5, e6, e7, -, -⟩ := Shutdown_fields s hi
    have e0 := (Shutdown_frame s hi).1
    have hc : s.Shutdown.m_notificationCookie = 0 := by
      rw [e3]
      by_cases c : s.m_notificationCookie = 0
      · simp [c]
      · simp [c, h.cookie_service c]
    refine ⟨?_, ?_, e2, ?_⟩
    · intro c; exact absurd e1 c
    · intro c; exact absurd hc c
    · intro _; exact ⟨hc, e5, e4, e6, e7⟩
  · have hi2 : s.m_initialized = false := by simpa using hi
    rw [Shutdown_uninitialized s hi2]; exact h

theorem acquireNotificationService_fields (io : Interop) (s : VirtualDesktop) :
    (acquireNotificationService io s).m_pollingTimer = s.m_pollingTimer ∧
    (acquireNotificationService io s).m_desktopSwitchHook = s.m_desktopSwitchHook ∧
    (acquireNotificationService io s).m_switchCallback = s.m_switchCallback ∧
    (acquireNotificationService io s).m_comOwned = s.m_comOwned ∧
    (acquireNotificationService io s).m_pServiceProvider = s.m_pServiceProvider ∧
    (acquireNotificationService io s).m_pNotificationService =
      SUCCEEDED (io.QueryService CLSID_VirtualDesktopNotificationService
        IID_IVirtualDesktopNotificationService) ∧
    (acquireNotificationService io s).m_notificationCookie =
      (if SUCCEEDED (io.QueryService CLSID_VirtualDesktopNotificationService
          IID_IVirtualDesktopNotificationService) = true then
        (if SUCCEEDED io.Register_hr = true then io.Register_cookie % 2 ^ 32 else 0)
       else s.m_notificationCookie) ∧
    (acquireNotificationService io s).m_pNotificationHandler =
      (if SUCCEEDED (io.QueryService CLSID_VirtualDesktopNotificationService
          IID_IVirtualDesktopNotificationService) = true then
        some (sinkForVersion s.m_windowsVersion)
       else s.m_pNotificationHandler) ∧
    (acquireNotificationService io s).calls =
      (if SUCCEEDED (io.QueryService CLSID_VirtualDesktopNotificationService
          IID_IVirtualDesktopNotificationService) = true then
        s.calls ++ [Effect.Register (sinkForVersion s.m_windowsVersion)]
       else s.calls) := by
  unfold acquireNotificationService
  simp only [FAILED_eq_not_SUCCEEDED]
  cases h1 : SUCCEEDED (io.QueryService CLSID_VirtualDesktopNotificationService
      IID_IVirtualDesktopNotificationService) <;>
    cases h2 : SUCCEEDED io.Register_hr <;> simp

theorem Acquire_fields (io : Interop) (s : VirtualDesktop) :
    (AcquireVirtualDesktopInterfaces io s).2.m_pollingTimer = s.m_pollingTimer ∧
    (AcquireVirtualDesktopInterfaces io s).2.m_desktopSwitchHook = s.m_desktopSwitchHook ∧
    (AcquireVirtualDesktopInterfaces io s).2.m_switchCallback = s.m_switchCallback ∧
    (AcquireVirtualDesktopInterfaces io s).2.m_comOwned = s.m_comOwned ∧
    (AcquireVirtualDesktopInterfaces io s).2.m_pNotificationService =
      (if (AcquireVirtualDesktopInterfaces io s).1 = true then
        SUCCEEDED (io.QueryService CLSID_VirtualDesktopNotificationService
          IID_IVirtualDesktopNotificationService)
       else s.m_pNotificationService) ∧
    (AcquireVirtualDesktopInterfaces io s).2.m_notificationCookie =
      (if (AcquireVirtualDesktopInterfaces io s).1 = true ∧
          SUCCEEDED (io.QueryService CLSID_VirtualDesktopNotificationService
            IID_IVirtualDesktopNotificationService) = true then
        (if SUCCEEDED io.Register_hr = true then io.Register_cookie % 2 ^ 32 else 0)
       else s.m_notificationCookie) ∧
    (AcquireVirtualDesktopInterfaces io s).2.m_pNotificationHandler =
      (if (AcquireVirtualDesktopInterfaces io s).1 = true ∧
          SUCCEEDED (io.QueryService CLSID_VirtualDesktopNotificationService
            IID_IVirtualDesktopNotificationService) = true then
        some (sinkForVersion s.m_windowsVersion)
       else s.m_pNotificationHandler) ∧
    (AcquireVirtualDesktopInterfaces io s).2.calls =
      (if (AcquireVirtualDesktopInterfaces io s).1 = true ∧
          SUCCEEDED (io.QueryService CLSID_VirtualDesktopNotificationService
            IID_IVirtualDesktopNotificationService) = true then
        s.calls ++ [Effect.Register (sinkForVersion s.m_windowsVersion)]
       else s.calls) := by
  unfold AcquireVirtualDesktopInterfaces
  simp only [FAILED_eq_not_SUCCEEDED]
  by_cases c1 : SUCCEEDED io.CoCreateInstance_ImmersiveShell = true
  · by_cases c2 : SUCCEEDED io.QueryInterface_IServiceProvider = true
    · by_cases c3 : SUCCEEDED (io.QueryService CLSID_VirtualDesktopManagerInternal
          (VirtualDesktopGUIDs.ForVersion s.m_windowsVersion).iidVirtualDesktopManagerInternal) = true
      · simp [c1, c2, c3, acquireNotificationService_fields]
      · by_cases c4 : SUCCEEDED (io.QueryService
            (VirtualDesktopGUIDs.ForVersion s.m_windowsVersion).iidVirtualDesktopManagerInternal
            (VirtualDesktopGUIDs.ForVersion s.m_windowsVersion).iidVirtualDesktopManagerInternal) = true
        · simp [c1, c2, c3, c4, acquireNotificationService_fields]
        · simp [c1, c2, c3, c4]
    · simp [c1, c2]
  · simp [c1]

theorem InitializeCOM_fields (io : Interop) (s : VirtualDesktop) :
    (InitializeCOM io s).2.m_pollingTimer = s.m_pollingTimer ∧
    (InitializeCOM io s).2.m_desktopSwitchHook = s.m_desktopSwitchHook ∧
    (InitializeCOM io s).2.m_switchCallback = s.m_switchCallback ∧
    (InitializeCOM io s).2.m_pNotificationService = s.m_pNotificationService ∧
    (InitializeCOM io s).2.m_notificationCookie = s.m_notificationCookie ∧
    (InitializeCOM io s).2.m_pNotificationHandler = s.m_pNotificationHandler ∧
    (InitializeCOM io s).2.m_pServiceProvider = s.m_pServiceProvider ∧
    (InitializeCOM io s).2.calls = s.calls := by
  unfold InitializeCOM
  dsimp only
  split
  · simp
  · split
    · simp
    · split
      · split
        · simp
        · split <;> simp
      · simp

theorem InitializeCOM_comOwned (io : Interop) (s : VirtualDesktop) :
    (InitializeCOM io s).2.m_comOwned =
      (if activationContextUsable io = true then true else s.m_comOwned) := by
  have r1 : SUCCEEDED RPC_E_CHANGED_MODE = false := by decide
  have r2 : RPC_E_CHANGED_MODE ≠ S_FALSE := by decide
  unfold InitializeCOM activationContextUsable
  by_cases c1 : SUCCEEDED io.CoInitializeEx_MULTITHREADED = true
  · simp [c1]
  · have n1 : io.CoInitializeEx_MULTITHREADED ≠ S_FALSE := by
      intro e; rw [e] at c1; exact c1 (by decide)
    by_cases c2 : io.CoInitializeEx_MULTITHREADED = RPC_E_CHANGED_MODE
    · by_cases c3 : SUCCEEDED io.CoInitializeEx_APARTMENTTHREADED = true
      · simp [c2, c3, r1, r2]
      · have n3 : io.CoInitializeEx_APARTMENTTHREADED ≠ S_FALSE := by
          intro e; rw [e] at c3; exact c3 (by decide)
        simp [c2, c3, n3, r1, r2]
    · simp [c1, n1, c2]

theorem Init_fields (io : Interop) (s : VirtualDesktop) (hi : s.m_initialized = false) :
    (s.Init io).2.m_pollingTimer = s.m_pollingTimer ∧
    (s.Init io).2.m_desktopSwitchHook = s.m_desktopSwitchHook ∧
    (s.Init io).2.m_switchCallback = s.m_switchCallback ∧
    (s.Init io).2.m_comOwned =
      (if activationContextUsable io = true then true else s.m_comOwned) ∧
    (s.Init io).2.m_pNotificationService =
      (if activationContextUsable io = true ∧ internalManagerAcquired io = true then
        SUCCEEDED (io.QueryService CLSID_VirtualDesktopNotificationService
          IID_IVirtualDesktopNotificationService)
       else s.m_pNotificationService) ∧
    (s.Init io).2.m_notificationCookie =
      (if activationContextUsable io = true ∧ internalManagerAcquired io = true ∧
          SUCCEEDED (io.QueryService CLSID_VirtualDesktopNotificationService
            IID_IVirtualDesktopNotificationService) = true then
        (if SUCCEEDED io.Register_hr = true then io.Register_cookie % 2 ^ 32 else 0)
       else s.m_notificationCookie) ∧
    (s.Init io).2.m_pNotificationHandler =
      (if activationContextUsable io = true ∧ internalManagerAcquired io = true ∧
          SUCCEEDED (io.QueryService CLSID_VirtualDesktopNotificationService
            IID_IVirtualDesktopNotificationService) = true then
        some (sinkForVersion (GetCurrentVirtualDesktopVersion io.dwBuildNumber))
       else s.m_pNotificationHandler) ∧
    (s.Init io).2.calls =
      (if activationContextUsable io = true ∧ internalManagerAcquired io = true ∧
          SUCCEEDED (io.QueryService CLSID_VirtualDesktopNotificationService
            IID_IVirtualDesktopNotificationService) = true then
        s.calls ++ [Effect.Register
          (sinkForVersion (GetCurrentVirtualDesktopVersion io.dwBuildNumber))]
       else s.calls) := by
  cases hu : activationContextUsable io
  · unfold Init
    simp [hi, InitializeCOM_fst, hu, InitializeCOM_fields, InitializeCOM_comOwned]
  · unfold Init
    simp only [hi, Bool.false_eq_true, if_false, InitializeCOM_fst, hu, Bool.not_true]
    cases h1 : SUCCEEDED io.CoCreateInstance_ImmersiveShell <;>
      cases h2 : SUCCEEDED io.QueryInterface_IServiceProvider <;>
      cases h3 : SUCCEEDED (io.QueryService CLSID_VirtualDesktopManagerInternal
        (VirtualDesktopGUIDs.ForVersion (GetCurrentVirtualDesktopVersion
          io.dwBuildNumber)).iidVirtualDesktopManagerInternal) <;>
      cases h4 : SUCCEEDED (io.QueryService
        (VirtualDesktopGUIDs.ForVersion (GetCurrentVirtualDesktopVersion
          io.dwBuildNumber)).iidVirtualDesktopManagerInternal
        (VirtualDesktopGUIDs.ForVersion (GetCurrentVirtualDesktopVersion
          io.dwBuildNumber)).iidVirtualDesktopManagerInternal) <;>
      cases hq : SUCCEEDED io.CoCreateInstance_VirtualDesktopManager <;>
      cases hn : SUCCEEDED (io.QueryService CLSID_VirtualDesktopNotificationService
        IID_IVirtualDesktopNotificationService) <;>
      simp [internalManagerAcquired, Acquire_spec, Acquire_fields, InitializeCOM_frame,
        InitializeCOM_fields, InitializeCOM_comOwned, hu, h1, h2, h3, h4, hq, hn]

theorem Tracked_Init (io : Interop) (s : VirtualDesktop) (hc : Coherent s) (h : Tracked s) :
    Tracked (s.Init io).2 := by
  cases hi : s.m_initialized
  · obtain ⟨e1, e2, e3, e4, e5, e6, e7, -⟩ := Init_fields io s hi
    obtain ⟨r1, r2, r3, r4, r5⟩ := h.released hi
    have ht : s.m_pollingTimer = 0 := by
      by_contra c
      have hp := h.timer_polling c
      have := hc.available_initialized (hc.polling_available hp)
      simp [hi] at this
    cases hu : activationContextUsable io
    · obtain ⟨-, i1, -, -, -, -, -, -⟩ := Init_unusable io s hi hu
      refine ⟨?_, ?_, ?_, ?_⟩
      · rw [e1, ht]; intro c; exact absurd rfl c
      · rw [e6]; simp [hu, r1]
      · rw [e2]; exact h.hook_absent
      · intro _
        rw [e6, e5, e7, e4]
        simp only [hu, Bool.false_eq_true, false_and, if_false]
        refine ⟨r1, r2, r3, ?_, r5⟩
        unfold Init
        simp [hi, InitializeCOM_fst, hu, InitializeCOM_fields, r4]
    · obtain ⟨-, i1, -, -, -, -, -, -⟩ := Init_spec io s hc hi hu
      refine ⟨?_, ?_, ?_, ?_⟩
      · rw [e1, ht]; intro c; exact absurd rfl c
      · rw [e6, e5]
        cases internalManagerAcquired io <;>
          cases SUCCEEDED (io.QueryService CLSID_VirtualDesktopNotificationService
            IID_IVirtualDesktopNotificationService) <;> simp [hu, r1]
      · rw [e2]; exact h.hook_absent
      · intro c; rw [i1] at c; exact absurd c (by simp)
  · rw [Init_initialized io s hi]; exact h

theorem Tracked_step {s t : VirtualDesktop} (hc : Coherent s) (h : Tracked s) (st : Step s t) :
    Tracked t := by
  cases st with
  | Init io => exact Tracked_Init io s hc h
  | Shutdown => exact Tracked_Shutdown s h
  | SetDesktopSwitchCallback io cb => exact Tracked_SetDesktopSwitchCallback io cb s h
  | ClearDesktopSwitchCallback => exact Tracked_ClearDesktopSwitchCallback s h
  | PollingTimerProc io =>
    exact Tracked_of_OnlyResolution (OnlyResolution_CheckDesktopChange io s) h
  | CurrentVirtualDesktopChanged io =>
    exact Tracked_of_OnlyResolution (OnlyResolution_OnDesktopSwitched io s) h
  | GetCurrentDesktop io info =>
    exact Tracked_of_OnlyResolution (OnlyResolution_GetCurrentDesktop io s info) h

theorem Reachable_Tracked {s : VirtualDesktop} (h : Reachable s) : Tracked s := by
  induction h with
  | initial => exact Tracked_initial
  | step hs st ih => exact Tracked_step (Reachable_Coherent hs) ih st

theorem runningTimers_append_singleton (c : List Effect) (e : Effect) :
    runningTimers (c ++ [e]) =
      (match e with
       | Effect.SetTimer id => if id ≠ 0 then runningTimers c ++ [id] else runningTimers c
       | Effect.KillTimer id => (runningTimers c).filter (fun t => decide (t ≠ id))
       | _ => runningTimers c) := by
  unfold runningTimers
  rw [List.foldl_append]
  cases e <;> rfl

theorem runningTimers_append (c d : List Effect) :
    runningTimers (c ++ d) =
      d.foldl (fun running e =>
        match e with
        | Effect.SetTimer id => if id ≠ 0 then running ++ [id] else running
        | Effect.KillTimer id => running.filter (fun t => decide (t ≠ id))
        | _ => running) (runningTimers c) := by
  unfold runningTimers
  rw [List.foldl_append]

/-! ## Listener registration and the backends -/

theorem SetDesktopSwitchCallback_polling (io : Interop) (cb : Nat) (s : VirtualDesktop)
    (hp : s.m_usingPolling = true) :
    (s.SetDesktopSwitchCallback io (some cb)).m_pollingTimer = io.SetTimer ∧
    (s.SetDesktopSwitchCallback io (some cb)).calls = s.calls ++ [Effect.SetTimer io.SetTimer] ∧
    (s.SetDesktopSwitchCallback io (some cb)).m_switchCallback = some cb := by
  unfold SetDesktopSwitchCallback
  simp only [hp, Option.isSome_some, Bool.and_self, if_true]
  cases io.GetForegroundWindow with
  | none => simp
  | some w =>
    dsimp only
    split <;> simp

theorem SetDesktopSwitchCallback_not_polling (io : Interop) (cb : Option Nat)
    (s : VirtualDesktop) (hp : s.m_usingPolling = false) :
    s.SetDesktopSwitchCallback io cb = { s with m_switchCallback := cb } := by
  unfold SetDesktopSwitchCallback
  simp [hp]

/-- C21 (counterexample): Notification mode without a backend.  When the
internal manager is acquired and the notification service is refused, and
when the service is acquired and the registration of the sink fails, `Init`
leaves the subsystem available and not polling; after a listener is
registered no timer runs and no cookie is held. -/
theorem notification_mode_without_backend :
    (VirtualDesktop.Init notificationServiceRefused {}).2.m_available = true ∧
    (VirtualDesktop.Init notificationServiceRefused {}).2.m_usingPolling = false ∧
    ((VirtualDesktop.Init notificationServiceRefused {}).2.SetDesktopSwitchCallback {}
      (some 1)).m_switchCallback = some 1 ∧
    ((VirtualDesktop.Init notificationServiceRefused {}).2.SetDesktopSwitchCallback {}
      (some 1)).m_pollingTimer = 0 ∧
    ((VirtualDesktop.Init notificationServiceRefused {}).2.SetDesktopSwitchCallback {}
      (some 1)).m_notificationCookie = 0 ∧
    ((VirtualDesktop.Init notificationServiceRefused {}).2.SetDesktopSwitchCallback {}
      (some 1)).m_pNotificationHandler = none ∧
    ((VirtualDesktop.Init notificationServiceRefused {}).2.SetDesktopSwitchCallback {}
      (some 1)).calls = [] ∧
    (VirtualDesktop.Init registrationRefused {}).2.m_available = true ∧
    (VirtualDesktop.Init registrationRefused {}).2.m_usingPolling = false ∧
    ((VirtualDesktop.Init registrationRefused {}).2.SetDesktopSwitchCallback {}
      (some 1)).m_pollingTimer = 0 ∧
    ((VirtualDesktop.Init registrationRefused {}).2.SetDesktopSwitchCallback {}
      (some 1)).m_notificationCookie = 0 := by
  decide

/-- C21 (amended): the backend after `Init` from an uninitialised reachable
state and the registration of a listener.  In Polling mode, when the timer
call returns a non-zero identifier, that identifier is held and the timer is
running.  In Notification mode the registration of the listener starts
nothing: no timer is held, and a sink is held together with a non-zero cookie
exactly when the notification service was acquired, the registration of the
sink succeeded and returned a non-zero cookie; the sink is then the one of
the detected variant and its registration is among the calls made. -/
theorem listener_backend (io io2 : Interop) (s : VirtualDesktop) (listener : Nat)
    (hs : Reachable s) (hi : s.m_initialized = false) :
    ((s.Init io).2.m_usingPolling = true → io2.SetTimer ≠ 0 →
      ((s.Init io).2.SetDesktopSwitchCallback io2 (some listener)).m_pollingTimer
        = io2.SetTimer ∧
      io2.SetTimer ∈
        runningTimers ((s.Init io).2.SetDesktopSwitchCallback io2 (some listener)).calls) ∧
    ((s.Init io).2.m_available = true → (s.Init io).2.m_usingPolling = false →
      ((s.Init io).2.SetDesktopSwitchCallback io2 (some listener)).m_pollingTimer = 0 ∧
      ((s.Init io).2.SetDesktopSwitchCallback io2 (some listener)).calls = (s.Init io).2.calls ∧
      ((((s.Init io).2.SetDesktopSwitchCallback io2 (some listener)).m_pNotificationHandler.isSome
            = true ∧
          ((s.Init io).2.SetDesktopSwitchCallback io2 (some listener)).m_notificationCookie ≠ 0)
        ↔ (SUCCEEDED (io.QueryService CLSID_VirtualDesktopNotificationService
              IID_IVirtualDesktopNotificationService) = true ∧
            SUCCEEDED io.Register_hr = true ∧ io.Register_cookie % 2 ^ 32 ≠ 0)) ∧
      (((s.Init io).2.SetDesktopSwitchCallback io2 (some listener)).m_notificationCookie ≠ 0 →
        ((s.Init io).2.SetDesktopSwitchCallback io2 (some listener)).m_pNotificationHandler
          = some (sinkForVersion (GetCurrentVirtualDesktopVersion io.dwBuildNumber)) ∧
        Effect.Register (sinkForVersion (GetCurrentVirtualDesktopVersion io.dwBuildNumber))
          ∈ ((s.Init io).2.SetDesktopSwitchCallback io2 (some listener)).calls)) := by
  have hc := Reachable_Coherent hs
  have ht := Reachable_Tracked hs
  obtain ⟨r1, r2, r3, r4, r5⟩ := ht.released hi
  have hna : s.m_available = false := by
    cases ha : s.m_available
    · rfl
    · have := hc.available_initialized ha
      rw [hi] at this
      exact absurd this (by decide)
  have htimer : s.m_pollingTimer = 0 := by
    by_contra c
    have := hc.polling_available (ht.timer_polling c)
    rw [hna] at this
    exact absurd this (by decide)
  obtain ⟨e1, e2, e3, e4, e5, e6, e7, e8⟩ := Init_fields io s hi
  refine ⟨fun hp hne => ?_, fun ha hp => ?_⟩
  · obtain ⟨p1, p2, -⟩ := SetDesktopSwitchCallback_polling io2 listener _ hp
    refine ⟨p1, ?_⟩
    rw [p2, runningTimers_append_singleton]
    simp [hne]
  · have hu : activationContextUsable io = true := by
      cases hu : activationContextUsable io
      · have := (Init_unusable io s hi hu).2.2.1
        rw [ha, hna] at this
        exact absurd this (by decide)
      · rfl
    obtain ⟨-, -, -, i3, i4, -, -, -⟩ := Init_spec io s hc hi hu
    have hacq : internalManagerAcquired io = true := by
      rw [i3] at ha
      rw [i4] at hp
      cases hq : internalManagerAcquired io
      · rw [hq] at ha hp
        simp only [Bool.false_or, Bool.not_false, Bool.true_and] at ha hp
        rw [ha] at hp
        exact absurd hp (by decide)
      · rfl
    rw [SetDesktopSwitchCallback_not_polling io2 (some listener) _ hp]
    dsimp only
    rw [e1, e6, e7, e8]
    refine ⟨htimer, rfl, ?_, ?_⟩
    · cases hn : SUCCEEDED (io.QueryService CLSID_VirtualDesktopNotificationService
          IID_IVirtualDesktopNotificationService) <;>
        cases hr : SUCCEEDED io.Register_hr <;> simp [hu, hacq, r1, r3]
    · cases hn : SUCCEEDED (io.QueryService CLSID_VirtualDesktopNotificationService
          IID_IVirtualDesktopNotificationService) <;>
        cases hr : SUCCEEDED io.Register_hr <;> simp [hu, hacq, r1, r3]

/-- C21 (instance): in Polling mode a listener registered while the timer call
returns 1 leaves timer 1 running; in Notification mode with every call
succeeding the Windows 10 sink is held under cookie 1. -/
theorem listener_backend_witness :
    (pollingReady.SetDesktopSwitchCallback {} (some 7)).m_pollingTimer = 1 ∧
    1 ∈ runningTimers (pollingReady.SetDesktopSwitchCallback {} (some 7)).calls ∧
    (notificationReady.SetDesktopSwitchCallback {} (some 7)).m_pNotificationHandler.isSome
      = true ∧
    (notificationReady.SetDesktopSwitchCallback {} (some 7)).m_notificationCookie ≠ 0 :=
  have hp := (listener_backend internalManagerRefused {} {} 7 Reachable.initial rfl).1
    (by decide) (by decide)
  have hn := ((listener_backend { dwBuildNumber := 19045 } {} {} 7 Reachable.initial rfl).2
    (by decide) (by decide)).2.2.1.mpr ⟨by decide, by decide, by decide⟩
  ⟨hp.1, hp.2, hn.1, hn.2⟩

/-! ## Shutdown -/

theorem Shutdown_runningTimers (s : VirtualDesktop) (hi : s.m_initialized = true)
    (hh : s.m_desktopSwitchHook = false) :
    runningTimers s.Shutdown.calls =
      (if s.m_pollingTimer ≠ 0 then
        (runningTimers s.calls).filter (fun t => decide (t ≠ s.m_pollingTimer))
       else runningTimers s.calls) := by
  rw [(Shutdown_fields s hi).2.2.2.2.2.2.2.2]
  by_cases c1 : s.m_pollingTimer = 0 <;>
    by_cases c3 : s.m_notificationCookie ≠ 0 ∧ s.m_pNotificationService = true <;>
    by_cases c5 : s.m_comOwned = true <;>
    simp [hh, c1, c3, c5, runningTimers_append]

theorem Shutdown_idem (s : VirtualDesktop) : s.Shutdown.Shutdown = s.Shutdown := by
  by_cases hi : s.m_initialized = true
  · exact Shutdown_uninitialized _ (Shutdown_frame s hi).1
  · have hi2 : s.m_initialized = false := by simpa using hi
    rw [Shutdown_uninitialized s hi2, Shutdown_uninitialized s hi2]

/-- What `Shutdown` establishes: it is idempotent, and from a reachable
initialised state it clears the flags, the timer member, the cookie and the
handles, with the calls that go with them. -/
theorem Shutdown_postcondition (s : VirtualDesktop) :
    s.Shutdown.Shutdown = s.Shutdown ∧
    s.Shutdown.Shutdown.calls = s.Shutdown.calls ∧
    (Reachable s → s.m_initialized = true →
      s.Shutdown.m_initialized = false ∧ s.Shutdown.m_available = false ∧
      s.Shutdown.m_usingPolling = false ∧
      s.Shutdown.m_pollingTimer = 0 ∧
      (s.m_pollingTimer ≠ 0 →
        Effect.KillTimer s.m_pollingTimer ∈ s.Shutdown.calls ∧
        s.m_pollingTimer ∉ runningTimers s.Shutdown.calls) ∧
      runningTimers s.Shutdown.calls =
        (if s.m_pollingTimer ≠ 0 then
          (runningTimers s.calls).filter (fun t => decide (t ≠ s.m_pollingTimer))
         else runningTimers s.calls) ∧
      s.Shutdown.m_notificationCookie = 0 ∧
      (s.m_notificationCookie ≠ 0 →
        Effect.Unregister s.m_notificationCookie ∈ s.Shutdown.calls) ∧
      s.Shutdown.m_pNotificationHandler = none ∧
      s.Shutdown.m_pNotificationService = false ∧
      s.Shutdown.m_pVirtualDesktopManagerInternal = false ∧
      s.Shutdown.m_pServiceProvider = false ∧
      s.Shutdown.m_pPublicVirtualDesktopManager = false) := by
  refine ⟨Shutdown_idem s, by rw [Shutdown_idem s], fun hs hi => ?_⟩
  have ht := Reachable_Tracked hs
  obtain ⟨f1, f2, f3, f4, f5, -, -⟩ := Shutdown_frame s hi
  obtain ⟨e1, e2, e3, e4, e5, e6, e7, e8, e9⟩ := Shutdown_fields s hi
  have hrun := Shutdown_runningTimers s hi ht.hook_absent
  refine ⟨f1, f2, f3, e1, ?_, hrun, ?_, ?_, e4, e5, f4, e6, f5⟩
  · intro c
    refine ⟨?_, ?_⟩
    · rw [e9]
      simp [c]
    · rw [hrun]
      simp [c, List.mem_filter]
  · rw [e3]
    by_cases c : s.m_notificationCookie = 0
    · simp [c]
    · simp [c, ht.cookie_service c]
  · intro c
    rw [e9]
    simp [c, ht.cookie_service c]

theorem runningTimers_ne_zero (c : List Effect) : ∀ t ∈ runningTimers c, t ≠ 0 := by
  induction c using List.reverseRecOn with
  | nil => intro t h; simp [runningTimers] at h
  | append_singleton l e ih =>
    intro t h
    rw [runningTimers_append_singleton] at h
    cases e with
    | SetTimer id =>
      dsimp only at h
      split at h
      · rw [List.mem_append, List.mem_singleton] at h
        rcases h with h | h
        · exact ih t h
        · rw [h]; assumption
      · exact ih t h
    | KillTimer id =>
      dsimp only at h
      exact ih t (List.mem_filter.mp h).1
    | CoUninitialize => exact ih t h
    | Register sink => exact ih t h
    | Unregister cookie => exact ih t h
    | UnhookWinEvent => exact ih t h
    | Callback l i n => exact ih t h

/-- C22 (the code evaluated on a concrete run): Polling mode, two listeners
registered one after the other, the timer calls returning the identifiers 1
and 2, so that both timers run.  `Shutdown` kills timer 2, the one held in
the member, and no other; timer 1 is still running afterwards, and a second
`Shutdown` changes nothing.  In general `Shutdown` is idempotent, and from a
reachable initialised state it leaves the subsystem not initialised, not
available and not polling, the cookie unregistered and cleared and the five
handles released; the timers running afterwards are those running before
without the one held in the member, so none is left when no timer other
than that one was running. -/
theorem shutdown_leaves_earlier_timer_running :
    Reachable registeredTwice ∧ registeredTwice.m_initialized = true ∧
    runningTimers registeredTwice.calls = [1, 2] ∧
    registeredTwice.m_pollingTimer = 2 ∧
    registeredTwice.Shutdown.m_pollingTimer = 0 ∧
    registeredTwice.Shutdown.calls
      = registeredTwice.calls ++ [Effect.KillTimer 2, Effect.CoUninitialize] ∧
    runningTimers registeredTwice.Shutdown.calls = [1] ∧
    registeredTwice.Shutdown.Shutdown = registeredTwice.Shutdown ∧
    (∀ s : VirtualDesktop, s.Shutdown.Shutdown = s.Shutdown) ∧
    (∀ s : VirtualDesktop, Reachable s → s.m_initialized = true →
      s.Shutdown.m_initialized = false ∧ s.Shutdown.m_available = false ∧
      s.Shutdown.m_usingPolling = false ∧ s.Shutdown.m_pollingTimer = 0 ∧
      s.Shutdown.m_notificationCookie = 0 ∧
      (s.m_notificationCookie ≠ 0 →
        Effect.Unregister s.m_notificationCookie ∈ s.Shutdown.calls) ∧
      s.Shutdown.m_pNotificationHandler = none ∧
      s.Shutdown.m_pNotificationService = false ∧
      s.Shutdown.m_pVirtualDesktopManagerInternal = false ∧
      s.Shutdown.m_pServiceProvider = false ∧
      s.Shutdown.m_pPublicVirtualDesktopManager = false ∧
      (s.m_pollingTimer ≠ 0 →
        Effect.KillTimer s.m_pollingTimer ∈ s.Shutdown.calls ∧
        s.m_pollingTimer ∉ runningTimers s.Shutdown.calls) ∧
      runningTimers s.Shutdown.calls =
        (if s.m_pollingTimer ≠ 0 then
          (runningTimers s.calls).filter (fun t => decide (t ≠ s.m_pollingTimer))
         else runningTimers s.calls) ∧
      ((∀ t ∈ runningTimers s.calls, t = s.m_pollingTimer) →
        runningTimers s.Shutdown.calls = [])) := by
  refine ⟨Reachable_registeredTwice, by decide, by decide, by decide, by decide, by decide,
    by decide, by decide, Shutdown_idem, fun s hs hi => ?_⟩
  obtain ⟨p1, p2, p3, p4, p5, p6, p7, p8, p9, p10, p11, p12, p13⟩ :=
    (Shutdown_postcondition s).2.2 hs hi
  refine ⟨p1, p2, p3, p4, p7, p8, p9, p10, p11, p12, p13, p5, p6, fun hall => ?_⟩
  rw [p6]
  by_cases c : s.m_pollingTimer = 0
  · rw [if_neg (by simpa using c)]
    apply List.eq_nil_iff_forall_not_mem.mpr
    intro t ht
    exact runningTimers_ne_zero s.calls t ht ((hall t ht).trans c)
  · rw [if_pos c]
    apply List.eq_nil_iff_forall_not_mem.mpr
    intro t ht
    have := List.mem_filter.mp ht
    simp [hall t this.1] at this

/-! ## Shutdown followed by Init -/

theorem Step_of_StepExceptInit {s t : VirtualDesktop} (h : StepExceptInit s t) : Step s t := by
  cases h with
  | Shutdown => exact Step.Shutdown s
  | SetDesktopSwitchCallback io cb => exact Step.SetDesktopSwitchCallback io cb s
  | ClearDesktopSwitchCallback => exact Step.ClearDesktopSwitchCallback s
  | PollingTimerProc io => exact Step.PollingTimerProc io s
  | CurrentVirtualDesktopChanged io => exact Step.CurrentVirtualDesktopChanged io s
  | GetCurrentDesktop io info => exact Step.GetCurrentDesktop io info s

theorem Reachable_of_WithoutInit {s t : VirtualDesktop} (hs : Reachable s)
    (h : WithoutInit s t) : Reachable t := by
  induction h with
  | refl => exact hs
  | step _ st ih => exact Reachable.step ih (Step_of_StepExceptInit st)

theorem OnlyResolution_initialized {s t : VirtualDesktop} (h : OnlyResolution s t) :
    t.m_initialized = s.m_initialized := by
  obtain ⟨a, b, c, rfl⟩ := h
  rfl

theorem SetDesktopSwitchCallback_initialized (io : Interop) (cb : Option Nat)
    (s : VirtualDesktop) :
    (s.SetDesktopSwitchCallback io cb).m_initialized = s.m_initialized := by
  unfold SetDesktopSwitchCallback
  dsimp only
  split
  · split
    · rfl
    · split <;> rfl
  · rfl

theorem ClearDesktopSwitchCallback_initialized (s : VirtualDesktop) :
    s.ClearDesktopSwitchCallback.m_initialized = s.m_initialized := by
  unfold ClearDesktopSwitchCallback
  dsimp only
  split <;> split <;> rfl

theorem StepExceptInit_uninitialized {s t : VirtualDesktop} (h : StepExceptInit s t)
    (hi : s.m_initialized = false) : t.m_initialized = false := by
  cases h with
  | Shutdown => rw [Shutdown_uninitialized s hi]; exact hi
  | SetDesktopSwitchCallback io cb => rw [SetDesktopSwitchCallback_initialized]; exact hi
  | ClearDesktopSwitchCallback => rw [ClearDesktopSwitchCallback_initialized]; exact hi
  | PollingTimerProc io =>
    exact (OnlyResolution_initialized (OnlyResolution_CheckDesktopChange io s)).trans hi
  | CurrentVirtualDesktopChanged io =>
    exact (OnlyResolution_initialized (OnlyResolution_OnDesktopSwitched io s)).trans hi
  | GetCurrentDesktop io info =>
    exact (OnlyResolution_initialized (OnlyResolution_GetCurrentDesktop io s info)).trans hi

theorem WithoutInit_uninitialized {s t : VirtualDesktop} (h : WithoutInit s t)
    (hi : s.m_initialized = false) : t.m_initialized = false := by
  induction h with
  | refl => exact hi
  | step _ st ih => exact StepExceptInit_uninitialized st ih

theorem Shutdown_m_initialized (s : VirtualDesktop) : s.Shutdown.m_initialized = false := by
  cases hi : s.m_initialized
  · rw [Shutdown_uninitialized s hi]; exact hi
  · exact (Shutdown_frame s hi).1

/-- C23 (counterexample): `Init` after `Shutdown` makes the subsystem Ready
again.  From Notification mode, `Shutdown` leaves the subsystem unavailable;
a following `Init` with every call succeeding acquires the internal manager
again, registers a sink again and leaves the subsystem initialised and
available. -/
theorem init_after_shutdown_is_ready_again :
    notificationReady.Shutdown.m_initialized = false ∧
    notificationReady.Shutdown.m_available = false ∧
    (VirtualDesktop.Init { dwBuildNumber := 19045 } notificationReady.Shutdown).1 = true ∧
    (VirtualDesktop.Init { dwBuildNumber := 19045 } notificationReady.Shutdown).2.m_initialized
      = true ∧
    (VirtualDesktop.Init { dwBuildNumber := 19045 } notificationReady.Shutdown).2.m_available
      = true ∧
    (VirtualDesktop.Init { dwBuildNumber := 19045 }
      notificationReady.Shutdown).2.m_pVirtualDesktopManagerInternal = true ∧
    (VirtualDesktop.Init { dwBuildNumber := 19045 }
      notificationReady.Shutdown).2.m_notificationCookie = 1 := by
  decide

/-- C23 (amended): after `Shutdown` the subsystem is uninitialised in the same
way as before the first `Init`.  Whatever operations other than `Init` follow
(further shutdowns, listener registration and clearing, ticks, sink
notifications, queries), it stays uninitialised, unavailable and not polling
and holds no interface, timer or cookie.  A following `Init` with a usable
activation context runs the acquisition again: it succeeds, the subsystem is
initialised, and it is available exactly when the internal manager is
acquired or the public manager is created, polling exactly in the second
case alone. -/
theorem shutdown_then_init (s t : VirtualDesktop) (io : Interop) (hs : Reachable s)
    (ht : WithoutInit s.Shutdown t) :
    (t.m_initialized = false ∧ t.m_available = false ∧ t.m_usingPolling = false ∧
      t.m_pVirtualDesktopManagerInternal = false ∧ t.m_pPublicVirtualDesktopManager = false ∧
      t.m_pNotificationService = false ∧ t.m_pNotificationHandler = none ∧
      t.m_pServiceProvider = false ∧ t.m_pollingTimer = 0 ∧ t.m_notificationCookie = 0) ∧
    (activationContextUsable io = true →
      (t.Init io).1 = true ∧ (t.Init io).2.m_initialized = true ∧
      (t.Init io).2.m_available
        = (internalManagerAcquired io || SUCCEEDED io.CoCreateInstance_VirtualDesktopManager) ∧
      (t.Init io).2.m_usingPolling
        = (!internalManagerAcquired io && SUCCEEDED io.CoCreateInstance_VirtualDesktopManager) ∧
      (t.Init io).2.m_pVirtualDesktopManagerInternal = internalManagerAcquired io ∧
      (t.Init io).2.m_pPublicVirtualDesktopManager
        = SUCCEEDED io.CoCreateInstance_VirtualDesktopManager) := by
  have hrt : Reachable t := Reachable_of_WithoutInit (Reachable_Shutdown hs) ht
  have hc := Reachable_Coherent hrt
  have htr := Reachable_Tracked hrt
  have hi : t.m_initialized = false := WithoutInit_uninitialized ht (Shutdown_m_initialized s)
  have ha : t.m_available = false := by
    cases ha : t.m_available
    · rfl
    · have := hc.available_initialized ha
      rw [hi] at this
      exact absurd this (by decide)
  have hp : t.m_usingPolling = false := by
    cases hp : t.m_usingPolling
    · rfl
    · have := hc.polling_available hp
      rw [ha] at this
      exact absurd this (by decide)
  have htimer : t.m_pollingTimer = 0 := by
    by_contra c
    have := htr.timer_polling c
    rw [hp] at this
    exact absurd this (by decide)
  obtain ⟨r1, r2, r3, r4, -⟩ := htr.released hi
  obtain ⟨q1, q2⟩ := hc.released hi
  refine ⟨⟨hi, ha, hp, q1, q2, r2, r3, r4, htimer, r1⟩, fun hu => ?_⟩
  obtain ⟨i0, i1, i2, i3, i4, i5, -, -⟩ := Init_spec io t hc hi hu
  exact ⟨i0, i1, i3, i4, i5, i2⟩

/-- C23 (instance): from Polling mode with a listener and a timer, after
`Shutdown` and a cleared listener, nothing is held; `Init` with the internal
manager refused enters Polling mode again. -/
theorem shutdown_then_init_witness :
    pollingOnSecondRegistered.Shutdown.ClearDesktopSwitchCallback.m_available = false ∧
    (VirtualDesktop.Init internalManagerRefused
      pollingOnSecondRegistered.Shutdown.ClearDesktopSwitchCallback).2.m_initialized = true ∧
    (VirtualDesktop.Init internalManagerRefused
      pollingOnSecondRegistered.Shutdown.ClearDesktopSwitchCallback).2.m_usingPolling = true :=
  have h := shutdown_then_init pollingOnSecondRegistered
    pollingOnSecondRegistered.Shutdown.ClearDesktopSwitchCallback internalManagerRefused
    Reachable_pollingOnSecondRegistered
    (WithoutInit.step (WithoutInit.refl _) (StepExceptInit.ClearDesktopSwitchCallback _))
  ⟨h.1.2.1, (h.2 (by decide)).2.1, (h.2 (by decide)).2.2.2.1.trans (by decide)⟩

/-! ## Ownership of the activation context -/

/-- C24 (the code evaluated on a concrete run): the initialisation call
reports a context that is already initialised on the thread (`S_FALSE`), in
the multithreaded model and, after a changed mode, in the apartment model.
`Init` records ownership in both runs and `Shutdown` calls `CoUninitialize`
once, exactly as after a fresh initialisation (`S_OK`).  In general
`InitializeCOM` records ownership whenever it succeeds. -/
theorem already_initialized_context_is_uninitialized :
    SUCCEEDED S_FALSE = true ∧
    notificationReady.m_comOwned = true ∧
    notificationReady.Shutdown.calls.count Effect.CoUninitialize = 1 ∧
    (VirtualDesktop.Init contextAlreadyInitialized {}).2.m_comOwned = true ∧
    (VirtualDesktop.Init contextAlreadyInitialized {}).2.Shutdown.calls.count
      Effect.CoUninitialize = 1 ∧
    (VirtualDesktop.Init apartmentAlreadyInitialized {}).2.m_comOwned = true ∧
    (VirtualDesktop.Init apartmentAlreadyInitialized {}).2.Shutdown.calls.count
      Effect.CoUninitialize = 1 ∧
    (∀ (io : Interop) (s : VirtualDesktop),
      (InitializeCOM io s).1 = true → (InitializeCOM io s).2.m_comOwned = true) := by
  refine ⟨by decide, by decide, by decide, by decide, by decide, by decide, by decide,
    fun io s h => ?_⟩
  rw [InitializeCOM_fst] at h
  rw [InitializeCOM_comOwned, if_pos h]

/-! ## The polling tick -/

theorem firstQualifying_cons (hw : Window) (rest : List Window) :
    firstQualifying (hw :: rest) =
      (if qualifies hw = true then some (hw.GetWindowDesktopId_out.getD GUID.empty)
       else firstQualifying rest) := by
  unfold firstQualifying
  rw [List.find?_cons]
  cases qualifies hw <;> simp

theorem enumWindowsFind_eq_firstQualifying (windows : List Window) :
    enumWindowsFind windows = firstQualifying windows := by
  induction windows with
  | nil => rfl
  | cons hw rest ih =>
    unfold enumWindowsFind
    rw [ih, firstQualifying_cons]
    unfold qualifies
    dsimp only
    cases h1 : hw.IsWindowVisible <;> cases h2 : SUCCEEDED hw.GetWindowDesktopId_hr <;>
      cases h3 : IsEqualGUID (hw.GetWindowDesktopId_out.getD GUID.empty) GUID.empty <;>
      cases h4 : SUCCEEDED hw.IsWindowOnCurrentVirtualDesktop_hr <;>
      cases h5 : hw.IsWindowOnCurrentVirtualDesktop_out <;> simp

theorem firstQualifying_ne_empty (windows : List Window) (d : GUID)
    (h : firstQualifying windows = some d) : d ≠ GUID.empty := by
  unfold firstQualifying at h
  rw [Option.map_eq_some'] at h
  obtain ⟨hw, hf, rfl⟩ := h
  have hq := List.find?_some hf
  unfold qualifies at hq
  simp only [Bool.and_eq_true, Bool.not_eq_true', IsEqualGUID, decide_eq_false_iff_not] at hq
  exact hq.1.2.2

theorem tickIdentity_ne_empty (io : Interop) (d : GUID) (h : tickIdentity io = some d) :
    d ≠ GUID.empty := by
  unfold tickIdentity at h
  split at h
  · exact absurd h (by simp)
  · rename_i hWnd _
    split at h
    · exact absurd h (by simp)
    · split at h
      · rw [enumWindowsFind_eq_firstQualifying] at h
        exact firstQualifying_ne_empty _ _ h
      · rename_i hc
        simp only [Bool.or_eq_true, not_or, Bool.not_eq_true, IsEqualGUID,
          decide_eq_false_iff_not] at hc
        simp only [Option.some.injEq] at h
        rw [← h]
        exact hc.2

theorem CheckDesktopChange_eq (io : Interop) (s : VirtualDesktop)
    (hpub : s.m_pPublicVirtualDesktopManager = true) (hl : s.m_switchCallback.isSome = true) :
    s.CheckDesktopChange io =
      (match tickIdentity io with
       | none => s
       | some d =>
         if d = s.m_lastKnownDesktopId then s
         else VirtualDesktop.OnDesktopSwitched io
           { s with m_lastKnownDesktopId := d,
                    m_lastKnownDesktopIndex := GetDesktopIndexFromPolling io d }) := by
  have hn : s.m_switchCallback.isNone = false := by
    cases h : s.m_switchCallback
    · rw [h] at hl; exact absurd hl (by simp)
    · rfl
  unfold CheckDesktopChange tickIdentity sampledWindow
  simp only [hpub, hn, Bool.not_true, Bool.or_self, Bool.false_eq_true, if_false]
  cases io.GetForegroundWindow with
  | none =>
    cases io.GetShellWindow with
    | none => rfl
    | some w =>
      dsimp only
      by_cases c1 : FAILED w.IsWindowOnCurrentVirtualDesktop_hr = true
      · simp [c1]
      · by_cases c2 : (FAILED w.GetWindowDesktopId_hr
            || IsEqualGUID (w.GetWindowDesktopId_out.getD GUID.empty) GUID.empty) = true
        · simp only [c1, c2, if_true, if_false, Bool.false_eq_true]
          cases enumWindowsFind io.EnumWindows <;> simp [IsEqualGUID]
        · simp [c1, c2, IsEqualGUID]
  | some w =>
    dsimp only
    by_cases c1 : FAILED w.IsWindowOnCurrentVirtualDesktop_hr = true
    · simp [c1]
    · by_cases c2 : (FAILED w.GetWindowDesktopId_hr
          || IsEqualGUID (w.GetWindowDesktopId_out.getD GUID.empty) GUID.empty) = true
      · simp only [c1, c2, if_true, if_false, Bool.false_eq_true]
        cases enumWindowsFind io.EnumWindows <;> simp [IsEqualGUID]
      · simp [c1, c2, IsEqualGUID]

theorem OnDesktopSwitched_polling_known (io : Interop) (s : VirtualDesktop) (listener : Nat)
    (hp : s.m_usingPolling = true) (hl : s.m_switchCallback = some listener)
    (hne : s.m_lastKnownDesktopId ≠ GUID.empty) :
    s.OnDesktopSwitched io =
      { s with calls := s.calls ++ [Effect.Callback listener s.m_lastKnownDesktopIndex
          (GetDesktopNameFromRegistry io s.m_lastKnownDesktopId)] } := by
  unfold OnDesktopSwitched
  rw [hl]
  simp [GetCurrentDesktop_polling_known io s {} hp hne, hl]

theorem OnlyResolution_fields {s t : VirtualDesktop} (h : OnlyResolution s t) :
    t.m_usingPolling = s.m_usingPolling ∧
    t.m_pPublicVirtualDesktopManager = s.m_pPublicVirtualDesktopManager ∧
    t.m_switchCallback = s.m_switchCallback := by
  obtain ⟨a, b, c, rfl⟩ := h
  exact ⟨rfl, rfl, rfl⟩

theorem listenerInvocations_append_callback (c : List Effect) (l : Nat) (i : Int)
    (n : String) :
    listenerInvocations (c ++ [Effect.Callback l i n])
      = listenerInvocations c ++ [Effect.Callback l i n] := by
  unfold listenerInvocations
  rw [List.filter_append]
  rfl

theorem polling_tick (io : Interop) (s : VirtualDesktop) (listener : Nat)
    (hp : s.m_usingPolling = true) (hpub : s.m_pPublicVirtualDesktopManager = true)
    (hl : s.m_switchCallback = some listener) :
    (∀ d, tickIdentity io = some d → d ≠ s.m_lastKnownDesktopId →
      s.PollingTimerProc io =
        { s with m_lastKnownDesktopId := d,
                 m_lastKnownDesktopIndex := GetDesktopIndexFromPolling io d,
                 calls := s.calls ++ [Effect.Callback listener (GetDesktopIndexFromPolling io d)
                   (GetDesktopNameFromRegistry io d)] }) ∧
    ((tickIdentity io = none ∨ tickIdentity io = some s.m_lastKnownDesktopId) →
      s.PollingTimerProc io = s) := by
  have he := CheckDesktopChange_eq io s hpub (by rw [hl]; rfl)
  refine ⟨fun d hd hne => ?_, fun h => ?_⟩
  · unfold PollingTimerProc
    rw [he, hd]
    dsimp only
    rw [if_neg hne]
    rw [OnDesktopSwitched_polling_known io
      { s with m_lastKnownDesktopId := d,
               m_lastKnownDesktopIndex := GetDesktopIndexFromPolling io d }
      listener hp hl (tickIdentity_ne_empty io d hd)]
  · unfold PollingTimerProc
    rw [he]
    rcases h with h | h
    · rw [h]
    · rw [h]
      simp

theorem polling_tick_count (io : Interop) (s : VirtualDesktop) (listener : Nat)
    (hp : s.m_usingPolling = true) (hpub : s.m_pPublicVirtualDesktopManager = true)
    (hl : s.m_switchCallback = some listener) :
    (listenerInvocations (s.PollingTimerProc io).calls).length =
      (listenerInvocations s.calls).length +
        (match tickIdentity io with
         | some d => if d ≠ s.m_lastKnownDesktopId then 1 else 0
         | none => 0) := by
  obtain ⟨h1, h2⟩ := polling_tick io s listener hp hpub hl
  cases ht : tickIdentity io with
  | none => rw [h2 (Or.inl ht)]; simp
  | some d =>
    by_cases c : d = s.m_lastKnownDesktopId
    · rw [h2 (Or.inr (by rw [ht, c]))]; simp [c]
    · rw [h1 d ht c]
      simp [c, listenerInvocations_append_callback]

/-- C25 (counterexample): a tick outside Polling mode.  After two listener
registrations, a shutdown and a second `Init` that ends in Notification mode,
timer 1 still runs; with the public manager and a listener present its tick
resolves an identity different from the last-known one and stores it, and
the listener is not invoked because the resolution through the internal
manager fails. -/
theorem tick_in_notification_mode_stores_without_signal :
    Reachable notificationWithLeakedTimer ∧
    notificationWithLeakedTimer.m_pPublicVirtualDesktopManager = true ∧
    notificationWithLeakedTimer.m_switchCallback = some 9 ∧
    notificationWithLeakedTimer.m_usingPolling = false ∧
    runningTimers notificationWithLeakedTimer.calls = [1] ∧
    tickIdentity currentDesktopQueryFails = some (sampleId 2) ∧
    notificationWithLeakedTimer.m_lastKnownDesktopId ≠ sampleId 2 ∧
    (notificationWithLeakedTimer.PollingTimerProc
      currentDesktopQueryFails).m_lastKnownDesktopId = sampleId 2 ∧
    (notificationWithLeakedTimer.PollingTimerProc currentDesktopQueryFails).calls
      = notificationWithLeakedTimer.calls :=
  ⟨Reachable.step (Reachable.step (Reachable_Shutdown Reachable_registeredTwice)
      (Step.Init _ _)) (Step.SetDesktopSwitchCallback _ _ _),
    by decide, by decide, by decide, by decide, by decide, by decide, by decide, by decide⟩

/-- C25 (amended): one polling tick in Polling mode, with the public manager
and a listener present.  An identity the tick resolves is never empty.  If
the tick resolves an identity different from the last-known one, that
identity becomes the last-known one, the last-known index becomes its
position in the ordered identity store, the listener is invoked exactly once,
with that index and the name resolved for the identity, and nothing else
changes.  If the tick resolves the last-known identity, or none, the state is
unchanged and the listener is not invoked.  Over any sequence of ticks the
number of invocations added is the number of ticks that observe a change. -/
theorem polling_tick_signals_once (io : Interop) (s : VirtualDesktop) (listener : Nat)
    (hp : s.m_usingPolling = true) (hpub : s.m_pPublicVirtualDesktopManager = true)
    (hl : s.m_switchCallback = some listener) :
    (∀ d, tickIdentity io = some d → d ≠ GUID.empty) ∧
    (∀ d, tickIdentity io = some d → d ≠ s.m_lastKnownDesktopId →
      s.PollingTimerProc io =
        { s with m_lastKnownDesktopId := d,
                 m_lastKnownDesktopIndex := GetDesktopIndexFromPolling io d,
                 calls := s.calls ++ [Effect.Callback listener (GetDesktopIndexFromPolling io d)
                   (GetDesktopNameFromRegistry io d)] }) ∧
    ((tickIdentity io = none ∨ tickIdentity io = some s.m_lastKnownDesktopId) →
      s.PollingTimerProc io = s) ∧
    (∀ ios : List Interop, (listenerInvocations (runTicks ios s).calls).length =
      (listenerInvocations s.calls).length + observedChanges ios s) := by
  obtain ⟨h1, h2⟩ := polling_tick io s listener hp hpub hl
  refine ⟨tickIdentity_ne_empty io, h1, h2, fun ios => ?_⟩
  clear h1 h2
  induction ios generalizing s with
  | nil => simp [runTicks, observedChanges]
  | cons io2 rest ih =>
    obtain ⟨f1, f2, f3⟩ := OnlyResolution_fields (OnlyResolution_CheckDesktopChange io2 s)
    have ih2 := ih (s.PollingTimerProc io2) (f1.trans hp) (f2.trans hpub) (f3.trans hl)
    unfold runTicks observedChanges
    rw [ih2, polling_tick_count io2 s listener hp hpub hl]
    omega

/-- C25 (instance): in Polling mode with the second stored desktop known and
the listener 1 registered, a tick that finds the foreground window on the
first stored desktop invokes the listener once, with index 1 and the
synthesized name. -/
theorem polling_tick_signals_once_witness :
    (pollingOnSecondRegistered.PollingTimerProc
      { foregroundOnSecond with
        GetForegroundWindow := some { GetWindowDesktopId_out := some (sampleId 1) } }).calls =
      pollingOnSecondRegistered.calls ++ [Effect.Callback 1 1 "Desktop 1"] :=
  have h := (polling_tick_signals_once
    { foregroundOnSecond with
      GetForegroundWindow := some { GetWindowDesktopId_out := some (sampleId 1) } }
    pollingOnSecondRegistered 1
    (by decide) (by decide) (by decide)).2.1 (sampleId 1) (by decide) (by decide)
  (congrArg VirtualDesktop.calls h).trans (by decide)

/-! ## The enumeration fallback of the tick -/

theorem Reachable_registeredWhilePinned : Reachable registeredWhilePinned :=
  Reachable.step Reachable_pollingReady (Step.SetDesktopSwitchCallback _ _ _)

/-- C26 (counterexample): the fallback is not reached when the test of the
sampled window fails.  With the public manager and a listener present, the
foreground window reports the empty identity and its test against the
current desktop fails; the enumeration holds a qualifying window whose
identity differs from the last-known one, and the tick changes nothing. -/
theorem fallback_not_reached_when_window_test_fails :
    registeredWhilePinned.m_pPublicVirtualDesktopManager = true ∧
    registeredWhilePinned.m_switchCallback = some 1 ∧
    sampledWindow foregroundTestFails =
      some { GetWindowDesktopId_out := some GUID.empty,
             IsWindowOnCurrentVirtualDesktop_hr := E_FAIL } ∧
    firstQualifying foregroundTestFails.EnumWindows = some (sampleId 1) ∧
    registeredWhilePinned.m_lastKnownDesktopId ≠ sampleId 1 ∧
    registeredWhilePinned.PollingTimerProc foregroundTestFails = registeredWhilePinned := by
  decide

/-- C26 (amended): the enumeration fallback.  With the public manager and a
listener present, when the sampled window (the foreground window, the shell
window when there is none) passes the test against the current desktop
without a failure and then reports no identity or its identity read fails,
the identity the tick resolves is that of the first window, in enumeration
order, that is visible, reports a non-empty identity and is reported as on
the current desktop.  The tick compares it with the last-known identity as
any resolved identity; when no window qualifies the tick changes nothing. -/
theorem polling_fallback_selection (io : Interop) (s : VirtualDesktop) (hWnd : Window)
    (hpub : s.m_pPublicVirtualDesktopManager = true) (hl : s.m_switchCallback.isSome = true)
    (hw : sampledWindow io = some hWnd)
    (hon : FAILED hWnd.IsWindowOnCurrentVirtualDesktop_hr = false)
    (hno : FAILED hWnd.GetWindowDesktopId_hr = true ∨
      hWnd.GetWindowDesktopId_out.getD GUID.empty = GUID.empty) :
    enumWindowsFind io.EnumWindows = firstQualifying io.EnumWindows ∧
    tickIdentity io = firstQualifying io.EnumWindows ∧
    (firstQualifying io.EnumWindows = none → s.PollingTimerProc io = s) ∧
    (∀ d, firstQualifying io.EnumWindows = some d →
      s.PollingTimerProc io =
        (if d = s.m_lastKnownDesktopId then s
         else VirtualDesktop.OnDesktopSwitched io
           { s with m_lastKnownDesktopId := d,
                    m_lastKnownDesktopIndex := GetDesktopIndexFromPolling io d })) := by
  have ht : tickIdentity io = firstQualifying io.EnumWindows := by
    unfold tickIdentity
    rw [hw]
    dsimp only
    rw [hon]
    have hc : (FAILED hWnd.GetWindowDesktopId_hr
        || IsEqualGUID (hWnd.GetWindowDesktopId_out.getD GUID.empty) GUID.empty) = true := by
      rcases hno with h | h
      · rw [h]; rfl
      · rw [h]; simp [IsEqualGUID]
    simp only [Bool.false_eq_true, if_false, hc, if_true]
    exact enumWindowsFind_eq_firstQualifying _
  have he := CheckDesktopChange_eq io s hpub hl
  rw [ht] at he
  refine ⟨enumWindowsFind_eq_firstQualifying _, ht, fun hn => ?_, fun d hd => ?_⟩
  · unfold PollingTimerProc
    rw [he, hn]
  · unfold PollingTimerProc
    rw [he, hd]

/-- C26 (instance): the foreground window is shown on all desktops; the
second enumerated window is the first that qualifies, the first being
invisible, and the tick stores its identity. -/
theorem polling_fallback_selection_witness :
    (registeredWhilePinned.PollingTimerProc
      { foregroundPinned with
        EnumWindows := [{ IsWindowVisible := false, GetWindowDesktopId_out := some (sampleId 2),
                          IsWindowOnCurrentVirtualDesktop_out := true },
                        { GetWindowDesktopId_out := some (sampleId 1),
                          IsWindowOnCurrentVirtualDesktop_out := true }] }).m_lastKnownDesktopId
      = sampleId 1 :=
  have h := (polling_fallback_selection
    { foregroundPinned with
      EnumWindows := [{ IsWindowVisible := false, GetWindowDesktopId_out := some (sampleId 2),
                        IsWindowOnCurrentVirtualDesktop_out := true },
                      { GetWindowDesktopId_out := some (sampleId 1),
                        IsWindowOnCurrentVirtualDesktop_out := true }] }
    registeredWhilePinned
    { GetWindowDesktopId_out := some GUID.empty, IsWindowOnCurrentVirtualDesktop_out := true }
    (by decide) (by decide) (by decide) (by decide) (Or.inr (by decide))).2.2.2
      (sampleId 1) (by decide)
  (congrArg VirtualDesktop.m_lastKnownDesktopId h).trans (by decide)

/-! ## Registration and the first tick -/

theorem SetDesktopSwitchCallback_foreground (io : Interop) (cb : Nat) (s : VirtualDesktop)
    (w : Window) (d : GUID) (hp : s.m_usingPolling = true)
    (hpub : s.m_pPublicVirtualDesktopManager = true)
    (hf : io.GetForegroundWindow = some w) (hd : w.GetWindowDesktopId_out = some d) :
    (s.SetDesktopSwitchCallback io (some cb)).m_lastKnownDesktopId = d ∧
    (s.SetDesktopSwitchCallback io (some cb)).m_pPublicVirtualDesktopManager = true ∧
    (s.SetDesktopSwitchCallback io (some cb)).m_switchCallback = some cb := by
  unfold SetDesktopSwitchCallback
  simp [hp, hpub, hf, hd]

/-- C27 (the code evaluated on a concrete run): Polling mode, the foreground
window shown on all desktops and a visible window of the current desktop in
the enumeration, the same answers at registration and at the tick.  The
registration leaves the last-known identity empty, and the first tick
invokes the listener although no switch happened; a second tick is silent.
When the foreground window itself reports a non-empty identity at
registration, a tick under the same answers changes nothing. -/
theorem first_tick_after_registration_signals_without_switch :
    Reachable registeredWhilePinned ∧
    registeredWhilePinned.m_usingPolling = true ∧
    registeredWhilePinned.m_lastKnownDesktopId = GUID.empty ∧
    firstQualifying foregroundPinned.EnumWindows = some (sampleId 1) ∧
    (registeredWhilePinned.PollingTimerProc foregroundPinned).calls =
      registeredWhilePinned.calls ++ [Effect.Callback 1 1 "Desktop 1"] ∧
    ((registeredWhilePinned.PollingTimerProc foregroundPinned).PollingTimerProc
      foregroundPinned).calls = (registeredWhilePinned.PollingTimerProc foregroundPinned).calls ∧
    (∀ (io : Interop) (s : VirtualDesktop) (cb : Nat) (w : Window) (d : GUID),
      s.m_usingPolling = true → s.m_pPublicVirtualDesktopManager = true →
      io.GetForegroundWindow = some w → w.GetWindowDesktopId_out = some d →
      FAILED w.GetWindowDesktopId_hr = false → d ≠ GUID.empty →
      (s.SetDesktopSwitchCallback io (some cb)).PollingTimerProc io
        = s.SetDesktopSwitchCallback io (some cb)) := by
  refine ⟨Reachable_registeredWhilePinned, by decide, by decide, by decide, by decide,
    by decide, fun io s cb w d hp hpub hf hd hr hne => ?_⟩
  obtain ⟨e1, e2, e3⟩ := SetDesktopSwitchCallback_foreground io cb s w d hp hpub hf hd
  unfold PollingTimerProc
  rw [CheckDesktopChange_eq io _ e2 (by rw [e3]; rfl)]
  have ht : tickIdentity io = none ∨ tickIdentity io = some d := by
    unfold tickIdentity sampledWindow
    rw [hf]
    dsimp only
    cases FAILED w.IsWindowOnCurrentVirtualDesktop_hr
    · right
      simp [hr, hd, IsEqualGUID, hne]
    · left
      simp
  rcases ht with h | h
  · rw [h]
  · rw [h, e1]
    simp

/-! ## Event sinks and per-variant selection -/

/-- C28: the sinks forward only "current desktop changed".  For each of the
four sink classes, a callback the class declares returns `S_OK`; every
callback other than `CurrentVirtualDesktopChanged` leaves the state, the
recorded calls included, as it was, and `CurrentVirtualDesktopChanged` runs
the dispatcher `OnDesktopSwitched` once, whatever its resolution gives.  The
classes declare 6, 10, 12 and 12 callbacks, `CurrentVirtualDesktopChanged`
among them. -/
theorem sinks_forward_only_current_desktop_changed (sink : NotificationSink)
    (m : SinkCallback) (io : Interop) (s : VirtualDesktop) :
    sink.callback m io s =
      (if m ∈ sink.declared then
        some (S_OK, if m = SinkCallback.CurrentVirtualDesktopChanged then s.OnDesktopSwitched io
                    else s)
       else none) ∧
    SinkCallback.CurrentVirtualDesktopChanged ∈ sink.declared ∧
    sink.declared.Nodup ∧
    sink.declared.length =
      (match sink with
       | NotificationSink.Win10 => 6
       | NotificationSink.Win11_21H2 => 10
       | NotificationSink.Win11_23H2 => 12
       | NotificationSink.Win11_24H2_Preview => 12) := by
  refine ⟨?_, ?_, ?_, ?_⟩
  · cases sink <;> cases m <;>
      simp [NotificationSink.callback, NotificationSink.declared,
        VirtualDesktopNotification_Win10.callback, VirtualDesktopNotification_Win11_21H2.callback,
        VirtualDesktopNotification_Win11_23H2.callback,
        VirtualDesktopNotification_Win11_24H2_Preview.callback]
  · cases sink <;> decide
  · cases sink <;> decide
  · cases sink <;> rfl

theorem enumeratedDesktopIdVia_eq (version : WindowsVirtualDesktopVersion)
    (p : InterfaceFamily → DesktopObject) :
    enumeratedDesktopIdVia version p = enumeratedDesktopId version (p (variantGroup version)) := by
  cases version <;> rfl

theorem indexLoopVia_eq (version : WindowsVirtualDesktopVersion) (arr : DesktopPointerArray)
    (guid : GUID) (n i : Nat) :
    indexLoopVia version arr guid n i
      = indexLoop version (arr.through (variantGroup version)) guid n i := by
  induction n generalizing i with
  | zero => rfl
  | succ k ih =>
    rw [indexLoopVia, indexLoop]
    simp only [DesktopPointerArray.through]
    cases h : arr.GetAt i with
    | none => simpa using ih (i + 1)
    | some p =>
      simp only [Option.map_some', enumeratedDesktopIdVia_eq]
      rw [ih (i + 1)]
      rfl

theorem callGetDesktopsVia_eq (via : InterfaceFamily → ManagerAnswers) (io : Interop)
    (version : WindowsVirtualDesktopVersion) :
    callGetDesktops (answersThrough via io (variantGroup version)) version =
      ((callGetDesktopsVia via version).1,
       (callGetDesktopsVia via version).2.map fun arr => arr.through (variantGroup version)) := by
  cases version <;> rfl

theorem callGetCountVia_eq (via : InterfaceFamily → ManagerAnswers) (io : Interop)
    (version : WindowsVirtualDesktopVersion) :
    callGetCount (answersThrough via io (variantGroup version)) version
      = callGetCountVia via version := by
  cases version <;> rfl

theorem GetDesktopCountVia_eq (via : InterfaceFamily → ManagerAnswers) (io : Interop)
    (s : VirtualDesktop) :
    s.GetDesktopCountVia via
      = s.GetDesktopCount (answersThrough via io (variantGroup s.m_windowsVersion)) := by
  unfold GetDesktopCountVia GetDesktopCount
  rw [callGetCountVia_eq]

theorem GetDesktopIndexByGUIDVia_eq (via : InterfaceFamily → ManagerAnswers) (io : Interop)
    (s : VirtualDesktop) (guid : GUID) :
    GetDesktopIndexByGUIDVia via s guid
      = GetDesktopIndexByGUID (answersThrough via io (variantGroup s.m_windowsVersion)) s
          guid := by
  unfold GetDesktopIndexByGUIDVia GetDesktopIndexByGUID
  rw [callGetDesktopsVia_eq]
  dsimp only
  cases h : (callGetDesktopsVia via s.m_windowsVersion).2 with
  | none => rfl
  | some arr =>
    simp only [Option.map_some', indexLoopVia_eq]
    rfl

theorem GetDesktopInfoWin10Via_eq (via : InterfaceFamily → ManagerAnswers) (io : Interop)
    (s : VirtualDesktop) (p : InterfaceFamily → DesktopObject) (info : DesktopInfo) :
    GetDesktopInfoWin10Via via s p info
      = GetDesktopInfoWin10 (answersThrough via io (variantGroup s.m_windowsVersion)) s
          (p InterfaceFamily.Win10) info := by
  unfold GetDesktopInfoWin10Via GetDesktopInfoWin10
  simp only [GetDesktopIndexByGUIDVia_eq via io]

theorem GetDesktopInfoWin11_21H2Via_eq (via : InterfaceFamily → ManagerAnswers) (io : Interop)
    (s : VirtualDesktop) (p : InterfaceFamily → DesktopObject) (info : DesktopInfo) :
    GetDesktopInfoWin11_21H2Via via s p info
      = GetDesktopInfoWin11_21H2 (answersThrough via io (variantGroup s.m_windowsVersion)) s
          (p InterfaceFamily.Win11_21H2) info := by
  unfold GetDesktopInfoWin11_21H2Via GetDesktopInfoWin11_21H2
  simp only [GetDesktopIndexByGUIDVia_eq via io]

theorem GetDesktopInfoWin11_23H2Via_eq (via : InterfaceFamily → ManagerAnswers) (io : Interop)
    (s : VirtualDesktop) (p : InterfaceFamily → DesktopObject) (info : DesktopInfo) :
    GetDesktopInfoWin11_23H2Via via s p info
      = GetDesktopInfoWin11_23H2 (answersThrough via io (variantGroup s.m_windowsVersion)) s
          (p InterfaceFamily.Win11_23H2) info := by
  unfold GetDesktopInfoWin11_23H2Via GetDesktopInfoWin11_23H2
  simp only [GetDesktopIndexByGUIDVia_eq via io]

theorem GetDesktopInfoWin11_24H2_PreviewVia_eq (via : InterfaceFamily → ManagerAnswers)
    (io : Interop) (s : VirtualDesktop) (p : InterfaceFamily → DesktopObject)
    (info : DesktopInfo) :
    GetDesktopInfoWin11_24H2_PreviewVia via s p info
      = GetDesktopInfoWin11_24H2_Preview
          (answersThrough via io (variantGroup s.m_windowsVersion)) s
          (p InterfaceFamily.Win11_24H2_Preview) info := by
  unfold GetDesktopInfoWin11_24H2_PreviewVia GetDesktopInfoWin11_24H2_Preview
  simp only [GetDesktopIndexByGUIDVia_eq via io]

theorem GetCurrentDesktopVia_eq (via : InterfaceFamily → ManagerAnswers) (io : Interop)
    (s : VirtualDesktop) (info : DesktopInfo) :
    s.GetCurrentDesktopVia via io info
      = s.GetCurrentDesktop (answersThrough via io (variantGroup s.m_windowsVersion)) info := by
  unfold GetCurrentDesktopVia GetCurrentDesktop
  by_cases hc : (s.m_available && s.m_pVirtualDesktopManagerInternal && !s.m_usingPolling) = true
  · rw [if_pos hc, if_pos hc]
    unfold GetCurrentDesktopWin10Via GetCurrentDesktopWin11_21H2Via
      GetCurrentDesktopWin11_23H2Via GetCurrentDesktopWin11_24H2_PreviewVia
      GetCurrentDesktopWin10 GetCurrentDesktopWin11_21H2 GetCurrentDesktopWin11_23H2
      GetCurrentDesktopWin11_24H2_Preview
    simp only [GetDesktopInfoWin10Via_eq via io, GetDesktopInfoWin11_21H2Via_eq via io,
      GetDesktopInfoWin11_23H2Via_eq via io, GetDesktopInfoWin11_24H2_PreviewVia_eq via io]
    cases s.m_windowsVersion <;> rfl
  · rw [if_neg hc, if_neg hc]
    rfl

theorem GetDesktopByIndexVia_eq (via : InterfaceFamily → ManagerAnswers) (io : Interop)
    (s : VirtualDesktop) (index : Int) (info : DesktopInfo) :
    s.GetDesktopByIndexVia via index info
      = s.GetDesktopByIndex (answersThrough via io (variantGroup s.m_windowsVersion)) index
          info := by
  unfold GetDesktopByIndexVia GetDesktopByIndex
  rw [callGetDesktopsVia_eq]
  simp only [GetDesktopInfoWin10Via_eq via io, GetDesktopInfoWin11_21H2Via_eq via io,
    GetDesktopInfoWin11_23H2Via_eq via io, GetDesktopInfoWin11_24H2_PreviewVia_eq via io]
  cases h : (callGetDesktopsVia via s.m_windowsVersion).2 with
  | none => rfl
  | some arr =>
    simp only [Option.map_some', DesktopPointerArray.through]
    cases h2 : arr.GetAt (toUInt32 (index - 1)) with
    | none => simp
    | some p =>
      simp only [Option.map_some']
      cases s.m_windowsVersion <;> rfl

theorem IObjectArray_uniform_through (arr : IObjectArray) (f : InterfaceFamily) :
    arr.uniform.through f = arr := by
  cases arr with
  | mk count getAt =>
    simp only [IObjectArray.uniform, DesktopPointerArray.through, IObjectArray.mk.injEq,
      true_and]
    funext i
    cases getAt i <;> rfl

theorem answersThrough_uniform (io : Interop) (f : InterfaceFamily) :
    answersThrough io.uniform io f = io := by
  cases io with
  | mk a1 a2 a3 a4 a5 a6 a7 a8 a9 a10 a11 a12 a13 a14 a15 a16 a17 a18 a19 a20 a21 a22 a23 a24
      a25 =>
    simp only [answersThrough, Interop.uniform, Interop.mk.injEq, true_and, and_true]
    cases a15 with
    | none => rfl
    | some arr => simp [IObjectArray_uniform_through]

theorem notificationOn_spec (w : WindowsVirtualDesktopVersion) :
    Reachable (notificationOn w) ∧ (notificationOn w).m_windowsVersion = w ∧
    (notificationOn w).m_available = true ∧
    (notificationOn w).m_pVirtualDesktopManagerInternal = true ∧
    (notificationOn w).m_usingPolling = false :=
  ⟨Reachable.step Reachable.initial (Step.Init _ _), by cases w <;> decide,
    by cases w <;> decide, by cases w <;> decide, by cases w <;> decide⟩

/-- C29: per-variant selection is consistent.  Two variants receive the same
identifier table exactly when they are in the same group, and the sink
chosen at acquisition is the one of the variant's group.  For the query
methods the operating system is refined so that what an internal object
answers may depend on the interface through which it is called: on every
variant `GetCurrentDesktop`, `GetDesktopCount`, `GetDesktopIndexByGUID` and
`GetDesktopByIndex`, every `switch` they contain included, give what they
give when the manager and the desktop objects are used through the
interfaces of the variant's group alone, and, when the answers do not
depend on the interface, what they give under those answers; in Notification
mode on the
variant `w`, with answers that tell the group of `v` from the others,
`GetDesktopCount` tells whether `w` is in that group.  With a result slot,
the sink chosen for a variant answers `QueryInterface` with `S_OK` and itself
for `IID_IUnknown` and for the notification identifier of the variant's
table, two distinct identifiers, and with `E_NOINTERFACE` and a null result
for every other identifier; without a slot it answers `E_POINTER`. -/
theorem variant_selection_consistent (v w : WindowsVirtualDesktopVersion) (riid : GUID)
    (m_refCount : Nat) :
    (VirtualDesktopGUIDs.ForVersion v = VirtualDesktopGUIDs.ForVersion w
      ↔ variantGroup v = variantGroup w) ∧
    (sinkForVersion v).family = variantGroup v ∧
    (∀ (via : InterfaceFamily → ManagerAnswers) (io : Interop) (s : VirtualDesktop)
        (info : DesktopInfo), s.m_windowsVersion = v →
      s.GetCurrentDesktopVia via io info
        = s.GetCurrentDesktop (answersThrough via io (variantGroup v)) info) ∧
    (∀ (via : InterfaceFamily → ManagerAnswers) (io : Interop) (s : VirtualDesktop),
      s.m_windowsVersion = v →
      s.GetDesktopCountVia via = s.GetDesktopCount (answersThrough via io (variantGroup v))) ∧
    (∀ (via : InterfaceFamily → ManagerAnswers) (io : Interop) (s : VirtualDesktop)
        (guid : GUID), s.m_windowsVersion = v →
      GetDesktopIndexByGUIDVia via s guid
        = GetDesktopIndexByGUID (answersThrough via io (variantGroup v)) s guid) ∧
    (∀ (via : InterfaceFamily → ManagerAnswers) (io : Interop) (s : VirtualDesktop)
        (index : Int) (info : DesktopInfo), s.m_windowsVersion = v →
      s.GetDesktopByIndexVia via index info
        = s.GetDesktopByIndex (answersThrough via io (variantGroup v)) index info) ∧
    (∀ (io : Interop) (s : VirtualDesktop) (guid : GUID) (index : Int) (info : DesktopInfo),
      s.GetCurrentDesktopVia io.uniform io info = s.GetCurrentDesktop io info ∧
      s.GetDesktopCountVia io.uniform = s.GetDesktopCount io ∧
      GetDesktopIndexByGUIDVia io.uniform s guid = GetDesktopIndexByGUID io s guid ∧
      s.GetDesktopByIndexVia io.uniform index info = s.GetDesktopByIndex io index info) ∧
    (Reachable (notificationOn w) ∧ (notificationOn w).m_windowsVersion = w ∧
      (notificationOn w).GetDesktopCountVia (twoThrough (variantGroup v))
        = (if variantGroup w = variantGroup v then 2 else 3)) ∧
    IID_IUnknown ≠ (VirtualDesktopGUIDs.ForVersion v).iidVirtualDesktopNotification ∧
    (sinkForVersion v).QueryInterface m_refCount riid true =
      (if riid = IID_IUnknown ∨
          riid = (VirtualDesktopGUIDs.ForVersion v).iidVirtualDesktopNotification then
        (S_OK, true, (m_refCount + 1) % 2 ^ 32)
       else (E_NOINTERFACE, false, m_refCount)) ∧
    (sinkForVersion v).QueryInterface m_refCount riid false = (E_POINTER, false, m_refCount) := by
  refine ⟨?_, ?_, ?_, ?_, ?_, ?_, ?_,
    ⟨(notificationOn_spec w).1, (notificationOn_spec w).2.1, ?_⟩, ?_, ?_, ?_⟩
  · cases v <;> cases w <;> decide
  · cases v <;> rfl
  · intro via io s info hv
    rw [GetCurrentDesktopVia_eq via io, hv]
  · intro via io s hv
    rw [GetDesktopCountVia_eq via io, hv]
  · intro via io s guid hv
    rw [GetDesktopIndexByGUIDVia_eq via io, hv]
  · intro via io s index info hv
    rw [GetDesktopByIndexVia_eq via io, hv]
  · intro io s guid index info
    refine ⟨?_, ?_, ?_, ?_⟩
    · rw [GetCurrentDesktopVia_eq io.uniform io, answersThrough_uniform]
    · rw [GetDesktopCountVia_eq io.uniform io, answersThrough_uniform]
    · rw [GetDesktopIndexByGUIDVia_eq io.uniform io, answersThrough_uniform]
    · rw [GetDesktopByIndexVia_eq io.uniform io, answersThrough_uniform]
  · cases v <;> cases w <;> decide
  · cases v <;> decide
  · cases v <;> rfl
  · cases v <;> rfl

/-! ## Coherence of the capability flags -/

/-- C30: the capability flags stay coherent.  In every state reachable from the
initial one by `Init`, `Shutdown`, listener registration and clearing, polling
ticks, sink notifications and queries, under any answers of the operating
system: polling implies available, available implies initialised, a non-zero
timer identifier implies polling, and `IsAvailable()` is never true while
`IsInitialized()` is false. -/
theorem capability_flags_coherent (s : VirtualDesktop) (hs : Reachable s) :
    (s.m_usingPolling = true → s.m_available = true) ∧
    (s.m_available = true → s.m_initialized = true) ∧
    (s.m_pollingTimer ≠ 0 → s.m_usingPolling = true) ∧
    ¬ (s.IsAvailable = true ∧ s.IsInitialized = false) := by
  have hc := Reachable_Coherent hs
  have ht := Reachable_Tracked hs
  refine ⟨hc.polling_available, hc.available_initialized, ht.timer_polling, ?_⟩
  rintro ⟨ha, hi⟩
  have := hc.available_initialized ha
  simp only [VirtualDesktop.IsInitialized] at hi
  rw [hi] at this
  exact absurd this (by decide)

/-- C30 (instance): after two listener registrations in Polling mode a timer
identifier is held, and the three flags are set. -/
theorem capability_flags_coherent_witness :
    registeredTwice.m_pollingTimer = 2 ∧ registeredTwice.m_usingPolling = true ∧
    registeredTwice.m_available = true ∧ registeredTwice.m_initialized = true :=
  have h := capability_flags_coherent registeredTwice Reachable_registeredTwice
  ⟨by decide, h.2.2.1 (by decide), h.1 (h.2.2.1 (by decide)),
    h.2.1 (h.1 (h.2.2.1 (by decide)))⟩

end VirtualOverlay
